import Mathlib

/-!
CPU identification in BLIS (`frame/base/bli_cpuid.c`)

A shallow embedding of the override resolver `bli_env_check`, of the x86 and
ARM variants of `bli_cpuid_query_id`, of the signature predicates
`bli_cpuid_is_*`, of the x86 `bli_cpuid_query` and `vpu_count`, of
`find_string_in` with the 32-bit ARM `bli_cpuid_query` that scans
`/proc/cpuinfo`, of the 64-bit ARM `get_coretype` and of the IBM Z
`bli_cpuid_query` and `bli_cpuid_query_id`, followed by theorems about them.

Conventions.
* `uint32_t` values are natural numbers; where C truncates to 32 bits the
  model reduces modulo `2^32` explicitly.
* `arch_t` values are integers: the enumerators are natural numbers (they
  index the name table of `bli_arch_string`), and `-1` is the value
  `bli_env_check` returns when there is no override.
* The headers `bli_cpuid.h`, `bli_type_defs.h` and `bli_arch.h` are not part
  of the sources at hand.  Their enumerators are parameters of the model
  (`ArchIds`, `FeatureFlags`, the name table), so every theorem holds for
  every numbering.
* The preprocessor symbols `BLIS_CONFIGURETIME_CPUID` and `BLIS_CONFIG_*` are
  the boolean fields of `Build`.
* C strings are lists of character codes; a loop that need not terminate
  takes a bound on its iterations and returns `none` when the bound is reached.
-/

set_option linter.unusedVariables false

namespace Blis

/-! ## Parameters standing for the absent headers -/

/-- The `arch_t` enumerators of `bli_type_defs.h` used by `bli_cpuid.c`,
together with `BLIS_NUM_ARCHS`. -/
structure ArchIds where
  SKX : Nat
  KNL : Nat
  HASWELL : Nat
  SANDYBRIDGE : Nat
  PENRYN : Nat
  ZEN2 : Nat
  ZEN : Nat
  EXCAVATOR : Nat
  STEAMROLLER : Nat
  PILEDRIVER : Nat
  BULLDOZER : Nat
  A64FX : Nat
  THUNDERX2 : Nat
  CORTEXA57 : Nat
  CORTEXA53 : Nat
  CORTEXA15 : Nat
  CORTEXA9 : Nat
  GENERIC : Nat
  NUM_ARCHS : Nat

/-- The `FEATURE_*` enumerators of `bli_cpuid.h` (x86). -/
structure FeatureFlags where
  SSE3 : Nat
  SSSE3 : Nat
  SSE41 : Nat
  SSE42 : Nat
  AVX : Nat
  AVX2 : Nat
  FMA3 : Nat
  FMA4 : Nat
  AVX512F : Nat
  AVX512DQ : Nat
  AVX512PF : Nat
  AVX512ER : Nat
  AVX512CD : Nat
  AVX512BW : Nat
  AVX512VL : Nat

/-- The preprocessor configuration of one build of the library. -/
structure Build where
  CONFIGURETIME_CPUID : Bool
  CONFIG_SKX : Bool
  CONFIG_KNL : Bool
  CONFIG_HASWELL : Bool
  CONFIG_SANDYBRIDGE : Bool
  CONFIG_PENRYN : Bool
  CONFIG_ZEN2 : Bool
  CONFIG_ZEN : Bool
  CONFIG_EXCAVATOR : Bool
  CONFIG_STEAMROLLER : Bool
  CONFIG_PILEDRIVER : Bool
  CONFIG_BULLDOZER : Bool
  CONFIG_A64FX : Bool
  CONFIG_THUNDERX2 : Bool
  CONFIG_CORTEXA57 : Bool
  CONFIG_CORTEXA53 : Bool
  CONFIG_CORTEXA15 : Bool
  CONFIG_CORTEXA9 : Bool

/-- Modelled from the spec: the vendor enumerators of `bli_cpuid.h`, which is
not under the sources.  The spec's data model lists them as
INTEL, AMD, ARM, IBM, UNKNOWN; the code only compares them for equality. -/
inductive vendor_t where
  | VENDOR_INTEL
  | VENDOR_AMD
  | VENDOR_ARM
  | VENDOR_IBM
  | VENDOR_UNKNOWN
  deriving DecidableEq, Repr

/-- Modelled from the spec: the ARM `MODEL_*` enumerators of `bli_cpuid.h`,
which is not under the sources (ARM generations); the code only compares them
for equality. -/
inductive arm_model_t where
  | MODEL_ARMV7
  | MODEL_ARMV8
  | MODEL_UNKNOWN
  deriving DecidableEq, Repr

open vendor_t arm_model_t

/-- Modelled from the spec: `bli_cpuid_has_features` is an inline function of
`bli_cpuid.h`, which is not under the sources.  A signature matches only if
every required flag is present, extra flags being ignored:
`(have & want) == want`. -/
def bli_cpuid_has_features (hv want : Nat) : Bool :=
  (hv &&& want) == want

/-! ## C strings -/

/-- The character codes of a string literal. -/
def ascii (lit : String) : List Nat :=
  lit.toList.map Char.toNat

/-- The C string starting at the first byte of a memory area: the bytes up to
the first NUL. -/
def c_string (mem : List Nat) : List Nat :=
  mem.takeWhile (fun c => c != 0)

/-! ## The override resolver -/

/-- The `for` loop of `bli_env_check`.  The first argument is the number of
iterations still allowed by the loop condition, `BLIS_NUM_ARCHS - i`; the
second is the loop variable `i`.  When the variable is set the body returns
in both branches of the `strcmp` test; when the loop runs out the function
returns `-1`. -/
def bli_env_check_loop (arch_string : Nat → String) (GENERIC : Nat)
    (envval : Option String) : Nat → Nat → Int
  | 0, _ => -1
  | k + 1, i =>
    match envval with
    | some s => if s = arch_string i then (i : Int) else (GENERIC : Int)
    | none => bli_env_check_loop arch_string GENERIC envval k (i + 1)

/-- The function `bli_env_check`: `envval` is the result of
`getenv("BLIS_CORETYPE")`.  Under `BLIS_CONFIGURETIME_CPUID` the environment
is not read. -/
def bli_env_check (b : Build) (A : ArchIds) (arch_string : Nat → String)
    (envval : Option String) : Int :=
  if b.CONFIGURETIME_CPUID then -1
  else bli_env_check_loop arch_string A.GENERIC envval A.NUM_ARCHS 0

/-! ## x86: the signature predicates

The parameters `family` and `model` are kept although the Intel predicates
ignore them.  `bli_cpuid_is_skx` calls `vpu_count()`; its result is the
parameter `nvpu`. -/

namespace X86

/-- The function `bli_cpuid_is_skx`; `nvpu` is the value of `vpu_count()`. -/
def bli_cpuid_is_skx (F : FeatureFlags) (family model features : Nat) (nvpu : Int) : Bool :=
  let expected := F.AVX ||| F.FMA3 ||| F.AVX2 ||| F.AVX512F ||| F.AVX512DQ |||
    F.AVX512BW ||| F.AVX512VL
  if bli_cpuid_has_features features expected then
    if nvpu = 1 then false
    else if nvpu = 2 then true
    else false
  else false

/-- The function `bli_cpuid_is_knl`. -/
def bli_cpuid_is_knl (F : FeatureFlags) (family model features : Nat) : Bool :=
  let expected := F.AVX ||| F.FMA3 ||| F.AVX2 ||| F.AVX512F ||| F.AVX512PF
  if !bli_cpuid_has_features features expected then false else true

/-- The function `bli_cpuid_is_haswell`. -/
def bli_cpuid_is_haswell (F : FeatureFlags) (family model features : Nat) : Bool :=
  let expected := F.AVX ||| F.FMA3 ||| F.AVX2
  if !bli_cpuid_has_features features expected then false else true

/-- The function `bli_cpuid_is_sandybridge`. -/
def bli_cpuid_is_sandybridge (F : FeatureFlags) (family model features : Nat) : Bool :=
  let expected := F.AVX
  if !bli_cpuid_has_features features expected then false else true

/-- The function `bli_cpuid_is_penryn`. -/
def bli_cpuid_is_penryn (F : FeatureFlags) (family model features : Nat) : Bool :=
  let expected := F.SSE3 ||| F.SSSE3
  if !bli_cpuid_has_features features expected then false else true

/-- The function `bli_cpuid_is_zen2`. -/
def bli_cpuid_is_zen2 (F : FeatureFlags) (family model features : Nat) : Bool :=
  let expected := F.AVX ||| F.FMA3 ||| F.AVX2
  if !bli_cpuid_has_features features expected then false
  else if family != 0x17 then false
  else
    let is_arch := decide (0x30 ≤ model) && decide (model ≤ 0xff)
    if !is_arch then false else true

/-- The function `bli_cpuid_is_zen`. -/
def bli_cpuid_is_zen (F : FeatureFlags) (family model features : Nat) : Bool :=
  let expected := F.AVX ||| F.FMA3 ||| F.AVX2
  if !bli_cpuid_has_features features expected then false
  else if family != 0x17 then false
  else
    let is_arch := decide (0x00 ≤ model) && decide (model ≤ 0xff)
    if !is_arch then false else true

/-- The function `bli_cpuid_is_excavator`. -/
def bli_cpuid_is_excavator (F : FeatureFlags) (family model features : Nat) : Bool :=
  let expected := F.AVX ||| F.FMA3 ||| F.AVX2
  if !bli_cpuid_has_features features expected then false
  else if family != 0x15 then false
  else
    let is_arch := decide (0x60 ≤ model) && decide (model ≤ 0x7f)
    if !is_arch then false else true

/-- The function `bli_cpuid_is_steamroller`. -/
def bli_cpuid_is_steamroller (F : FeatureFlags) (family model features : Nat) : Bool :=
  let expected := F.AVX ||| F.FMA3 ||| F.FMA4
  if !bli_cpuid_has_features features expected then false
  else if family != 0x15 then false
  else
    let is_arch := decide (0x30 ≤ model) && decide (model ≤ 0x3f)
    if !is_arch then false else true

/-- The function `bli_cpuid_is_piledriver`. -/
def bli_cpuid_is_piledriver (F : FeatureFlags) (family model features : Nat) : Bool :=
  let expected := F.AVX ||| F.FMA3 ||| F.FMA4
  if !bli_cpuid_has_features features expected then false
  else if family != 0x15 then false
  else
    let is_arch := decide (model = 0x02) || (decide (0x10 ≤ model) && decide (model ≤ 0x1f))
    if !is_arch then false else true

/-- The function `bli_cpuid_is_bulldozer`. -/
def bli_cpuid_is_bulldozer (F : FeatureFlags) (family model features : Nat) : Bool :=
  let expected := F.AVX ||| F.FMA4
  if !bli_cpuid_has_features features expected then false
  else if family != 0x15 then false
  else
    let is_arch := decide (model = 0x00) || decide (model = 0x01)
    if !is_arch then false else true

/-! ## x86: `bli_cpuid_query_id` -/

/-- The override tests at the head of the x86 `bli_cpuid_query_id`, in source
order; `envval` is the value returned by `bli_env_check`.  The result is
`some a` when one of the tests returns `a`, and `none` when control reaches
the call of `bli_cpuid_query`.  There is no test for `BLIS_ARCH_ZEN2`. -/
def bli_cpuid_query_id_override (b : Build) (A : ArchIds) (envval : Int) : Option Nat :=
  if b.CONFIG_SKX && ((A.SKX : Int) == envval) then some A.SKX
  else if b.CONFIG_KNL && ((A.KNL : Int) == envval) then some A.KNL
  else if b.CONFIG_HASWELL && ((A.HASWELL : Int) == envval) then some A.HASWELL
  else if b.CONFIG_SANDYBRIDGE && ((A.SANDYBRIDGE : Int) == envval) then some A.SANDYBRIDGE
  else if b.CONFIG_PENRYN && ((A.PENRYN : Int) == envval) then some A.PENRYN
  else if b.CONFIG_ZEN && ((A.ZEN : Int) == envval) then some A.ZEN
  else if b.CONFIG_EXCAVATOR && ((A.EXCAVATOR : Int) == envval) then some A.EXCAVATOR
  else if b.CONFIG_STEAMROLLER && ((A.STEAMROLLER : Int) == envval) then some A.STEAMROLLER
  else if b.CONFIG_PILEDRIVER && ((A.PILEDRIVER : Int) == envval) then some A.PILEDRIVER
  else if b.CONFIG_BULLDOZER && ((A.BULLDOZER : Int) == envval) then some A.BULLDOZER
  else if (A.GENERIC : Int) == envval then some A.GENERIC
  else none

/-- The signature matcher of the x86 `bli_cpuid_query_id`: the code after the
call of `bli_cpuid_query`, on the vendor, family, model and feature mask that
call produced and on the value `nvpu` of `vpu_count()`. -/
def bli_cpuid_query_id_match (b : Build) (A : ArchIds) (F : FeatureFlags)
    (vendor : vendor_t) (family model features : Nat) (nvpu : Int) : Nat :=
  if vendor = VENDOR_INTEL then
    if b.CONFIG_SKX && bli_cpuid_is_skx F family model features nvpu then A.SKX
    else if b.CONFIG_KNL && bli_cpuid_is_knl F family model features then A.KNL
    else if b.CONFIG_HASWELL && bli_cpuid_is_haswell F family model features then A.HASWELL
    else if b.CONFIG_SANDYBRIDGE && bli_cpuid_is_sandybridge F family model features then
      A.SANDYBRIDGE
    else if b.CONFIG_PENRYN && bli_cpuid_is_penryn F family model features then A.PENRYN
    else A.GENERIC
  else if vendor = VENDOR_AMD then
    if b.CONFIG_ZEN2 && bli_cpuid_is_zen2 F family model features then A.ZEN2
    else if b.CONFIG_ZEN && bli_cpuid_is_zen F family model features then A.ZEN
    else if b.CONFIG_EXCAVATOR && bli_cpuid_is_excavator F family model features then A.EXCAVATOR
    else if b.CONFIG_STEAMROLLER && bli_cpuid_is_steamroller F family model features then
      A.STEAMROLLER
    else if b.CONFIG_PILEDRIVER && bli_cpuid_is_piledriver F family model features then
      A.PILEDRIVER
    else if b.CONFIG_BULLDOZER && bli_cpuid_is_bulldozer F family model features then
      A.BULLDOZER
    else A.GENERIC
  else if vendor = VENDOR_UNKNOWN then A.GENERIC
  else A.GENERIC

/-- The body of the x86 `bli_cpuid_query_id` as a function of the values it
obtains from its callees: `envval` from `bli_env_check`, the vendor, family,
model and features from `bli_cpuid_query`, and `nvpu` from `vpu_count`. -/
def bli_cpuid_query_id_with (b : Build) (A : ArchIds) (F : FeatureFlags) (envval : Int)
    (vendor : vendor_t) (family model features : Nat) (nvpu : Int) : Nat :=
  match bli_cpuid_query_id_override b A envval with
  | some a => a
  | none => bli_cpuid_query_id_match b A F vendor family model features nvpu

end X86

/-! ## ARM: the signature predicates and `bli_cpuid_query_id`

The ARM predicates are declared with the parameter names
`(family, model, features)` and are called with `(model, part, features)`, so
their second parameter is the part number. -/

namespace Arm

/-- The function `bli_cpuid_is_a64fx`. -/
def bli_cpuid_is_a64fx (A : ArchIds) (family : arm_model_t) (model features : Nat) : Bool :=
  model == A.A64FX

/-- The function `bli_cpuid_is_thunderx2`. -/
def bli_cpuid_is_thunderx2 (A : ArchIds) (family : arm_model_t) (model features : Nat) : Bool :=
  model == A.THUNDERX2

/-- The function `bli_cpuid_is_cortexa57`. -/
def bli_cpuid_is_cortexa57 (A : ArchIds) (family : arm_model_t) (model features : Nat) : Bool :=
  model == A.CORTEXA57

/-- The function `bli_cpuid_is_cortexa53`. -/
def bli_cpuid_is_cortexa53 (A : ArchIds) (family : arm_model_t) (model features : Nat) : Bool :=
  model == A.CORTEXA53

/-- The function `bli_cpuid_is_cortexa15`; `NEON` is `FEATURE_NEON`. -/
def bli_cpuid_is_cortexa15 (NEON : Nat) (family : arm_model_t) (model features : Nat) : Bool :=
  let expected := NEON
  bli_cpuid_has_features features expected && model == 0xc0f

/-- The function `bli_cpuid_is_cortexa9`; `NEON` is `FEATURE_NEON`. -/
def bli_cpuid_is_cortexa9 (NEON : Nat) (family : arm_model_t) (model features : Nat) : Bool :=
  let expected := NEON
  bli_cpuid_has_features features expected && model == 0xc09

/-- The override tests at the head of the ARM `bli_cpuid_query_id`, in source
order.  There is no test for `BLIS_ARCH_A64FX`. -/
def bli_cpuid_query_id_override (b : Build) (A : ArchIds) (envval : Int) : Option Nat :=
  if b.CONFIG_THUNDERX2 && ((A.THUNDERX2 : Int) == envval) then some A.THUNDERX2
  else if b.CONFIG_CORTEXA57 && ((A.CORTEXA57 : Int) == envval) then some A.CORTEXA57
  else if b.CONFIG_CORTEXA53 && ((A.CORTEXA53 : Int) == envval) then some A.CORTEXA53
  else if b.CONFIG_CORTEXA15 && ((A.CORTEXA15 : Int) == envval) then some A.CORTEXA15
  else if b.CONFIG_CORTEXA9 && ((A.CORTEXA9 : Int) == envval) then some A.CORTEXA9
  else if (A.GENERIC : Int) == envval then some A.GENERIC
  else none

/-- The signature matcher of the ARM `bli_cpuid_query_id`: the code after the
call of `bli_cpuid_query`. -/
def bli_cpuid_query_id_match (b : Build) (A : ArchIds) (NEON : Nat)
    (vendor : vendor_t) (model : arm_model_t) (part features : Nat) : Nat :=
  if vendor = VENDOR_ARM then
    if model = MODEL_ARMV8 then
      if b.CONFIG_A64FX && bli_cpuid_is_a64fx A model part features then A.A64FX
      else if b.CONFIG_THUNDERX2 && bli_cpuid_is_thunderx2 A model part features then A.THUNDERX2
      else if b.CONFIG_CORTEXA57 && bli_cpuid_is_cortexa57 A model part features then A.CORTEXA57
      else if b.CONFIG_CORTEXA53 && bli_cpuid_is_cortexa53 A model part features then A.CORTEXA53
      else A.GENERIC
    else if model = MODEL_ARMV7 then
      if b.CONFIG_CORTEXA15 && bli_cpuid_is_cortexa15 NEON model part features then A.CORTEXA15
      else if b.CONFIG_CORTEXA9 && bli_cpuid_is_cortexa9 NEON model part features then A.CORTEXA9
      else A.GENERIC
    else A.GENERIC
  else if vendor = VENDOR_UNKNOWN then A.GENERIC
  else A.GENERIC

/-- The body of the ARM `bli_cpuid_query_id` as a function of the values it
obtains from `bli_env_check` and `bli_cpuid_query`. -/
def bli_cpuid_query_id_with (b : Build) (A : ArchIds) (NEON : Nat) (envval : Int)
    (vendor : vendor_t) (model : arm_model_t) (part features : Nat) : Nat :=
  match bli_cpuid_query_id_override b A envval with
  | some a => a
  | none => bli_cpuid_query_id_match b A NEON vendor model part features

end Arm

/-! ## x86: `bli_cpuid_query` -/

namespace X86

/-- The raw bit `cpuid[eax=1]:ecx[0]`. -/
def FEATURE_MASK_SSE3 : Nat := 1 <<< 0
/-- The raw bit `cpuid[eax=1]:ecx[9]`. -/
def FEATURE_MASK_SSSE3 : Nat := 1 <<< 9
/-- The raw bit `cpuid[eax=1]:ecx[19]`. -/
def FEATURE_MASK_SSE41 : Nat := 1 <<< 19
/-- The raw bit `cpuid[eax=1]:ecx[20]`. -/
def FEATURE_MASK_SSE42 : Nat := 1 <<< 20
/-- The raw bit `cpuid[eax=1]:ecx[28]`. -/
def FEATURE_MASK_AVX : Nat := 1 <<< 28
/-- The raw bit `cpuid[eax=7,ecx=0]:ebx[5]`. -/
def FEATURE_MASK_AVX2 : Nat := 1 <<< 5
/-- The raw bit `cpuid[eax=1]:ecx[12]`. -/
def FEATURE_MASK_FMA3 : Nat := 1 <<< 12
/-- The raw bit `cpuid[eax=0x80000001]:ecx[16]`. -/
def FEATURE_MASK_FMA4 : Nat := 1 <<< 16
/-- The raw bit `cpuid[eax=7,ecx=0]:ebx[16]`. -/
def FEATURE_MASK_AVX512F : Nat := 1 <<< 16
/-- The raw bit `cpuid[eax=7,ecx=0]:ebx[17]`. -/
def FEATURE_MASK_AVX512DQ : Nat := 1 <<< 17
/-- The raw bit `cpuid[eax=7,ecx=0]:ebx[26]`. -/
def FEATURE_MASK_AVX512PF : Nat := 1 <<< 26
/-- The raw bit `cpuid[eax=7,ecx=0]:ebx[27]`. -/
def FEATURE_MASK_AVX512ER : Nat := 1 <<< 27
/-- The raw bit `cpuid[eax=7,ecx=0]:ebx[28]`. -/
def FEATURE_MASK_AVX512CD : Nat := 1 <<< 28
/-- The raw bit `cpuid[eax=7,ecx=0]:ebx[30]`. -/
def FEATURE_MASK_AVX512BW : Nat := 1 <<< 30
/-- The raw bit `cpuid[eax=7,ecx=0]:ebx[31]`. -/
def FEATURE_MASK_AVX512VL : Nat := 1 <<< 31
/-- The raw bits `cpuid[eax=1]:ecx[27:26]`. -/
def FEATURE_MASK_XGETBV : Nat := (1 <<< 26) ||| (1 <<< 27)
/-- The bit `xcr0[1]`. -/
def XGETBV_MASK_XMM : Nat := 0x02
/-- The bit `xcr0[2]`. -/
def XGETBV_MASK_YMM : Nat := 0x04
/-- The bits `xcr0[7:5]`. -/
def XGETBV_MASK_ZMM : Nat := 0xe0

/-- What the hardware answers to the queries of `bli_cpuid_query`: the two
results of `__get_cpuid_max`, the registers of the `cpuid` leaves the function
reads, and the low half of `xcr0` as returned by `xgetbv`. -/
structure CpuidRegs where
  cpuid_max : Nat
  cpuid_max_ext : Nat
  leaf0_ebx : Nat
  leaf0_ecx : Nat
  leaf0_edx : Nat
  leaf7_ebx : Nat
  ext1_ecx : Nat
  leaf1_eax : Nat
  leaf1_ecx : Nat
  xcr0 : Nat

/-- The return value of `bli_cpuid_query` and the three values it leaves
behind its pointer arguments. -/
structure QueryResult where
  vendor : vendor_t
  family : Nat
  model : Nat
  features : Nat
  deriving DecidableEq, Repr

/-- The statement `*features |= flag` on a `uint32_t`. -/
def set_flag (features flag : Nat) : Nat :=
  (features ||| flag) % 2 ^ 32

/-- The statement `*features &= ~( flags )` on a `uint32_t`: the complement
is taken in 32 bits. -/
def clear_flags (features flags : Nat) : Nat :=
  features &&& ((2 ^ 32 - 1) ^^^ (flags % 2 ^ 32))

/-- The statement `if ( bli_cpuid_has_features( reg, mask ) ) *features |= flag`. -/
def set_if (reg mask : Nat) (features flag : Nat) : Nat :=
  if bli_cpuid_has_features reg mask then set_flag features flag else features

/-- The four bytes a little-endian machine stores for a 32-bit register. -/
def le_bytes (r : Nat) : List Nat :=
  [r % 256, (r >>> 8) % 256, (r >>> 16) % 256, (r >>> 24) % 256]

/-- The array `vendor_string[4]` seen as sixteen bytes: `__cpuid` stores EBX
in element 0, EDX in element 1 and ECX in element 2; element 3 stays 0. -/
def vendor_string (r : CpuidRegs) : List Nat :=
  (le_bytes r.leaf0_ebx ++ le_bytes r.leaf0_edx ++ le_bytes r.leaf0_ecx) ++ le_bytes 0

/-- The test `strcmp( mem, lit ) == 0` against a string literal. -/
def strcmp_eq (mem : List Nat) (lit : String) : Bool :=
  c_string mem == ascii lit

/-- The block guarded by `cpuid_max >= 7`: the flags read from leaf 7 EBX. -/
def leaf7_features (F : FeatureFlags) (ebx features : Nat) : Nat :=
  let features := set_if ebx FEATURE_MASK_AVX2 features F.AVX2
  let features := set_if ebx FEATURE_MASK_AVX512F features F.AVX512F
  let features := set_if ebx FEATURE_MASK_AVX512DQ features F.AVX512DQ
  let features := set_if ebx FEATURE_MASK_AVX512PF features F.AVX512PF
  let features := set_if ebx FEATURE_MASK_AVX512ER features F.AVX512ER
  let features := set_if ebx FEATURE_MASK_AVX512CD features F.AVX512CD
  let features := set_if ebx FEATURE_MASK_AVX512BW features F.AVX512BW
  let features := set_if ebx FEATURE_MASK_AVX512VL features F.AVX512VL
  features

/-- The block guarded by `cpuid_max_ext >= 0x80000001u`: the flag read from
leaf 0x80000001 ECX. -/
def ext_features (F : FeatureFlags) (ecx features : Nat) : Nat :=
  set_if ecx FEATURE_MASK_FMA4 features F.FMA4

/-- The display model and family computed from leaf 1 EAX, as the pair
`(model, family)`. -/
def model_family (eax : Nat) : Nat × Nat :=
  let old_model := (eax >>> 4) &&& 0xF
  let old_family := (eax >>> 8) &&& 0xF
  let ext_model := (eax >>> 16) &&& 0xF
  let ext_family := (eax >>> 20) &&& 0xFF
  if old_family = 6 then ((ext_model <<< 4) + old_model, old_family)
  else if old_family = 15 then ((ext_model <<< 4) + old_model, ext_family + old_family)
  else (old_model, old_family)

/-- The SSE, AVX and FMA3 flags read from leaf 1 ECX. -/
def leaf1_features (F : FeatureFlags) (ecx features : Nat) : Nat :=
  let features := set_if ecx FEATURE_MASK_SSE3 features F.SSE3
  let features := set_if ecx FEATURE_MASK_SSSE3 features F.SSSE3
  let features := set_if ecx FEATURE_MASK_SSE41 features F.SSE41
  let features := set_if ecx FEATURE_MASK_SSE42 features F.SSE42
  let features := set_if ecx FEATURE_MASK_AVX features F.AVX
  let features := set_if ecx FEATURE_MASK_FMA3 features F.FMA3
  features

/-- The three tests on `xcr0` made when leaf 1 ECX has both XGETBV bits; `eax`
is the low half of `xcr0`. -/
def xgetbv_gating (F : FeatureFlags) (eax features : Nat) : Nat :=
  let features :=
    if !bli_cpuid_has_features eax (XGETBV_MASK_XMM ||| XGETBV_MASK_YMM ||| XGETBV_MASK_ZMM) then
      clear_flags features (F.AVX512F ||| F.AVX512DQ ||| F.AVX512PF ||| F.AVX512ER |||
        F.AVX512CD ||| F.AVX512BW ||| F.AVX512VL)
    else features
  let features :=
    if !bli_cpuid_has_features eax (XGETBV_MASK_XMM ||| XGETBV_MASK_YMM) then
      clear_flags features (F.AVX ||| F.AVX2 ||| F.FMA3 ||| F.FMA4)
    else features
  let features :=
    if !bli_cpuid_has_features eax XGETBV_MASK_XMM then 0 else features
  features

/-- The `if` on `FEATURE_MASK_XGETBV` with both branches.  The `else` branch
of the source is the statement `features = 0;`, which assigns the local
pointer variable and not the caller's mask, so the mask is returned as it
stands. -/
def os_gating (F : FeatureFlags) (ecx xcr0 features : Nat) : Nat :=
  if bli_cpuid_has_features ecx FEATURE_MASK_XGETBV then xgetbv_gating F xcr0 features
  else features

/-- The feature mask of `bli_cpuid_query` at the point where the test on
`FEATURE_MASK_XGETBV` is reached: the initial 0, then the flags of leaf 7,
of leaf 0x80000001 and of leaf 1, in the order of the source. -/
def normalized_features (F : FeatureFlags) (r : CpuidRegs) : Nat :=
  let features := 0
  let features := if r.cpuid_max ≥ 7 then leaf7_features F r.leaf7_ebx features else features
  let features :=
    if r.cpuid_max_ext ≥ 0x80000001 then ext_features F r.ext1_ecx features else features
  leaf1_features F r.leaf1_ecx features

/-- The x86 function `bli_cpuid_query`. -/
def bli_cpuid_query (F : FeatureFlags) (r : CpuidRegs) : QueryResult :=
  if r.cpuid_max < 1 then ⟨VENDOR_UNKNOWN, 0, 0, 0⟩
  else
    let features := normalized_features F r
    let mf := model_family r.leaf1_eax
    let features := os_gating F r.leaf1_ecx r.xcr0 features
    if strcmp_eq (vendor_string r) "AuthenticAMD" then ⟨VENDOR_AMD, mf.2, mf.1, features⟩
    else if strcmp_eq (vendor_string r) "GenuineIntel" then ⟨VENDOR_INTEL, mf.2, mf.1, features⟩
    else ⟨VENDOR_UNKNOWN, mf.2, mf.1, features⟩

/-- The x86 function `bli_cpuid_query_id`: `env` is the value of
`getenv("BLIS_CORETYPE")`, `r` the hardware state read by `bli_cpuid_query`
and `nvpu` the value of `vpu_count()`. -/
def bli_cpuid_query_id (b : Build) (A : ArchIds) (F : FeatureFlags)
    (arch_string : Nat → String) (env : Option String) (r : CpuidRegs) (nvpu : Int) : Nat :=
  let envval := bli_env_check b A arch_string env
  let q := bli_cpuid_query F r
  bli_cpuid_query_id_with b A F envval q.vendor q.family q.model q.features nvpu

end X86

/-! ## The signature tables as ordered lists

The spec describes the matcher as an ordered table of signatures, the first
matching one winning.  The following definitions write that description
down; the theorems below relate the code of `bli_cpuid_query_id` to it. -/

/-- One row of a signature table in the spec's sense: whether the candidate
is compiled in, its predicate over family, model, features and the FMA-unit
count, and the id it yields. -/
structure Signature where
  enabled : Bool
  pred : Nat → Nat → Nat → Int → Bool
  id : Nat

/-- The Intel table in the order stated by the spec: SKX, KNL, HASWELL,
SANDYBRIDGE, PENRYN. -/
def spec_intel_table (b : Build) (A : ArchIds) (F : FeatureFlags) : List Signature :=
  [ ⟨b.CONFIG_SKX, fun fam m ft n => X86.bli_cpuid_is_skx F fam m ft n, A.SKX⟩,
    ⟨b.CONFIG_KNL, fun fam m ft _ => X86.bli_cpuid_is_knl F fam m ft, A.KNL⟩,
    ⟨b.CONFIG_HASWELL, fun fam m ft _ => X86.bli_cpuid_is_haswell F fam m ft, A.HASWELL⟩,
    ⟨b.CONFIG_SANDYBRIDGE, fun fam m ft _ => X86.bli_cpuid_is_sandybridge F fam m ft,
      A.SANDYBRIDGE⟩,
    ⟨b.CONFIG_PENRYN, fun fam m ft _ => X86.bli_cpuid_is_penryn F fam m ft, A.PENRYN⟩ ]

/-- The AMD table in the order stated by the spec: ZEN2, ZEN, EXCAVATOR,
STEAMROLLER, PILEDRIVER, BULLDOZER. -/
def spec_amd_table (b : Build) (A : ArchIds) (F : FeatureFlags) : List Signature :=
  [ ⟨b.CONFIG_ZEN2, fun fam m ft _ => X86.bli_cpuid_is_zen2 F fam m ft, A.ZEN2⟩,
    ⟨b.CONFIG_ZEN, fun fam m ft _ => X86.bli_cpuid_is_zen F fam m ft, A.ZEN⟩,
    ⟨b.CONFIG_EXCAVATOR, fun fam m ft _ => X86.bli_cpuid_is_excavator F fam m ft, A.EXCAVATOR⟩,
    ⟨b.CONFIG_STEAMROLLER, fun fam m ft _ => X86.bli_cpuid_is_steamroller F fam m ft,
      A.STEAMROLLER⟩,
    ⟨b.CONFIG_PILEDRIVER, fun fam m ft _ => X86.bli_cpuid_is_piledriver F fam m ft,
      A.PILEDRIVER⟩,
    ⟨b.CONFIG_BULLDOZER, fun fam m ft _ => X86.bli_cpuid_is_bulldozer F fam m ft,
      A.BULLDOZER⟩ ]

/-- The spec's rule: the id of the first compiled-in signature whose predicate
holds, and `GENERIC` when there is none. -/
def spec_first_match (GENERIC family model features : Nat) (nvpu : Int) :
    List Signature → Nat
  | [] => GENERIC
  | e :: rest =>
    if e.enabled && e.pred family model features nvpu then e.id
    else spec_first_match GENERIC family model features nvpu rest

/-- Every x86 sub-configuration is compiled in. -/
def x86_all_enabled (b : Build) : Prop :=
  b.CONFIG_SKX = true ∧ b.CONFIG_KNL = true ∧ b.CONFIG_HASWELL = true ∧
  b.CONFIG_SANDYBRIDGE = true ∧ b.CONFIG_PENRYN = true ∧ b.CONFIG_ZEN2 = true ∧
  b.CONFIG_ZEN = true ∧ b.CONFIG_EXCAVATOR = true ∧ b.CONFIG_STEAMROLLER = true ∧
  b.CONFIG_PILEDRIVER = true ∧ b.CONFIG_BULLDOZER = true

/-! ## The AMD table as rows of data

The spec words the AMD signatures as rows of a configuration table: an exact
family, inclusive model ranges and the required flags. -/

/-- One row of the AMD table in the spec's sense: the id it yields, the exact
family, the inclusive model ranges and the union of the required flags. -/
structure AmdRow where
  id : Nat
  family : Nat
  ranges : List (Nat × Nat)
  flags : Nat

/-- The AMD rows in the order and with the bounds stated by the spec. -/
def spec_amd_rows (A : ArchIds) (F : FeatureFlags) : List AmdRow :=
  [ ⟨A.ZEN2, 0x17, [(0x30, 0xff)], F.AVX ||| F.FMA3 ||| F.AVX2⟩,
    ⟨A.ZEN, 0x17, [(0x00, 0xff)], F.AVX ||| F.FMA3 ||| F.AVX2⟩,
    ⟨A.EXCAVATOR, 0x15, [(0x60, 0x7f)], F.AVX ||| F.FMA3 ||| F.AVX2⟩,
    ⟨A.STEAMROLLER, 0x15, [(0x30, 0x3f)], F.AVX ||| F.FMA3 ||| F.FMA4⟩,
    ⟨A.PILEDRIVER, 0x15, [(0x02, 0x02), (0x10, 0x1f)], F.AVX ||| F.FMA3 ||| F.FMA4⟩,
    ⟨A.BULLDOZER, 0x15, [(0x00, 0x00), (0x01, 0x01)], F.AVX ||| F.FMA4⟩ ]

/-- A row matches when every required flag is present, the family is the
row's family and the model lies in one of the row's inclusive ranges. -/
def AmdRow.row_matches (row : AmdRow) (family model features : Nat) : Bool :=
  bli_cpuid_has_features features row.flags && (family == row.family) &&
    row.ranges.any (fun p => decide (p.1 ≤ model) && decide (model ≤ p.2))

/-- The id of the first matching row, and `GENERIC` when no row matches. -/
def spec_amd_lookup (GENERIC family model features : Nat) : List AmdRow → Nat
  | [] => GENERIC
  | row :: rest =>
    if row.row_matches family model features then row.id
    else spec_amd_lookup GENERIC family model features rest

/-! ## String functions of the C library

C strings are lists of character codes without the terminating NUL; a pointer
into a string is the suffix it points to, and `none` is the NULL pointer. -/

/-- The C function `strstr`: the suffix of `haystack` that starts at the first
occurrence of `needle`, and NULL when there is none. -/
def strstr : List Nat → List Nat → Option (List Nat)
  | [], needle => if needle.isPrefixOf [] then some [] else none
  | c :: rest, needle =>
    if needle.isPrefixOf (c :: rest) then some (c :: rest) else strstr rest needle

/-- The string `needle` occurs in `haystack` as a substring. -/
def occurs_in (needle haystack : List Nat) : Prop :=
  ∃ before after, haystack = before ++ needle ++ after

/-- The C function `isspace` in the C locale. -/
def isspace (c : Nat) : Bool :=
  c == 32 || (decide (9 ≤ c) && decide (c ≤ 13))

/-- The value of the longest run of decimal digits at the head of a string,
continuing the value `acc`. -/
def decimal_value (acc : Nat) : List Nat → Nat
  | [] => acc
  | c :: rest =>
    if decide (48 ≤ c) && decide (c ≤ 57) then decimal_value (acc * 10 + (c - 48)) rest
    else acc

/-- The C function `atoi`: white space, an optional sign, decimal digits.
The strings it is applied to here have at most four characters, so `int`
overflow does not arise. -/
def atoi (s : List Nat) : Int :=
  match s.dropWhile isspace with
  | 45 :: rest => -(decimal_value 0 rest : Int)
  | 43 :: rest => (decimal_value 0 rest : Int)
  | t => (decimal_value 0 t : Int)

/-! ## x86: `vpu_count` -/

namespace X86

/-- The function `get_cpu_name`: the 48 bytes it stores for the twelve
registers EAX, EBX, ECX, EDX of the leaves 0x80000002, 0x80000003 and
0x80000004, given in that order. -/
def get_cpu_name (regs : List Nat) : List Nat :=
  (regs.take 12).flatMap le_bytes

/-- The `if`-chain of `vpu_count` on the SKU number. -/
def sku_units (sku : Int) : Int :=
  if 8199 ≥ sku ∧ sku ≥ 8100 then 2
  else if 6199 ≥ sku ∧ sku ≥ 6100 then 2
  else if sku = 5122 then 2
  else if 6299 ≥ sku ∧ sku ≥ 6200 then 2
  else if 5299 ≥ sku ∧ sku ≥ 5200 then 1
  else if 5199 ≥ sku ∧ sku ≥ 5100 then 1
  else if 4199 ≥ sku ∧ sku ≥ 4100 then 1
  else if 3199 ≥ sku ∧ sku ≥ 3100 then 1
  else if 3299 ≥ sku ∧ sku ≥ 3200 then 2
  else if 2299 ≥ sku ∧ sku ≥ 2200 then 2
  else if 2199 ≥ sku ∧ sku ≥ 2120 then 2
  else if 2102 = sku ∨ sku = 2104 then 2
  else if 2119 ≥ sku ∧ sku ≥ 2100 then 1
  else -1

/-- The tail of `vpu_count`, reached with `loc` pointing to the match of
`Gold` or of `W`: from the test for `W-` to the end of the function. -/
def vpu_count_sku (loc : List Nat) : Int :=
  let loc :=
    if 'W'.toNat = loc.headD 0 ∧ '-'.toNat = loc.tail.headD 0 then some loc.tail
    else strstr loc.tail (ascii " ")
  match loc with
  | none => -1
  | some loc =>
    let model_num := loc.tail.take 4
    let sku := atoi model_num
    sku_units sku

/-- The function `vpu_count`; `cpu_name` is the C string that `get_cpu_name`
leaves in the array.  The successive `if ( loc == NULL )` statements of the
source are written as nested matches: `loc` is non-NULL after the searches
only when `Gold` or `W` was found. -/
def vpu_count (cpu_name : List Nat) : Int :=
  if (strstr cpu_name (ascii "Intel(R) Xeon(R)")).isSome then
    match strstr cpu_name (ascii "Platinum") with
    | some _ => 2
    | none =>
      match strstr cpu_name (ascii "Gold") with
      | some loc => vpu_count_sku loc
      | none =>
        match strstr cpu_name (ascii "Silver") with
        | some _ => 1
        | none =>
          match strstr cpu_name (ascii "Bronze") with
          | some _ => 1
          | none =>
            match strstr cpu_name (ascii "W") with
            | some loc => vpu_count_sku loc
            | none =>
              match strstr cpu_name (ascii "D") with
              | some _ => 1
              | none => -1
  else if (strstr cpu_name (ascii "Intel(R) Core(TM)")).isSome then 2
  else -1

end X86

/-! ## The textual scan: `find_string_in` and the 32-bit ARM `bli_cpuid_query`

A file is the list of its bytes.  An open stream is the list of the bytes not
yet read together with the end-of-file indicator tested by `feof`. -/

/-- An open `FILE*` stream. -/
structure FileStream where
  rest : List Nat
  eof : Bool

/-- The characters one call of `fgets` stores when it may store at most `k`
of them: reading stops after a newline, after `k` characters, or at the end of
the file.  The result is the characters, the bytes left in the stream, and
whether the end of the file was hit while reading. -/
def fgets_chars : Nat → List Nat → List Nat × List Nat × Bool
  | 0, s => ([], s, false)
  | _ + 1, [] => ([], [], true)
  | k + 1, c :: t =>
    if c = 10 then ([c], t, false)
    else
      let r := fgets_chars k t
      (c :: r.1, r.2.1, r.2.2)

/-- The C function `fgets( buf, n, stream )`: the array contents stored in
`buf` (`none` for a NULL result) and the stream afterwards.  It returns NULL
when `n` is not positive and when the end of the file is met before any
character was read. -/
def fgets (n : Nat) (st : FileStream) : Option (List Nat) × FileStream :=
  if n = 0 then (none, st)
  else
    let r := fgets_chars (n - 1) st.rest
    if r.1 = [] ∧ r.2.2 = true then (none, ⟨r.2.1, true⟩)
    else (some r.1, ⟨r.2.1, st.eof || r.2.2⟩)

/-- What `find_string_in` leaves behind when it finds the target: the C string
in the caller's `buffer` and the string its return value `r_val` points to. -/
structure Found where
  buffer : List Nat
  r_val : List Nat
  deriving DecidableEq, Repr

/-- The `while ( !feof( stream ) )` loop of `find_string_in` and the value
`r_val` the function returns after it (`some none` is NULL).  The first
argument bounds the number of iterations; `none` means that the bound was
reached.  `strncpy( buffer, buf_local, buf_len )` followed by
`buffer[ buf_len - 1 ] = 0` leaves the first `buf_len - 1` characters of the
line read in `buffer`. -/
def find_string_in_loop (target : List Nat) (buf_len : Nat) :
    Nat → FileStream → Option (Option Found)
  | 0, _ => none
  | fuel + 1, st =>
    if st.eof then some none
    else
      match fgets (buf_len - 1) st with
      | (none, _) => some none
      | (some buf_local, st') =>
        match strstr (c_string buf_local) target with
        | some r_val => some (some ⟨(c_string buf_local).take (buf_len - 1), r_val⟩)
        | none => find_string_in_loop target buf_len fuel st'

/-- The function `find_string_in` on a file that `fopen` could open, `file`
being its contents. -/
def find_string_in (fuel : Nat) (target : List Nat) (buf_len : Nat) (file : List Nat) :
    Option (Option Found) :=
  find_string_in_loop target buf_len fuel ⟨file, false⟩

/-- The value of a hexadecimal digit. -/
def hex_digit (c : Nat) : Option Nat :=
  if decide (48 ≤ c) && decide (c ≤ 57) then some (c - 48)
  else if decide (97 ≤ c) && decide (c ≤ 102) then some (c - 87)
  else if decide (65 ≤ c) && decide (c ≤ 70) then some (c - 55)
  else none

/-- The value of the longest run of hexadecimal digits at the head of a
string, continuing the value `acc`. -/
def hex_value (acc : Nat) : List Nat → Nat
  | [] => acc
  | c :: rest =>
    match hex_digit c with
    | some d => hex_value (acc * 16 + d) rest
    | none => acc

/-- The largest `long` of the 32-bit ARM ABI. -/
def LONG_MAX : Int := 2 ^ 31 - 1

/-- The C call `strtol( s, NULL, 16 )` with a 32-bit `long`: white space, an
optional sign, an optional `0x` or `0X`, hexadecimal digits; a value out of
range is replaced by `LONG_MAX` or `LONG_MIN`. -/
def strtol16 (s : List Nat) : Int :=
  let body (t : List Nat) : Nat :=
    match t with
    | 48 :: 120 :: u => hex_value 0 u
    | 48 :: 88 :: u => hex_value 0 u
    | u => hex_value 0 u
  match s.dropWhile isspace with
  | 45 :: t => max (-(body t : Int)) (-LONG_MAX - 1)
  | 43 :: t => min (body t : Int) LONG_MAX
  | t => min (body t : Int) LONG_MAX

namespace Arm32

/-- The constant `TEMP_BUFFER_SIZE`. -/
def TEMP_BUFFER_SIZE : Nat := 200

/-- The return value of the ARM `bli_cpuid_query` and the three values it
leaves behind its pointer arguments. -/
structure QueryResult where
  vendor : vendor_t
  model : arm_model_t
  part : Nat
  features : Nat
  deriving DecidableEq, Repr

/-- The 32-bit ARM function `bli_cpuid_query`; `cpuinfo` is the contents of
`/proc/cpuinfo`, `NEON` is `FEATURE_NEON`, and `fuel` bounds the iterations of
each of the three scans (`none` when a bound is reached). -/
def bli_cpuid_query (NEON : Nat) (fuel : Nat) (cpuinfo : List Nat) : Option QueryResult :=
  match find_string_in fuel (ascii "Processor") TEMP_BUFFER_SIZE cpuinfo with
  | none => none
  | some none => some ⟨VENDOR_ARM, MODEL_UNKNOWN, 0, 0⟩
  | some (some proc) =>
    match find_string_in fuel (ascii "CPU part") TEMP_BUFFER_SIZE cpuinfo with
    | none => none
    | some none => some ⟨VENDOR_ARM, MODEL_UNKNOWN, 0, 0⟩
    | some (some ptno) =>
      match find_string_in fuel (ascii "Features") TEMP_BUFFER_SIZE cpuinfo with
      | none => none
      | some none => some ⟨VENDOR_ARM, MODEL_UNKNOWN, 0, 0⟩
      | some (some feat) =>
        let proc_str := proc.buffer
        let ptno_str := ptno.buffer
        let feat_str := feat.buffer
        let features :=
          if (strstr feat_str (ascii "neon")).isSome ∨ (strstr feat_str (ascii "asimd")).isSome
          then (0 ||| NEON) % 2 ^ 32 else 0
        let model :=
          if (strstr proc_str (ascii "ARMv7")).isSome then MODEL_ARMV7
          else if (strstr proc_str (ascii "AArch64")).isSome ∨
              (strstr proc_str (ascii "ARMv8")).isSome then MODEL_ARMV8
          else MODEL_UNKNOWN
        let part :=
          match strstr ptno_str (ascii "0x") with
          | some r_val => (strtol16 r_val % 2 ^ 32).toNat
          | none => 0
        some ⟨VENDOR_ARM, model, part, features⟩

/-- The ARM function `bli_cpuid_query_id` on the textual-scan path: `env` is
the value of `getenv("BLIS_CORETYPE")`.  The override tests come first;
`bli_cpuid_query` is called only when none of them returns. -/
def bli_cpuid_query_id (b : Build) (A : ArchIds) (NEON : Nat) (arch_string : Nat → String)
    (env : Option String) (fuel : Nat) (cpuinfo : List Nat) : Option Nat :=
  let envval := bli_env_check b A arch_string env
  match Arm.bli_cpuid_query_id_override b A envval with
  | some a => some a
  | none =>
    match bli_cpuid_query NEON fuel cpuinfo with
    | none => none
    | some q => some (Arm.bli_cpuid_query_id_match b A NEON q.vendor q.model q.part q.features)

end Arm32

/-- The lines of a file, each with its newline character when it has one. -/
def file_lines : List Nat → List (List Nat)
  | [] => []
  | c :: t =>
    if c = 10 then [c] :: file_lines t
    else
      match file_lines t with
      | [] => [[c]]
      | l :: ls => (c :: l) :: ls

/-- The text of a line: the line without its newline character. -/
def line_text (l : List Nat) : List Nat :=
  l.filter (fun c => c != 10)

/-- The first line of a file in which `target` occurs, when there is one. -/
def first_line_with (target : List Nat) (file : List Nat) : Option (List Nat) :=
  (file_lines file).find? (fun l => (strstr l target).isSome)

/-- The cpuinfo fixture of the spec: three lines. -/
def sampleCpuinfo : List Nat :=
  ascii "Processor : ARMv8\nCPU part : 0xd07\nFeatures : neon asimd\n"

/-! ## `find_string_in`: the call of `fopen` and the bytes of the caller's buffer -/

/-- The outcome of a call of a C function: the value it returns, or undefined
behaviour, where the C standard puts no requirement on what happens. -/
inductive Call (α : Type) where
  | returns (value : α)
  | undefined
  deriving DecidableEq, Repr

/-- The function `find_string_in` together with its call of `fopen`: `file` is
the content of the file at `filepath`, and `none` when `fopen` returns NULL.
The source hands the result of `fopen` to `feof` without testing it, so a
null stream reaches `feof( stream )`, which is undefined behaviour. -/
def find_string_in_file (fuel : Nat) (target : List Nat) (buf_len : Nat)
    (file : Option (List Nat)) : Call (Option (Option Found)) :=
  match file with
  | none => Call.undefined
  | some content => Call.returns (find_string_in fuel target buf_len content)

/-- The `n` bytes that `strncpy( dst, src, n )` writes to `dst[0 .. n-1]`,
`src` being the characters of the source string before its NUL: the
characters of `src` as far as `n` allows, then NUL bytes up to `n` in all. -/
def strncpy : List Nat → Nat → List Nat
  | _, 0 => []
  | [], n + 1 => 0 :: strncpy [] n
  | c :: t, n + 1 => c :: strncpy t n

/-- The array `buffer[0 .. buf_len-1]` of the caller after the statements
`strncpy( buffer, buf_local, buf_len )` and
`if ( buf_len > 0 ) buffer[ buf_len - 1 ] = 0`, where `src` is the string in
`buf_local`.  These are the only stores of `find_string_in` to `buffer`. -/
def buffer_bytes (src : List Nat) (buf_len : Nat) : List Nat :=
  let buffer := strncpy src buf_len
  if buf_len > 0 then buffer.set (buf_len - 1) 0 else buffer

/-! ## 64-bit ARM: `get_coretype` and `bli_cpuid_query` -/

namespace Aarch64

/-- The macro `HWCAP_CPUID`. -/
def HWCAP_CPUID : Nat := 1 <<< 11

/-- The function `get_coretype`: `hwcap` is the value of
`getauxval(AT_HWCAP)` and `midr_el1` the content of the register `MIDR_EL1`,
which is read only when the test on `HWCAP_CPUID` passes.  A `switch` that is
left by `break` yields `none`, and the function then ends with
`return BLIS_ARCH_CORTEXA57`. -/
def get_coretype (A : ArchIds) (hwcap midr_el1 : Nat) : Nat :=
  if hwcap &&& HWCAP_CPUID = 0 then 0
  else
    let implementer := (midr_el1 >>> 24) &&& 0xFF
    let part := (midr_el1 >>> 4) &&& 0xFFF
    let returned : Option Nat :=
      if implementer = 0x41 then
        if part = 0xd07 then some A.CORTEXA57
        else if part = 0xd03 then some A.CORTEXA53
        else none
      else if implementer = 0x42 then
        if part = 0x516 then some A.THUNDERX2
        else none
      else if implementer = 0x43 then
        if part = 0x0af ∨ part = 0x0b8 then some A.THUNDERX2
        else none
      else if implementer = 0x46 then
        if part = 0x001 then some A.A64FX
        else none
      else none
    match returned with
    | some a => a
    | none => A.CORTEXA57

/-- The 64-bit ARM function `bli_cpuid_query`; `linux` is the preprocessor
symbol `__linux__`. -/
def bli_cpuid_query (A : ArchIds) (linux : Bool) (hwcap midr_el1 : Nat) : Arm32.QueryResult :=
  let model := MODEL_ARMV8
  let part := 0
  let features := 0
  let part := if linux then get_coretype A hwcap midr_el1 else part
  ⟨VENDOR_ARM, model, part, features⟩

/-- The ARM function `bli_cpuid_query_id` on 64-bit ARM: `env` is the value of
`getenv("BLIS_CORETYPE")`. -/
def bli_cpuid_query_id (b : Build) (A : ArchIds) (NEON : Nat) (arch_string : Nat → String)
    (env : Option String) (linux : Bool) (hwcap midr_el1 : Nat) : Nat :=
  let envval := bli_env_check b A arch_string env
  let q := bli_cpuid_query A linux hwcap midr_el1
  Arm.bli_cpuid_query_id_with b A NEON envval q.vendor q.model q.part q.features

/-- The lookup table of the spec for `MIDR_EL1`: implementer, part number and
the id they decode to. -/
def spec_midr_table (A : ArchIds) : List ((Nat × Nat) × Nat) :=
  [ ((0x41, 0xd07), A.CORTEXA57),
    ((0x41, 0xd03), A.CORTEXA53),
    ((0x42, 0x516), A.THUNDERX2),
    ((0x43, 0x0af), A.THUNDERX2),
    ((0x43, 0x0b8), A.THUNDERX2),
    ((0x46, 0x001), A.A64FX) ]

/-- The id the spec's table gives to a pair (implementer, part): the id of its
row, and `CORTEXA57` for every pair that has no row. -/
def spec_midr_lookup (A : ArchIds) (implementer part : Nat) : Nat :=
  match (spec_midr_table A).find? (fun row => row.1 == (implementer, part)) with
  | some row => row.2
  | none => A.CORTEXA57

end Aarch64

/-! ## IBM Z: `bli_cpuid_query` on the hwcap path and `bli_cpuid_query_id` -/

namespace S390

/-- Modelled from the spec: the IBM Z `MODEL_*` enumerators of `bli_cpuid.h`,
which is not under the sources (three possible models: base, single-precision
SIMD, double-precision SIMD); the code only compares them for equality. -/
inductive z_model_t where
  | MODEL_Z900
  | MODEL_Z13
  | MODEL_Z14
  deriving DecidableEq, Repr

open z_model_t

/-- The s390x names that the sources at hand do not define: the enumerators
`BLIS_ARCH_Z14` and `BLIS_ARCH_Z13`, the capability bits `HWCAP_S390_VX` and
`HWCAP_S390_VXE` of the system headers, and the preprocessor symbols
`BLIS_CONFIG_Z14` and `BLIS_CONFIG_Z13`. -/
structure Params where
  Z14 : Nat
  Z13 : Nat
  HWCAP_S390_VX : Nat
  HWCAP_S390_VXE : Nat
  CONFIG_Z14 : Bool
  CONFIG_Z13 : Bool

/-- The s390x function `bli_cpuid_query` under Linux with glibc 2.16 or later:
`hwcap` is the value of `getauxval( AT_HWCAP )`.  The result is the returned
vendor and `*model`; `*part` and `*features` are not written. -/
def bli_cpuid_query (P : Params) (hwcap : Nat) : vendor_t × z_model_t :=
  let model := MODEL_Z900
  let model :=
    if (hwcap &&& P.HWCAP_S390_VX ≠ 0) ∧ (hwcap &&& P.HWCAP_S390_VXE ≠ 0) then MODEL_Z14
    else if hwcap &&& P.HWCAP_S390_VX ≠ 0 then MODEL_Z13
    else model
  (VENDOR_IBM, model)

/-- The s390x function `bli_cpuid_query_id`: `env` is the value of
`getenv("BLIS_CORETYPE")`.  (The source declares `envval` only when one of the
two sub-configurations is defined.) -/
def bli_cpuid_query_id (b : Build) (A : ArchIds) (P : Params) (arch_string : Nat → String)
    (env : Option String) (hwcap : Nat) : Nat :=
  let envval := bli_env_check b A arch_string env
  if P.CONFIG_Z14 && ((P.Z14 : Int) == envval) then P.Z14
  else if P.CONFIG_Z13 && ((P.Z13 : Int) == envval) then P.Z13
  else if (A.GENERIC : Int) == envval then A.GENERIC
  else
    let q := bli_cpuid_query P hwcap
    let model := q.2
    if P.CONFIG_Z14 && (model == MODEL_Z14) then P.Z14
    else if P.CONFIG_Z13 && (model == MODEL_Z13) then P.Z13
    else A.GENERIC

end S390

/-! ## x86: the normalizer and the Intel signatures as tables of data -/

namespace X86

/-- The table of the spec for the normalizer, in the order in which the source
sets the flags: for each canonical flag, whether its leaf is available and its
raw bit is set. -/
def spec_feature_table (F : FeatureFlags) (r : CpuidRegs) : List (Bool × Nat) :=
  [ (decide (7 ≤ r.cpuid_max) && r.leaf7_ebx.testBit 5, F.AVX2),
    (decide (7 ≤ r.cpuid_max) && r.leaf7_ebx.testBit 16, F.AVX512F),
    (decide (7 ≤ r.cpuid_max) && r.leaf7_ebx.testBit 17, F.AVX512DQ),
    (decide (7 ≤ r.cpuid_max) && r.leaf7_ebx.testBit 26, F.AVX512PF),
    (decide (7 ≤ r.cpuid_max) && r.leaf7_ebx.testBit 27, F.AVX512ER),
    (decide (7 ≤ r.cpuid_max) && r.leaf7_ebx.testBit 28, F.AVX512CD),
    (decide (7 ≤ r.cpuid_max) && r.leaf7_ebx.testBit 30, F.AVX512BW),
    (decide (7 ≤ r.cpuid_max) && r.leaf7_ebx.testBit 31, F.AVX512VL),
    (decide (0x80000001 ≤ r.cpuid_max_ext) && r.ext1_ecx.testBit 16, F.FMA4),
    (r.leaf1_ecx.testBit 0, F.SSE3),
    (r.leaf1_ecx.testBit 9, F.SSSE3),
    (r.leaf1_ecx.testBit 19, F.SSE41),
    (r.leaf1_ecx.testBit 20, F.SSE42),
    (r.leaf1_ecx.testBit 28, F.AVX),
    (r.leaf1_ecx.testBit 12, F.FMA3) ]

/-- The mask obtained from `features` by setting, in 32 bits, the flag of
every row of a table whose condition holds. -/
def set_rows : List (Bool × Nat) → Nat → Nat
  | [], features => features
  | row :: rest, features =>
    set_rows rest (if row.1 then set_flag features row.2 else features)

/-- The fifteen `FEATURE_*` flags in the order of `spec_feature_table`. -/
def feature_flag_list (F : FeatureFlags) : List Nat :=
  [F.AVX2, F.AVX512F, F.AVX512DQ, F.AVX512PF, F.AVX512ER, F.AVX512CD, F.AVX512BW,
    F.AVX512VL, F.FMA4, F.SSE3, F.SSSE3, F.SSE41, F.SSE42, F.AVX, F.FMA3]

/-- The `FEATURE_*` enumerators are independent flags of a 32-bit mask: each
is a non-empty set of bits below bit 32, and no two of them share a bit. -/
def independent_flags (F : FeatureFlags) : Prop :=
  (feature_flag_list F).Pairwise (fun a c => a &&& c = 0) ∧
  ∀ a ∈ feature_flag_list F, a ≠ 0 ∧ a < 2 ^ 32

/-- One row of the Intel table in the spec's sense: the id it yields, the
union of the required flags, and whether `vpu_count()` must be 2. -/
structure IntelRow where
  id : Nat
  flags : Nat
  two_units : Bool

/-- The Intel rows in the order stated by the spec. -/
def spec_intel_rows (A : ArchIds) (F : FeatureFlags) : List IntelRow :=
  [ ⟨A.SKX, F.AVX ||| F.FMA3 ||| F.AVX2 ||| F.AVX512F ||| F.AVX512DQ ||| F.AVX512BW |||
      F.AVX512VL, true⟩,
    ⟨A.KNL, F.AVX ||| F.FMA3 ||| F.AVX2 ||| F.AVX512F ||| F.AVX512PF, false⟩,
    ⟨A.HASWELL, F.AVX ||| F.FMA3 ||| F.AVX2, false⟩,
    ⟨A.SANDYBRIDGE, F.AVX, false⟩,
    ⟨A.PENRYN, F.SSE3 ||| F.SSSE3, false⟩ ]

/-- A row matches when every required flag is present and, where the row asks
for it, the FMA-unit count is 2. -/
def IntelRow.row_matches (row : IntelRow) (features : Nat) (nvpu : Int) : Bool :=
  bli_cpuid_has_features features row.flags && (!row.two_units || decide (nvpu = 2))

/-- The id of the first matching row, and `GENERIC` when no row matches. -/
def spec_intel_lookup (GENERIC features : Nat) (nvpu : Int) : List IntelRow → Nat
  | [] => GENERIC
  | row :: rest =>
    if row.row_matches features nvpu then row.id
    else spec_intel_lookup GENERIC features nvpu rest

end X86

/-- An s390x numbering and configuration used on examples: both
sub-configurations enabled, the capability bits of the Linux headers. -/
def sampleZ : S390.Params where
  Z14 := 18
  Z13 := 19
  HWCAP_S390_VX := 2048
  HWCAP_S390_VXE := 8192
  CONFIG_Z14 := true
  CONFIG_Z13 := true

/-! ## x86: the SKU ranges of `vpu_count` as data -/

namespace X86

/-- The four characters of the decimal number `n`, leading zeros included. -/
def four_digits (n : Nat) : List Nat :=
  [48 + n / 1000 % 10, 48 + n / 100 % 10, 48 + n / 10 % 10, 48 + n % 10]

/-- The SKU ranges, inclusive, for which the spec gives two FMA units. -/
def spec_two_unit_ranges : List (Nat × Nat) :=
  [(8100, 8199), (6100, 6299), (3200, 3299), (2200, 2299), (2120, 2199)]

/-- The single SKUs for which the spec gives two FMA units although the range
around them gives one. -/
def spec_two_unit_exceptions : List Nat :=
  [5122, 2102, 2104]

/-- The SKU ranges, inclusive, for which the spec gives one FMA unit, the
exceptions apart. -/
def spec_one_unit_ranges : List (Nat × Nat) :=
  [(5100, 5299), (4100, 4199), (3100, 3199), (2100, 2119)]

/-- The number of FMA units the spec gives to the SKU `n`: 2 in the two-unit
ranges and at the exceptions, 1 in the rest of the one-unit ranges, and -1 for
every other number. -/
def spec_sku_units (n : Nat) : Int :=
  if spec_two_unit_ranges.any (fun p => decide (p.1 ≤ n) && decide (n ≤ p.2)) ||
      spec_two_unit_exceptions.contains n then 2
  else if spec_one_unit_ranges.any (fun p => decide (p.1 ≤ n) && decide (n ≤ p.2)) then 1
  else -1

end X86

/-! ## A concrete numbering for examples -/

/-- An `arch_t` numbering used to evaluate the model on examples: consecutive
values in the order of the `bli_arch_string` table `sampleNames`. -/
def sampleArch : ArchIds where
  SKX := 0
  KNL := 1
  HASWELL := 2
  SANDYBRIDGE := 3
  PENRYN := 4
  ZEN2 := 5
  ZEN := 6
  EXCAVATOR := 7
  STEAMROLLER := 8
  PILEDRIVER := 9
  BULLDOZER := 10
  A64FX := 11
  THUNDERX2 := 12
  CORTEXA57 := 13
  CORTEXA53 := 14
  CORTEXA15 := 15
  CORTEXA9 := 16
  GENERIC := 17
  NUM_ARCHS := 18

/-- A name table for `bli_arch_string`, used on examples. -/
def sampleNames (i : Nat) : String :=
  ["skx", "knl", "haswell", "sandybridge", "penryn", "zen2", "zen", "excavator",
    "steamroller", "piledriver", "bulldozer", "a64fx", "thunderx2", "cortexa57",
    "cortexa53", "cortexa15", "cortexa9", "generic"].getD i ""

/-- A numbering of the `FEATURE_*` flags by distinct bits, used on examples. -/
def sampleFlags : FeatureFlags where
  SSE3 := 0x0001
  SSSE3 := 0x0002
  SSE41 := 0x0004
  SSE42 := 0x0008
  AVX := 0x0010
  AVX2 := 0x0020
  FMA3 := 0x0040
  FMA4 := 0x0080
  AVX512F := 0x0100
  AVX512DQ := 0x0200
  AVX512PF := 0x0400
  AVX512ER := 0x0800
  AVX512CD := 0x1000
  AVX512BW := 0x2000
  AVX512VL := 0x4000

/-- The run-time build with every sub-configuration enabled. -/
def sampleBuild : Build where
  CONFIGURETIME_CPUID := false
  CONFIG_SKX := true
  CONFIG_KNL := true
  CONFIG_HASWELL := true
  CONFIG_SANDYBRIDGE := true
  CONFIG_PENRYN := true
  CONFIG_ZEN2 := true
  CONFIG_ZEN := true
  CONFIG_EXCAVATOR := true
  CONFIG_STEAMROLLER := true
  CONFIG_PILEDRIVER := true
  CONFIG_BULLDOZER := true
  CONFIG_A64FX := true
  CONFIG_THUNDERX2 := true
  CONFIG_CORTEXA57 := true
  CONFIG_CORTEXA53 := true
  CONFIG_CORTEXA15 := true
  CONFIG_CORTEXA9 := true

/-- A machine answering `GenuineIntel` with SSE3, SSSE3 and AVX, the OS
having enabled XMM and YMM state. -/
def sampleIntelRegs : X86.CpuidRegs where
  cpuid_max := 13
  cpuid_max_ext := 0x80000008
  leaf0_ebx := 0x756e6547
  leaf0_ecx := 0x6c65746e
  leaf0_edx := 0x49656e69
  leaf7_ebx := 0
  ext1_ecx := 0
  leaf1_eax := 0x000206a7
  leaf1_ecx := 0x1c000201
  xcr0 := 0x07

/-! ## The override resolver: lemmas -/

theorem bli_env_check_loop_none (arch_string : Nat → String) (GENERIC : Nat) (k i : Nat) :
    bli_env_check_loop arch_string GENERIC none k i = -1 := by
  induction k generalizing i with
  | zero => rfl
  | succ k ih => exact ih (i + 1)

theorem bli_env_check_none (b : Build) (A : ArchIds) (arch_string : Nat → String) :
    bli_env_check b A arch_string none = -1 := by
  unfold bli_env_check
  split
  · rfl
  · exact bli_env_check_loop_none arch_string A.GENERIC A.NUM_ARCHS 0

theorem bli_env_check_some (b : Build) (A : ArchIds) (arch_string : Nat → String) (s : String)
    (hb : b.CONFIGURETIME_CPUID = false) (hn : 0 < A.NUM_ARCHS) :
    bli_env_check b A arch_string (some s)
      = if s = arch_string 0 then (0 : Int) else (A.GENERIC : Int) := by
  obtain ⟨k, hk⟩ : ∃ k, A.NUM_ARCHS = k + 1 := ⟨A.NUM_ARCHS - 1, by omega⟩
  unfold bli_env_check
  rw [hb, hk]
  rfl

theorem bli_env_check_unknown (b : Build) (A : ArchIds) (arch_string : Nat → String) (s : String)
    (hb : b.CONFIGURETIME_CPUID = false) (hn : 0 < A.NUM_ARCHS)
    (hs : ∀ i, i < A.NUM_ARCHS → s ≠ arch_string i) :
    bli_env_check b A arch_string (some s) = (A.GENERIC : Int) := by
  rw [bli_env_check_some b A arch_string s hb hn, if_neg (hs 0 hn)]

/-! ## The override tests: lemmas -/

theorem override_step_same (c : Bool) (x g : Nat) (rest : Option Nat) (h : rest = some g) :
    (if (c && ((x : Int) == (g : Int))) = true then some x else rest) = some g := by
  split
  · next hc =>
    simp only [Bool.and_eq_true, beq_iff_eq] at hc
    have hx : x = g := by exact_mod_cast hc.2
    rw [hx]
  · exact h

theorem override_step_minus_one (c : Bool) (x : Nat) (rest : Option Nat) (h : rest = none) :
    (if (c && ((x : Int) == (-1 : Int))) = true then some x else rest) = none := by
  split
  · next hc =>
    simp only [Bool.and_eq_true, beq_iff_eq] at hc
    omega
  · exact h

theorem X86.override_generic (b : Build) (A : ArchIds) :
    X86.bli_cpuid_query_id_override b A (A.GENERIC : Int) = some A.GENERIC := by
  unfold X86.bli_cpuid_query_id_override
  repeat apply override_step_same
  simp

theorem X86.override_minus_one (b : Build) (A : ArchIds) :
    X86.bli_cpuid_query_id_override b A (-1) = none := by
  unfold X86.bli_cpuid_query_id_override
  repeat apply override_step_minus_one
  have h : ((A.GENERIC : Int) == -1) = false := by
    rw [beq_eq_false_iff_ne]; omega
  simp [h]

theorem Arm.arm_override_generic (b : Build) (A : ArchIds) :
    Arm.bli_cpuid_query_id_override b A (A.GENERIC : Int) = some A.GENERIC := by
  unfold Arm.bli_cpuid_query_id_override
  repeat apply override_step_same
  simp

theorem Arm.arm_override_minus_one (b : Build) (A : ArchIds) :
    Arm.bli_cpuid_query_id_override b A (-1) = none := by
  unfold Arm.bli_cpuid_query_id_override
  repeat apply override_step_minus_one
  have h : ((A.GENERIC : Int) == -1) = false := by
    rw [beq_eq_false_iff_ne]; omega
  simp [h]

/-! ## Feature tests: lemmas -/

theorem has_features_self (x : Nat) : bli_cpuid_has_features x x = true := by
  simp [bli_cpuid_has_features]

theorem has_features_or (x a c : Nat) :
    bli_cpuid_has_features x (a ||| c)
      = (bli_cpuid_has_features x a && bli_cpuid_has_features x c) := by
  rw [Bool.eq_iff_iff]
  simp only [bli_cpuid_has_features, Bool.and_eq_true, beq_iff_eq]
  constructor
  · intro h
    constructor <;>
    · apply Nat.eq_of_testBit_eq
      intro i
      have hi := congrArg (fun n => Nat.testBit n i) h
      simp only [Nat.testBit_and, Nat.testBit_or] at hi ⊢
      revert hi
      cases x.testBit i <;> cases a.testBit i <;> cases c.testBit i <;> simp
  · rintro ⟨ha, hc⟩
    apply Nat.eq_of_testBit_eq
    intro i
    have hai := congrArg (fun n => Nat.testBit n i) ha
    have hci := congrArg (fun n => Nat.testBit n i) hc
    simp only [Nat.testBit_and, Nat.testBit_or] at hai hci ⊢
    revert hai hci
    cases x.testBit i <;> cases a.testBit i <;> cases c.testBit i <;> simp

/-! ## The matcher and the ordered tables: lemmas -/

theorem X86.match_intel (b : Build) (A : ArchIds) (F : FeatureFlags)
    (family model features : Nat) (nvpu : Int) :
    X86.bli_cpuid_query_id_match b A F VENDOR_INTEL family model features nvpu
      = spec_first_match A.GENERIC family model features nvpu (spec_intel_table b A F) := by
  simp only [X86.bli_cpuid_query_id_match, spec_first_match, spec_intel_table, if_true]

theorem X86.match_amd (b : Build) (A : ArchIds) (F : FeatureFlags)
    (family model features : Nat) (nvpu : Int) :
    X86.bli_cpuid_query_id_match b A F VENDOR_AMD family model features nvpu
      = spec_first_match A.GENERIC family model features nvpu (spec_amd_table b A F) := by
  simp [X86.bli_cpuid_query_id_match, spec_first_match, spec_amd_table]

theorem X86.match_other (b : Build) (A : ArchIds) (F : FeatureFlags) (vendor : vendor_t)
    (family model features : Nat) (nvpu : Int)
    (hi : vendor ≠ VENDOR_INTEL) (ha : vendor ≠ VENDOR_AMD) :
    X86.bli_cpuid_query_id_match b A F vendor family model features nvpu = A.GENERIC := by
  simp [X86.bli_cpuid_query_id_match, hi, ha]

theorem spec_first_match_none (G family model features : Nat) (nvpu : Int)
    (tbl : List Signature)
    (h : ∀ e ∈ tbl, e.enabled = true → e.pred family model features nvpu = false) :
    spec_first_match G family model features nvpu tbl = G := by
  induction tbl with
  | nil => rfl
  | cons e rest ih =>
    have he : (e.enabled && e.pred family model features nvpu) = false := by
      cases hen : e.enabled
      · rfl
      · simpa using h e (List.mem_cons_self e rest) hen
    simp only [spec_first_match, he]
    exact ih (fun e' he' => h e' (List.mem_cons_of_mem e he'))

theorem spec_first_match_at (G family model features : Nat) (nvpu : Int)
    (tbl : List Signature) (i : Nat) (e : Signature)
    (hi : tbl[i]? = some e) (hen : e.enabled = true)
    (hp : e.pred family model features nvpu = true)
    (hfirst : ∀ k e', k < i → tbl[k]? = some e' →
      e'.pred family model features nvpu = false) :
    spec_first_match G family model features nvpu tbl = e.id := by
  induction tbl generalizing i with
  | nil => simp at hi
  | cons e0 rest ih =>
    cases i with
    | zero =>
      simp only [List.getElem?_cons_zero, Option.some.injEq] at hi
      subst hi
      simp [spec_first_match, hen, hp]
    | succ j =>
      have h0 : e0.pred family model features nvpu = false :=
        hfirst 0 e0 (Nat.succ_pos j) (by simp)
      simp only [List.getElem?_cons_succ] at hi
      simp only [spec_first_match, h0, Bool.and_false]
      exact ih j hi (fun k e' hk hke => hfirst (k + 1) e' (Nat.succ_lt_succ hk) (by simpa using hke))

theorem spec_intel_table_enabled (b : Build) (A : ArchIds) (F : FeatureFlags)
    (hb : x86_all_enabled b) : ∀ e ∈ spec_intel_table b A F, e.enabled = true := by
  obtain ⟨h1, h2, h3, h4, h5, -⟩ := hb
  intro e he
  simp only [spec_intel_table, List.mem_cons, List.mem_singleton, List.not_mem_nil,
    or_false] at he
  rcases he with rfl | rfl | rfl | rfl | rfl <;> assumption

theorem spec_amd_table_enabled (b : Build) (A : ArchIds) (F : FeatureFlags)
    (hb : x86_all_enabled b) : ∀ e ∈ spec_amd_table b A F, e.enabled = true := by
  obtain ⟨-, -, -, -, -, h6, h7, h8, h9, h10, h11⟩ := hb
  intro e he
  simp only [spec_amd_table, List.mem_cons, List.mem_singleton, List.not_mem_nil,
    or_false] at he
  rcases he with rfl | rfl | rfl | rfl | rfl | rfl <;> assumption

/-! ## The vendor string: lemmas -/

theorem takeWhile_append_nul (l rest : List Nat) :
    (l ++ 0 :: rest).takeWhile (fun c => c != 0) = l.takeWhile (fun c => c != 0) := by
  induction l with
  | nil => simp [List.takeWhile]
  | cons x l ih =>
    by_cases hx : x = 0
    · simp [List.takeWhile, hx]
    · simp [List.takeWhile, hx, ih]

theorem takeWhile_full_length (p : Nat → Bool) (l lit : List Nat)
    (h : l.takeWhile p = lit) (hlen : lit.length = l.length) : l = lit := by
  induction l generalizing lit with
  | nil =>
    cases lit with
    | nil => rfl
    | cons y ys => simp at hlen
  | cons x l ih =>
    cases hp : p x with
    | false =>
      simp only [List.takeWhile, hp] at h
      subst h
      simp at hlen
    | true =>
      simp only [List.takeWhile, hp] at h
      cases lit with
      | nil => simp at h
      | cons y ys =>
        simp only [List.cons.injEq] at h
        obtain ⟨hxy, hys⟩ := h
        simp only [List.length_cons, Nat.add_right_cancel_iff] at hlen
        rw [hxy, ih ys hys hlen]

theorem takeWhile_no_nul (l : List Nat) (h : ∀ x ∈ l, x ≠ 0) :
    l.takeWhile (fun c => c != 0) = l := by
  induction l with
  | nil => rfl
  | cons x l ih =>
    have hx : x ≠ 0 := h x (List.mem_cons_self x l)
    have hb : (x != 0) = true := by simpa using hx
    simp only [List.takeWhile, hb]
    rw [ih (fun y hy => h y (List.mem_cons_of_mem x hy))]

theorem X86.strcmp_vendor (r : X86.CpuidRegs) (lit : String)
    (hlen : (ascii lit).length = 12) (hnul : ∀ x ∈ ascii lit, x ≠ 0) :
    X86.strcmp_eq (X86.vendor_string r) lit = true
      ↔ X86.le_bytes r.leaf0_ebx ++ X86.le_bytes r.leaf0_edx ++ X86.le_bytes r.leaf0_ecx
          = ascii lit := by
  have h0 : X86.le_bytes 0 = 0 :: [0, 0, 0] := by decide
  simp only [X86.strcmp_eq, c_string, X86.vendor_string, h0, beq_iff_eq]
  rw [takeWhile_append_nul]
  constructor
  · intro h
    refine takeWhile_full_length _ _ _ h ?_
    rw [hlen]
    simp [X86.le_bytes]
  · intro h
    rw [h]
    exact takeWhile_no_nul _ hnul

theorem X86.query_vendor (F : FeatureFlags) (r : X86.CpuidRegs) (h : ¬ r.cpuid_max < 1) :
    (X86.bli_cpuid_query F r).vendor
      = if X86.strcmp_eq (X86.vendor_string r) "AuthenticAMD" then VENDOR_AMD
        else if X86.strcmp_eq (X86.vendor_string r) "GenuineIntel" then VENDOR_INTEL
        else VENDOR_UNKNOWN := by
  simp only [X86.bli_cpuid_query, if_neg h]
  split_ifs <;> rfl

theorem X86.query_features (F : FeatureFlags) (r : X86.CpuidRegs) (h : ¬ r.cpuid_max < 1) :
    (X86.bli_cpuid_query F r).features
      = X86.os_gating F r.leaf1_ecx r.xcr0 (X86.normalized_features F r) := by
  simp only [X86.bli_cpuid_query, if_neg h]
  split_ifs <;> rfl

theorem X86.query_no_cpuid (F : FeatureFlags) (r : X86.CpuidRegs) (h : r.cpuid_max < 1) :
    X86.bli_cpuid_query F r = ⟨VENDOR_UNKNOWN, 0, 0, 0⟩ := by
  simp only [X86.bli_cpuid_query, if_pos h]

/-! ## Bits of a register and clearing of flags: lemmas -/

theorem has_features_two_pow (x k : Nat) :
    bli_cpuid_has_features x (2 ^ k) = x.testBit k := by
  rw [Bool.eq_iff_iff]
  simp only [bli_cpuid_has_features, beq_iff_eq]
  constructor
  · intro h
    have hk := congrArg (fun n => Nat.testBit n k) h
    simpa [Nat.testBit_and, Nat.testBit_two_pow_self] using hk
  · intro h
    apply Nat.eq_of_testBit_eq
    intro i
    rw [Nat.testBit_and, Nat.testBit_two_pow]
    by_cases hki : k = i
    · subst hki; simp [h]
    · simp [hki]

theorem X86.has_xgetbv (x : Nat) :
    bli_cpuid_has_features x X86.FEATURE_MASK_XGETBV = (x.testBit 26 && x.testBit 27) := by
  have h : X86.FEATURE_MASK_XGETBV = 2 ^ 26 ||| 2 ^ 27 := by decide
  rw [h, has_features_or, has_features_two_pow, has_features_two_pow]

theorem X86.has_xmm_ymm_zmm (x : Nat) :
    bli_cpuid_has_features x
        (X86.XGETBV_MASK_XMM ||| X86.XGETBV_MASK_YMM ||| X86.XGETBV_MASK_ZMM)
      = (x.testBit 1 && (x.testBit 2 && (x.testBit 5 && (x.testBit 6 && x.testBit 7)))) := by
  have h : X86.XGETBV_MASK_XMM ||| X86.XGETBV_MASK_YMM ||| X86.XGETBV_MASK_ZMM
      = 2 ^ 1 ||| (2 ^ 2 ||| (2 ^ 5 ||| (2 ^ 6 ||| 2 ^ 7))) := by decide
  rw [h]
  simp only [has_features_or, has_features_two_pow]

theorem and_or_left_sub (m n a : Nat) (h : m &&& a = a) : (m ||| n) &&& a = a := by
  apply Nat.eq_of_testBit_eq
  intro i
  have hi := congrArg (fun k => Nat.testBit k i) h
  simp only [Nat.testBit_and, Nat.testBit_or] at hi ⊢
  revert hi
  cases m.testBit i <;> cases n.testBit i <;> cases a.testBit i <;> simp

theorem and_or_right_sub (m n a : Nat) (h : n &&& a = a) : (m ||| n) &&& a = a := by
  apply Nat.eq_of_testBit_eq
  intro i
  have hi := congrArg (fun k => Nat.testBit k i) h
  simp only [Nat.testBit_and, Nat.testBit_or] at hi ⊢
  revert hi
  cases m.testBit i <;> cases n.testBit i <;> cases a.testBit i <;> simp

theorem X86.clear_flags_and (x m a : Nat) (h : m &&& a = a) :
    X86.clear_flags x m &&& a = 0 := by
  apply Nat.eq_of_testBit_eq
  intro i
  have hi := congrArg (fun k => Nat.testBit k i) h
  simp only [Nat.testBit_and] at hi
  simp only [X86.clear_flags, Nat.testBit_and, Nat.testBit_xor, Nat.testBit_two_pow_sub_one,
    Nat.testBit_mod_two_pow, Nat.zero_testBit]
  revert hi
  cases x.testBit i <;> cases m.testBit i <;> cases a.testBit i <;>
    cases decide (i < 32) <;> simp

theorem X86.clear_flags_keeps_zero (y m a : Nat) (h : y &&& a = 0) :
    X86.clear_flags y m &&& a = 0 := by
  apply Nat.eq_of_testBit_eq
  intro i
  have hi := congrArg (fun k => Nat.testBit k i) h
  simp only [Nat.testBit_and, Nat.zero_testBit] at hi
  simp only [X86.clear_flags, Nat.testBit_and, Nat.zero_testBit]
  revert hi
  cases y.testBit i <;> cases a.testBit i <;> simp

theorem X86.os_gating_clears (F : FeatureFlags) (ecx xcr0 features a : Nat)
    (hx : bli_cpuid_has_features ecx X86.FEATURE_MASK_XGETBV = true)
    (hz : bli_cpuid_has_features xcr0
      (X86.XGETBV_MASK_XMM ||| X86.XGETBV_MASK_YMM ||| X86.XGETBV_MASK_ZMM) = false)
    (ha : (F.AVX512F ||| F.AVX512DQ ||| F.AVX512PF ||| F.AVX512ER ||| F.AVX512CD |||
      F.AVX512BW ||| F.AVX512VL) &&& a = a) :
    X86.os_gating F ecx xcr0 features &&& a = 0 := by
  simp only [X86.os_gating, X86.xgetbv_gating, hx, hz, if_true, Bool.not_false]
  have h1 := X86.clear_flags_and features _ a ha
  split_ifs <;>
    first
    | exact Nat.zero_and a
    | exact X86.clear_flags_keeps_zero _ _ a h1
    | exact h1

/-! ## The override resolver and the override tests: results -/

/-- C1: `bli_env_check` does not recognise every known name.  With
`BLIS_CORETYPE` set to `knl`, the name `bli_arch_string(1)` of the example
table, the loop returns in its first iteration, where `knl` differs from
`bli_arch_string(0)`: the result is `BLIS_ARCH_GENERIC` and not the index 1.
Only the first name of the table is recognised. -/
theorem bli_env_check_second_name :
    sampleNames 1 = "knl" ∧
    bli_env_check sampleBuild sampleArch sampleNames (some "knl")
      = (sampleArch.GENERIC : Int) ∧
    bli_env_check sampleBuild sampleArch sampleNames (some "knl") ≠ 1 ∧
    bli_env_check sampleBuild sampleArch sampleNames (some "skx") = 0 := by
  decide

/-- C2: the override tests of `bli_cpuid_query_id` have no branch for
`BLIS_ARCH_ZEN2` (x86) nor for `BLIS_ARCH_A64FX` (ARM).  When the resolver's
result is one of these ids, the function goes on to the signature matcher and
its result follows the hardware: on x86 an Intel CPU with AVX gives
SANDYBRIDGE and an unknown vendor gives GENERIC, on ARM an ARMv8 part equal to
the CORTEXA57 id gives CORTEXA57 and an unknown vendor gives GENERIC; none of
them is the id asked for. -/
theorem query_id_override_missing_ids :
    X86.bli_cpuid_query_id_override sampleBuild sampleArch (sampleArch.ZEN2 : Int) = none ∧
    X86.bli_cpuid_query_id_with sampleBuild sampleArch sampleFlags (sampleArch.ZEN2 : Int)
      VENDOR_INTEL 6 42 sampleFlags.AVX (-1) = sampleArch.SANDYBRIDGE ∧
    X86.bli_cpuid_query_id_with sampleBuild sampleArch sampleFlags (sampleArch.ZEN2 : Int)
      VENDOR_UNKNOWN 0 0 0 (-1) = sampleArch.GENERIC ∧
    sampleArch.SANDYBRIDGE ≠ sampleArch.ZEN2 ∧ sampleArch.GENERIC ≠ sampleArch.ZEN2 ∧
    Arm.bli_cpuid_query_id_override sampleBuild sampleArch (sampleArch.A64FX : Int) = none ∧
    Arm.bli_cpuid_query_id_with sampleBuild sampleArch 1 (sampleArch.A64FX : Int)
      VENDOR_ARM MODEL_ARMV8 sampleArch.CORTEXA57 0 = sampleArch.CORTEXA57 ∧
    Arm.bli_cpuid_query_id_with sampleBuild sampleArch 1 (sampleArch.A64FX : Int)
      VENDOR_UNKNOWN MODEL_UNKNOWN 0 0 = sampleArch.GENERIC ∧
    sampleArch.CORTEXA57 ≠ sampleArch.A64FX ∧ sampleArch.GENERIC ≠ sampleArch.A64FX := by
  decide

/-- C3: in a run-time build with `BLIS_NUM_ARCHS > 0`, when `BLIS_CORETYPE`
is set to a string equal to none of the known names, `bli_env_check` returns
`BLIS_ARCH_GENERIC`, and `bli_cpuid_query_id` (x86 and ARM) then returns
`BLIS_ARCH_GENERIC` for every hardware input. -/
theorem unknown_override_gives_generic (b : Build) (A : ArchIds) (F : FeatureFlags)
    (arch_string : Nat → String) (s : String)
    (hb : b.CONFIGURETIME_CPUID = false) (hn : 0 < A.NUM_ARCHS)
    (hs : ∀ i, i < A.NUM_ARCHS → s ≠ arch_string i) :
    bli_env_check b A arch_string (some s) = (A.GENERIC : Int) ∧
    (∀ vendor family model features nvpu,
      X86.bli_cpuid_query_id_with b A F (bli_env_check b A arch_string (some s))
        vendor family model features nvpu = A.GENERIC) ∧
    (∀ r nvpu, X86.bli_cpuid_query_id b A F arch_string (some s) r nvpu = A.GENERIC) ∧
    (∀ NEON vendor model part features,
      Arm.bli_cpuid_query_id_with b A NEON (bli_env_check b A arch_string (some s))
        vendor model part features = A.GENERIC) := by
  have he := bli_env_check_unknown b A arch_string s hb hn hs
  refine ⟨he, ?_, ?_, ?_⟩
  · intro vendor family model features nvpu
    rw [he, X86.bli_cpuid_query_id_with, X86.override_generic]
  · intro r nvpu
    simp only [X86.bli_cpuid_query_id]
    rw [he, X86.bli_cpuid_query_id_with, X86.override_generic]
  · intro NEON vendor model part features
    rw [he, Arm.bli_cpuid_query_id_with, Arm.arm_override_generic]

/-- Witness of C3: the string `bogus` against the example name table. -/
theorem unknown_override_gives_generic_witness :
    sampleBuild.CONFIGURETIME_CPUID = false ∧ 0 < sampleArch.NUM_ARCHS ∧
    (∀ i, i < sampleArch.NUM_ARCHS → "bogus" ≠ sampleNames i) ∧
    bli_env_check sampleBuild sampleArch sampleNames (some "bogus")
      = (sampleArch.GENERIC : Int) ∧
    X86.bli_cpuid_query_id sampleBuild sampleArch sampleFlags sampleNames (some "bogus")
      sampleIntelRegs (-1) = sampleArch.GENERIC :=
  ⟨rfl, by decide, by decide,
    (unknown_override_gives_generic sampleBuild sampleArch sampleFlags sampleNames "bogus"
      rfl (by decide) (by decide)).1,
    (unknown_override_gives_generic sampleBuild sampleArch sampleFlags sampleNames "bogus"
      rfl (by decide) (by decide)).2.2.1 sampleIntelRegs (-1)⟩

/-- C4: when `BLIS_CORETYPE` is unset, `bli_env_check` returns `-1`, which is
the value of no `arch_t` enumerator; `bli_cpuid_query_id` then takes none of
its override branches and its result is the result of the signature matcher
on the hardware inputs (x86 and ARM). -/
theorem unset_override_runs_matcher (b : Build) (A : ArchIds) (F : FeatureFlags)
    (arch_string : Nat → String) :
    bli_env_check b A arch_string none = -1 ∧
    (∀ a : Nat, bli_env_check b A arch_string none ≠ (a : Int)) ∧
    X86.bli_cpuid_query_id_override b A (bli_env_check b A arch_string none) = none ∧
    (∀ vendor family model features nvpu,
      X86.bli_cpuid_query_id_with b A F (bli_env_check b A arch_string none)
        vendor family model features nvpu
        = X86.bli_cpuid_query_id_match b A F vendor family model features nvpu) ∧
    (∀ r nvpu, X86.bli_cpuid_query_id b A F arch_string none r nvpu
        = X86.bli_cpuid_query_id_match b A F (X86.bli_cpuid_query F r).vendor
            (X86.bli_cpuid_query F r).family (X86.bli_cpuid_query F r).model
            (X86.bli_cpuid_query F r).features nvpu) ∧
    Arm.bli_cpuid_query_id_override b A (bli_env_check b A arch_string none) = none ∧
    (∀ NEON vendor model part features,
      Arm.bli_cpuid_query_id_with b A NEON (bli_env_check b A arch_string none)
        vendor model part features
        = Arm.bli_cpuid_query_id_match b A NEON vendor model part features) := by
  have he := bli_env_check_none b A arch_string
  refine ⟨he, ?_, ?_, ?_, ?_, ?_, ?_⟩
  · intro a; rw [he]; omega
  · rw [he]; exact X86.override_minus_one b A
  · intro vendor family model features nvpu
    rw [he, X86.bli_cpuid_query_id_with, X86.override_minus_one]
  · intro r nvpu
    simp only [X86.bli_cpuid_query_id]
    rw [he, X86.bli_cpuid_query_id_with, X86.override_minus_one]
  · rw [he]; exact Arm.arm_override_minus_one b A
  · intro NEON vendor model part features
    rw [he, Arm.bli_cpuid_query_id_with, Arm.arm_override_minus_one]

/-- C5, as stated, fails: with `BLIS_CORETYPE` set to `bogus`, which is none of
the names of the example table, the example Intel machine is classified
GENERIC, whereas with the variable unset it is classified SANDYBRIDGE. -/
theorem unknown_override_differs_from_unset :
    (∀ i, i < sampleArch.NUM_ARCHS → "bogus" ≠ sampleNames i) ∧
    X86.bli_cpuid_query_id sampleBuild sampleArch sampleFlags sampleNames (some "bogus")
      sampleIntelRegs (-1) = sampleArch.GENERIC ∧
    X86.bli_cpuid_query_id sampleBuild sampleArch sampleFlags sampleNames none
      sampleIntelRegs (-1) = sampleArch.SANDYBRIDGE ∧
    X86.bli_cpuid_query_id sampleBuild sampleArch sampleFlags sampleNames (some "bogus")
      sampleIntelRegs (-1)
      ≠ X86.bli_cpuid_query_id sampleBuild sampleArch sampleFlags sampleNames none
          sampleIntelRegs (-1) := by
  decide

/-- C5, amended: in a run-time build with `BLIS_NUM_ARCHS > 0`, for every
override value that is set but is not a known name and for every hardware
input, `bli_cpuid_query_id` returns `BLIS_ARCH_GENERIC`; this is the id it
returns for the same hardware with the variable unset exactly when the
signature matcher yields `BLIS_ARCH_GENERIC` on that hardware. -/
theorem unknown_override_vs_unset (b : Build) (A : ArchIds) (F : FeatureFlags)
    (arch_string : Nat → String) (s : String)
    (hb : b.CONFIGURETIME_CPUID = false) (hn : 0 < A.NUM_ARCHS)
    (hs : ∀ i, i < A.NUM_ARCHS → s ≠ arch_string i)
    (r : X86.CpuidRegs) (nvpu : Int) :
    X86.bli_cpuid_query_id b A F arch_string (some s) r nvpu = A.GENERIC ∧
    (X86.bli_cpuid_query_id b A F arch_string (some s) r nvpu
        = X86.bli_cpuid_query_id b A F arch_string none r nvpu
      ↔ X86.bli_cpuid_query_id_match b A F (X86.bli_cpuid_query F r).vendor
          (X86.bli_cpuid_query F r).family (X86.bli_cpuid_query F r).model
          (X86.bli_cpuid_query F r).features nvpu = A.GENERIC) := by
  have hset : X86.bli_cpuid_query_id b A F arch_string (some s) r nvpu = A.GENERIC := by
    simp only [X86.bli_cpuid_query_id]
    rw [bli_env_check_unknown b A arch_string s hb hn hs, X86.bli_cpuid_query_id_with,
      X86.override_generic]
  have hunset : X86.bli_cpuid_query_id b A F arch_string none r nvpu
      = X86.bli_cpuid_query_id_match b A F (X86.bli_cpuid_query F r).vendor
          (X86.bli_cpuid_query F r).family (X86.bli_cpuid_query F r).model
          (X86.bli_cpuid_query F r).features nvpu := by
    simp only [X86.bli_cpuid_query_id]
    rw [bli_env_check_none, X86.bli_cpuid_query_id_with, X86.override_minus_one]
  refine ⟨hset, ?_⟩
  rw [hset, hunset]
  exact eq_comm

/-- Witness of the amended C5: the string `bogus` on the example Intel
machine. -/
theorem unknown_override_vs_unset_witness :
    sampleBuild.CONFIGURETIME_CPUID = false ∧ 0 < sampleArch.NUM_ARCHS ∧
    (∀ i, i < sampleArch.NUM_ARCHS → "bogus" ≠ sampleNames i) ∧
    X86.bli_cpuid_query_id sampleBuild sampleArch sampleFlags sampleNames (some "bogus")
      sampleIntelRegs (-1) = sampleArch.GENERIC :=
  ⟨rfl, by decide, by decide,
    (unknown_override_vs_unset sampleBuild sampleArch sampleFlags sampleNames "bogus"
      rfl (by decide) (by decide) sampleIntelRegs (-1)).1⟩

/-! ## The signature matcher: results -/

/-- C6: with no override and every x86 sub-configuration enabled, whenever
two signature predicates of the vendor's table hold, `bli_cpuid_query_id`
returns the id of the entry that is earliest in the table among those that
hold (Intel: SKX, KNL, HASWELL, SANDYBRIDGE, PENRYN; AMD: ZEN2, ZEN, EXCAVATOR,
STEAMROLLER, PILEDRIVER, BULLDOZER).  The AMD input family 0x17, model 0x30,
features AVX|FMA3|AVX2 satisfies both `bli_cpuid_is_zen2` and
`bli_cpuid_is_zen` and yields ZEN2. -/
theorem earliest_signature_wins (b : Build) (A : ArchIds) (F : FeatureFlags)
    (arch_string : Nat → String) (hb : x86_all_enabled b) :
    (spec_intel_table b A F).map Signature.id
      = [A.SKX, A.KNL, A.HASWELL, A.SANDYBRIDGE, A.PENRYN] ∧
    (spec_amd_table b A F).map Signature.id
      = [A.ZEN2, A.ZEN, A.EXCAVATOR, A.STEAMROLLER, A.PILEDRIVER, A.BULLDOZER] ∧
    (∀ (family model features : Nat) (nvpu : Int) (i j : Nat) (e₁ e₂ : Signature), i < j →
      (spec_intel_table b A F)[i]? = some e₁ → (spec_intel_table b A F)[j]? = some e₂ →
      e₁.pred family model features nvpu = true → e₂.pred family model features nvpu = true →
      (∀ (k : Nat) (e : Signature), k < i → (spec_intel_table b A F)[k]? = some e →
        e.pred family model features nvpu = false) →
      X86.bli_cpuid_query_id_with b A F (bli_env_check b A arch_string none)
        VENDOR_INTEL family model features nvpu = e₁.id) ∧
    (∀ (family model features : Nat) (nvpu : Int) (i j : Nat) (e₁ e₂ : Signature), i < j →
      (spec_amd_table b A F)[i]? = some e₁ → (spec_amd_table b A F)[j]? = some e₂ →
      e₁.pred family model features nvpu = true → e₂.pred family model features nvpu = true →
      (∀ (k : Nat) (e : Signature), k < i → (spec_amd_table b A F)[k]? = some e →
        e.pred family model features nvpu = false) →
      X86.bli_cpuid_query_id_with b A F (bli_env_check b A arch_string none)
        VENDOR_AMD family model features nvpu = e₁.id) ∧
    (∀ nvpu,
      X86.bli_cpuid_is_zen2 F 0x17 0x30 (F.AVX ||| F.FMA3 ||| F.AVX2) = true ∧
      X86.bli_cpuid_is_zen F 0x17 0x30 (F.AVX ||| F.FMA3 ||| F.AVX2) = true ∧
      X86.bli_cpuid_query_id_with b A F (bli_env_check b A arch_string none)
        VENDOR_AMD 0x17 0x30 (F.AVX ||| F.FMA3 ||| F.AVX2) nvpu = A.ZEN2) := by
  have hunset : ∀ vendor family model features nvpu,
      X86.bli_cpuid_query_id_with b A F (bli_env_check b A arch_string none)
        vendor family model features nvpu
        = X86.bli_cpuid_query_id_match b A F vendor family model features nvpu := by
    intro vendor family model features nvpu
    rw [bli_env_check_none, X86.bli_cpuid_query_id_with, X86.override_minus_one]
  refine ⟨rfl, rfl, ?_, ?_, ?_⟩
  · intro family model features nvpu i j e₁ e₂ _ h₁ _ hp₁ _ hfirst
    rw [hunset, X86.match_intel]
    exact spec_first_match_at _ _ _ _ _ _ i e₁ h₁
      (spec_intel_table_enabled b A F hb e₁ (List.getElem?_mem h₁)) hp₁ hfirst
  · intro family model features nvpu i j e₁ e₂ _ h₁ _ hp₁ _ hfirst
    rw [hunset, X86.match_amd]
    exact spec_first_match_at _ _ _ _ _ _ i e₁ h₁
      (spec_amd_table_enabled b A F hb e₁ (List.getElem?_mem h₁)) hp₁ hfirst
  · intro nvpu
    have hz2 : X86.bli_cpuid_is_zen2 F 0x17 0x30 (F.AVX ||| F.FMA3 ||| F.AVX2) = true := by
      simp [X86.bli_cpuid_is_zen2, has_features_self]
    have hz : X86.bli_cpuid_is_zen F 0x17 0x30 (F.AVX ||| F.FMA3 ||| F.AVX2) = true := by
      simp [X86.bli_cpuid_is_zen, has_features_self]
    refine ⟨hz2, hz, ?_⟩
    rw [hunset]
    have h6 : b.CONFIG_ZEN2 = true := hb.2.2.2.2.2.1
    simp [X86.bli_cpuid_query_id_match, h6, hz2]

/-- Witness of C6: the ZEN2/ZEN input on the example numbering, entries 0 and
1 of the AMD table. -/
theorem earliest_signature_wins_witness :
    x86_all_enabled sampleBuild ∧
    X86.bli_cpuid_is_zen2 sampleFlags 0x17 0x30 0x70 = true ∧
    X86.bli_cpuid_is_zen sampleFlags 0x17 0x30 0x70 = true ∧
    X86.bli_cpuid_query_id_with sampleBuild sampleArch sampleFlags
      (bli_env_check sampleBuild sampleArch sampleNames none)
      VENDOR_AMD 0x17 0x30 0x70 (-1) = sampleArch.ZEN2 :=
  ⟨by unfold x86_all_enabled; decide, by decide, by decide,
    (earliest_signature_wins sampleBuild sampleArch sampleFlags sampleNames
      (by unfold x86_all_enabled; decide)).2.2.2.1 0x17 0x30 0x70 (-1) 0 1
      ⟨true, fun fam m ft _ => X86.bli_cpuid_is_zen2 sampleFlags fam m ft, sampleArch.ZEN2⟩
      ⟨true, fun fam m ft _ => X86.bli_cpuid_is_zen sampleFlags fam m ft, sampleArch.ZEN⟩
      (by decide) rfl rfl (by decide) (by decide) (fun k e hk => absurd hk (Nat.not_lt_zero k))⟩

/-- C7: `bli_cpuid_query_id` is a total function, and with no override it
returns `BLIS_ARCH_GENERIC` for every input for which no enabled signature
predicate of the detected vendor holds, on x86 and on ARM.  Examples: an
Intel mask lacking AVX and lacking SSE3 or SSSE3; an AMD CPU whose family is
neither 0x15 nor 0x17, whatever its features. -/
theorem no_signature_gives_generic (b : Build) (A : ArchIds) (F : FeatureFlags)
    (arch_string : Nat → String) :
    (∀ env r nvpu, ∃ a, X86.bli_cpuid_query_id b A F arch_string env r nvpu = a) ∧
    (∀ vendor family model features nvpu,
      (vendor = VENDOR_INTEL → ∀ e ∈ spec_intel_table b A F, e.enabled = true →
        e.pred family model features nvpu = false) →
      (vendor = VENDOR_AMD → ∀ e ∈ spec_amd_table b A F, e.enabled = true →
        e.pred family model features nvpu = false) →
      X86.bli_cpuid_query_id_with b A F (bli_env_check b A arch_string none)
        vendor family model features nvpu = A.GENERIC) ∧
    (∀ family model features nvpu,
      bli_cpuid_has_features features F.AVX = false →
      (bli_cpuid_has_features features F.SSE3 = false ∨
        bli_cpuid_has_features features F.SSSE3 = false) →
      X86.bli_cpuid_query_id_with b A F (bli_env_check b A arch_string none)
        VENDOR_INTEL family model features nvpu = A.GENERIC) ∧
    (∀ family model features nvpu, family ≠ 0x15 → family ≠ 0x17 →
      X86.bli_cpuid_query_id_with b A F (bli_env_check b A arch_string none)
        VENDOR_AMD family model features nvpu = A.GENERIC) ∧
    (∀ NEON vendor model part features,
      (vendor = VENDOR_ARM → model = MODEL_ARMV8 →
        (b.CONFIG_A64FX = true → Arm.bli_cpuid_is_a64fx A model part features = false) ∧
        (b.CONFIG_THUNDERX2 = true → Arm.bli_cpuid_is_thunderx2 A model part features = false) ∧
        (b.CONFIG_CORTEXA57 = true → Arm.bli_cpuid_is_cortexa57 A model part features = false) ∧
        (b.CONFIG_CORTEXA53 = true →
          Arm.bli_cpuid_is_cortexa53 A model part features = false)) →
      (vendor = VENDOR_ARM → model = MODEL_ARMV7 →
        (b.CONFIG_CORTEXA15 = true →
          Arm.bli_cpuid_is_cortexa15 NEON model part features = false) ∧
        (b.CONFIG_CORTEXA9 = true →
          Arm.bli_cpuid_is_cortexa9 NEON model part features = false)) →
      Arm.bli_cpuid_query_id_with b A NEON (bli_env_check b A arch_string none)
        vendor model part features = A.GENERIC) := by
  have hunset : ∀ vendor family model features nvpu,
      X86.bli_cpuid_query_id_with b A F (bli_env_check b A arch_string none)
        vendor family model features nvpu
        = X86.bli_cpuid_query_id_match b A F vendor family model features nvpu := by
    intro vendor family model features nvpu
    rw [bli_env_check_none, X86.bli_cpuid_query_id_with, X86.override_minus_one]
  refine ⟨fun env r nvpu => ⟨_, rfl⟩, ?_, ?_, ?_, ?_⟩
  · intro vendor family model features nvpu hI hA
    rw [hunset]
    by_cases hvi : vendor = VENDOR_INTEL
    · subst hvi
      rw [X86.match_intel]
      exact spec_first_match_none _ _ _ _ _ _ (hI rfl)
    · by_cases hva : vendor = VENDOR_AMD
      · subst hva
        rw [X86.match_amd]
        exact spec_first_match_none _ _ _ _ _ _ (hA rfl)
      · exact X86.match_other b A F vendor family model features nvpu hvi hva
  · intro family model features nvpu havx hsse
    rw [hunset, X86.match_intel]
    apply spec_first_match_none
    intro e he _
    have hpen : (bli_cpuid_has_features features F.SSE3
        && bli_cpuid_has_features features F.SSSE3) = false := by
      rcases hsse with h | h <;> simp [h]
    simp only [spec_intel_table, List.mem_cons, List.mem_singleton, List.not_mem_nil,
      or_false] at he
    rcases he with rfl | rfl | rfl | rfl | rfl <;>
      simp [X86.bli_cpuid_is_skx, X86.bli_cpuid_is_knl, X86.bli_cpuid_is_haswell,
        X86.bli_cpuid_is_sandybridge, X86.bli_cpuid_is_penryn, has_features_or, havx, hpen]
  · intro family model features nvpu h15 h17
    rw [hunset, X86.match_amd]
    apply spec_first_match_none
    intro e he _
    simp only [spec_amd_table, List.mem_cons, List.mem_singleton, List.not_mem_nil,
      or_false] at he
    rcases he with rfl | rfl | rfl | rfl | rfl | rfl <;>
      simp [X86.bli_cpuid_is_zen2, X86.bli_cpuid_is_zen, X86.bli_cpuid_is_excavator,
        X86.bli_cpuid_is_steamroller, X86.bli_cpuid_is_piledriver,
        X86.bli_cpuid_is_bulldozer, h15, h17]
  · intro NEON vendor model part features h8 h7
    rw [bli_env_check_none, Arm.bli_cpuid_query_id_with, Arm.arm_override_minus_one]
    simp only [Arm.bli_cpuid_query_id_match]
    by_cases hv : vendor = VENDOR_ARM
    · by_cases hm8 : model = MODEL_ARMV8
      · subst hm8
        obtain ⟨p1, p2, p3, p4⟩ := h8 hv rfl
        have q1 : (b.CONFIG_A64FX && Arm.bli_cpuid_is_a64fx A MODEL_ARMV8 part features) = false := by
          cases hc : b.CONFIG_A64FX
          · rfl
          · simpa using p1 hc
        have q2 : (b.CONFIG_THUNDERX2 && Arm.bli_cpuid_is_thunderx2 A MODEL_ARMV8 part features)
            = false := by
          cases hc : b.CONFIG_THUNDERX2
          · rfl
          · simpa using p2 hc
        have q3 : (b.CONFIG_CORTEXA57 && Arm.bli_cpuid_is_cortexa57 A MODEL_ARMV8 part features)
            = false := by
          cases hc : b.CONFIG_CORTEXA57
          · rfl
          · simpa using p3 hc
        have q4 : (b.CONFIG_CORTEXA53 && Arm.bli_cpuid_is_cortexa53 A MODEL_ARMV8 part features)
            = false := by
          cases hc : b.CONFIG_CORTEXA53
          · rfl
          · simpa using p4 hc
        simp [hv, q1, q2, q3, q4]
      · by_cases hm7 : model = MODEL_ARMV7
        · subst hm7
          obtain ⟨p1, p2⟩ := h7 hv rfl
          have q1 : (b.CONFIG_CORTEXA15 && Arm.bli_cpuid_is_cortexa15 NEON MODEL_ARMV7 part features)
              = false := by
            cases hc : b.CONFIG_CORTEXA15
            · rfl
            · simpa using p1 hc
          have q2 : (b.CONFIG_CORTEXA9 && Arm.bli_cpuid_is_cortexa9 NEON MODEL_ARMV7 part features)
              = false := by
            cases hc : b.CONFIG_CORTEXA9
            · rfl
            · simpa using p2 hc
          simp [hv, q1, q2]
        · simp [hv, hm8, hm7]
    · simp [hv]

/-- Witness of C7: an Intel mask holding SSE3 only, and an AMD CPU of family
0x16 with every flag set, on the example numbering. -/
theorem no_signature_gives_generic_witness :
    bli_cpuid_has_features 0x0001 sampleFlags.AVX = false ∧
    bli_cpuid_has_features 0x0001 sampleFlags.SSSE3 = false ∧
    X86.bli_cpuid_query_id_with sampleBuild sampleArch sampleFlags
      (bli_env_check sampleBuild sampleArch sampleNames none)
      VENDOR_INTEL 6 42 0x0001 (-1) = sampleArch.GENERIC ∧
    X86.bli_cpuid_query_id_with sampleBuild sampleArch sampleFlags
      (bli_env_check sampleBuild sampleArch sampleNames none)
      VENDOR_AMD 0x16 0x30 0x7fff (-1) = sampleArch.GENERIC :=
  ⟨by decide, by decide,
    (no_signature_gives_generic sampleBuild sampleArch sampleFlags sampleNames).2.2.1
      6 42 0x0001 (-1) (by decide) (Or.inr (by decide)),
    (no_signature_gives_generic sampleBuild sampleArch sampleFlags sampleNames).2.2.2.1
      0x16 0x30 0x7fff (-1) (by decide) (by decide)⟩

/-! ## x86 `bli_cpuid_query`: results -/

/-- C8: on x86 with no override, whenever the twelve vendor bytes (leaf 0
EBX, EDX, ECX) spell neither `GenuineIntel` nor `AuthenticAMD`,
`bli_cpuid_query` returns `VENDOR_UNKNOWN`, and `bli_cpuid_query_id` returns
`BLIS_ARCH_GENERIC` for every family, model and feature mask. -/
theorem unknown_vendor_gives_generic (b : Build) (A : ArchIds) (F : FeatureFlags)
    (arch_string : Nat → String) (r : X86.CpuidRegs)
    (hI : X86.le_bytes r.leaf0_ebx ++ X86.le_bytes r.leaf0_edx ++ X86.le_bytes r.leaf0_ecx
      ≠ ascii "GenuineIntel")
    (hA : X86.le_bytes r.leaf0_ebx ++ X86.le_bytes r.leaf0_edx ++ X86.le_bytes r.leaf0_ecx
      ≠ ascii "AuthenticAMD") :
    (X86.bli_cpuid_query F r).vendor = VENDOR_UNKNOWN ∧
    (∀ family model features nvpu,
      X86.bli_cpuid_query_id_with b A F (bli_env_check b A arch_string none)
        (X86.bli_cpuid_query F r).vendor family model features nvpu = A.GENERIC) ∧
    (∀ nvpu, X86.bli_cpuid_query_id b A F arch_string none r nvpu = A.GENERIC) := by
  have hv : (X86.bli_cpuid_query F r).vendor = VENDOR_UNKNOWN := by
    by_cases hmax : r.cpuid_max < 1
    · rw [X86.query_no_cpuid F r hmax]
    · have hamd : X86.strcmp_eq (X86.vendor_string r) "AuthenticAMD" = false := by
        rw [Bool.eq_false_iff]
        intro h
        exact hA ((X86.strcmp_vendor r "AuthenticAMD" (by decide) (by decide)).1 h)
      have hint : X86.strcmp_eq (X86.vendor_string r) "GenuineIntel" = false := by
        rw [Bool.eq_false_iff]
        intro h
        exact hI ((X86.strcmp_vendor r "GenuineIntel" (by decide) (by decide)).1 h)
      rw [X86.query_vendor F r hmax, hamd, hint]
      rfl
  have hg : ∀ family model features nvpu,
      X86.bli_cpuid_query_id_with b A F (bli_env_check b A arch_string none)
        (X86.bli_cpuid_query F r).vendor family model features nvpu = A.GENERIC := by
    intro family model features nvpu
    rw [bli_env_check_none, X86.bli_cpuid_query_id_with, X86.override_minus_one, hv]
    exact X86.match_other b A F VENDOR_UNKNOWN family model features nvpu
      (by decide) (by decide)
  exact ⟨hv, hg, fun nvpu => hg _ _ _ nvpu⟩

/-- Witness of C8: the vendor bytes `GenuineIotel` (one letter changed) on the
example machine. -/
theorem unknown_vendor_gives_generic_witness :
    X86.le_bytes 0x756e6547 ++ X86.le_bytes 0x49656e69 ++ X86.le_bytes 0x6c65746f
      = ascii "GenuineIotel" ∧
    (X86.bli_cpuid_query sampleFlags
      { sampleIntelRegs with leaf0_ecx := 0x6c65746f }).vendor = VENDOR_UNKNOWN ∧
    X86.bli_cpuid_query_id sampleBuild sampleArch sampleFlags sampleNames none
      { sampleIntelRegs with leaf0_ecx := 0x6c65746f } 2 = sampleArch.GENERIC :=
  ⟨by decide,
    (unknown_vendor_gives_generic sampleBuild sampleArch sampleFlags sampleNames
      { sampleIntelRegs with leaf0_ecx := 0x6c65746f } (by decide) (by decide)).1,
    (unknown_vendor_gives_generic sampleBuild sampleArch sampleFlags sampleNames
      { sampleIntelRegs with leaf0_ecx := 0x6c65746f } (by decide) (by decide)).2.2 2⟩

/-- C9: the x86 `bli_cpuid_query` classifies the vendor by the twelve bytes
of leaf 0 EBX, EDX, ECX, each register little-endian, in that order.  When the
maximum basic leaf is at least 1 it returns `VENDOR_AMD` iff they spell
`AuthenticAMD`, `VENDOR_INTEL` iff they spell `GenuineIntel`, and
`VENDOR_UNKNOWN` otherwise; when the maximum basic leaf is below 1 it returns
`VENDOR_UNKNOWN` with family, model and features all 0. -/
theorem vendor_classification (F : FeatureFlags) (r : X86.CpuidRegs) :
    (1 ≤ r.cpuid_max →
      ((X86.bli_cpuid_query F r).vendor = VENDOR_AMD
        ↔ X86.le_bytes r.leaf0_ebx ++ X86.le_bytes r.leaf0_edx ++ X86.le_bytes r.leaf0_ecx
            = ascii "AuthenticAMD") ∧
      ((X86.bli_cpuid_query F r).vendor = VENDOR_INTEL
        ↔ X86.le_bytes r.leaf0_ebx ++ X86.le_bytes r.leaf0_edx ++ X86.le_bytes r.leaf0_ecx
            = ascii "GenuineIntel") ∧
      ((X86.bli_cpuid_query F r).vendor = VENDOR_UNKNOWN
        ↔ X86.le_bytes r.leaf0_ebx ++ X86.le_bytes r.leaf0_edx ++ X86.le_bytes r.leaf0_ecx
              ≠ ascii "AuthenticAMD" ∧
            X86.le_bytes r.leaf0_ebx ++ X86.le_bytes r.leaf0_edx ++ X86.le_bytes r.leaf0_ecx
              ≠ ascii "GenuineIntel")) ∧
    (r.cpuid_max < 1 →
      (X86.bli_cpuid_query F r).vendor = VENDOR_UNKNOWN ∧
      (X86.bli_cpuid_query F r).family = 0 ∧ (X86.bli_cpuid_query F r).model = 0 ∧
      (X86.bli_cpuid_query F r).features = 0) := by
  constructor
  · intro hmax
    have hmax' : ¬ r.cpuid_max < 1 := by omega
    have hamd := X86.strcmp_vendor r "AuthenticAMD" (by decide) (by decide)
    have hint := X86.strcmp_vendor r "GenuineIntel" (by decide) (by decide)
    have hne : ascii "AuthenticAMD" ≠ ascii "GenuineIntel" := by decide
    rw [X86.query_vendor F r hmax']
    by_cases h1 : X86.strcmp_eq (X86.vendor_string r) "AuthenticAMD" = true
    · have e1 := hamd.1 h1
      rw [if_pos h1]
      exact ⟨⟨fun _ => e1, fun _ => rfl⟩,
        ⟨fun h => absurd h (by decide), fun h => absurd (e1.symm.trans h) hne⟩,
        ⟨fun h => absurd h (by decide), fun h => absurd e1 h.1⟩⟩
    · have n1 : ¬ _ := fun e => h1 (hamd.2 e)
      rw [if_neg h1]
      by_cases h2 : X86.strcmp_eq (X86.vendor_string r) "GenuineIntel" = true
      · have e2 := hint.1 h2
        rw [if_pos h2]
        exact ⟨⟨fun h => absurd h (by decide), fun h => absurd h n1⟩,
          ⟨fun _ => e2, fun _ => rfl⟩,
          ⟨fun h => absurd h (by decide), fun h => absurd e2 h.2⟩⟩
      · have n2 : ¬ _ := fun e => h2 (hint.2 e)
        rw [if_neg h2]
        exact ⟨⟨fun h => absurd h (by decide), fun h => absurd h n1⟩,
          ⟨fun h => absurd h (by decide), fun h => absurd h n2⟩,
          ⟨fun _ => ⟨n1, n2⟩, fun _ => rfl⟩⟩
  · intro hmax
    rw [X86.query_no_cpuid F r hmax]
    exact ⟨rfl, rfl, rfl, rfl⟩

/-- Witness of C9: the example machine, whose leaf 0 spells `GenuineIntel`. -/
theorem vendor_classification_witness :
    1 ≤ sampleIntelRegs.cpuid_max ∧
    X86.le_bytes sampleIntelRegs.leaf0_ebx ++ X86.le_bytes sampleIntelRegs.leaf0_edx
      ++ X86.le_bytes sampleIntelRegs.leaf0_ecx = ascii "GenuineIntel" ∧
    (X86.bli_cpuid_query sampleFlags sampleIntelRegs).vendor = VENDOR_INTEL :=
  ⟨by decide, by decide,
    ((vendor_classification sampleFlags sampleIntelRegs).1 (by decide)).2.1.2 (by decide)⟩

/-- C10: in the x86 `bli_cpuid_query`, whenever leaf 1 ECX has bits 26 and 27
both set and `xcr0` does not have all of the bits 1, 2, 5, 6, 7 set, the final
feature mask has no bit in common with any of AVX512F, AVX512DQ, AVX512PF,
AVX512ER, AVX512CD, AVX512BW, AVX512VL, so it contains none of these flags,
whatever the raw CPUID bits are. -/
theorem avx512_cleared_without_zmm_state (F : FeatureFlags) (r : X86.CpuidRegs)
    (hx : r.leaf1_ecx.testBit 26 = true ∧ r.leaf1_ecx.testBit 27 = true)
    (hz : ¬ (r.xcr0.testBit 1 = true ∧ r.xcr0.testBit 2 = true ∧ r.xcr0.testBit 5 = true ∧
      r.xcr0.testBit 6 = true ∧ r.xcr0.testBit 7 = true)) :
    ∀ flag ∈ [F.AVX512F, F.AVX512DQ, F.AVX512PF, F.AVX512ER, F.AVX512CD, F.AVX512BW,
        F.AVX512VL],
      (X86.bli_cpuid_query F r).features &&& flag = 0 ∧
      (flag ≠ 0 → bli_cpuid_has_features (X86.bli_cpuid_query F r).features flag = false) := by
  intro flag hflag
  have hsub : (F.AVX512F ||| F.AVX512DQ ||| F.AVX512PF ||| F.AVX512ER ||| F.AVX512CD |||
      F.AVX512BW ||| F.AVX512VL) &&& flag = flag := by
    simp only [List.mem_cons, List.mem_singleton, List.not_mem_nil, or_false] at hflag
    rcases hflag with rfl | rfl | rfl | rfl | rfl | rfl | rfl <;>
      repeat (first
        | exact Nat.and_self _
        | (apply and_or_right_sub; exact Nat.and_self _)
        | apply and_or_left_sub)
  have hzero : (X86.bli_cpuid_query F r).features &&& flag = 0 := by
    by_cases hmax : r.cpuid_max < 1
    · rw [X86.query_no_cpuid F r hmax]
      exact Nat.zero_and flag
    · rw [X86.query_features F r hmax]
      apply X86.os_gating_clears F _ _ _ flag
      · rw [X86.has_xgetbv, hx.1, hx.2]; rfl
      · rw [X86.has_xmm_ymm_zmm, Bool.eq_false_iff]
        intro h
        simp only [Bool.and_eq_true] at h
        exact hz h
      · exact hsub
  refine ⟨hzero, fun hne => ?_⟩
  simp only [bli_cpuid_has_features, hzero, beq_eq_false_iff_ne, ne_eq]
  exact fun h => hne h.symm

/-- Witness of C10: a machine reporting every leaf 7 bit while the OS enables
only XMM and YMM state (`xcr0 = 7`). -/
theorem avx512_cleared_without_zmm_state_witness :
    (0x1c001201 : Nat).testBit 26 = true ∧ (0x1c001201 : Nat).testBit 27 = true ∧
    (7 : Nat).testBit 5 = false ∧
    (X86.bli_cpuid_query sampleFlags
      { sampleIntelRegs with leaf7_ebx := 0xffffffff, leaf1_ecx := 0x1c001201 }).features
        &&& sampleFlags.AVX512F = 0 :=
  ⟨by decide, by decide, by decide,
    (avx512_cleared_without_zmm_state sampleFlags
      { sampleIntelRegs with leaf7_ebx := 0xffffffff, leaf1_ecx := 0x1c001201 }
      ⟨by decide, by decide⟩ (by decide) sampleFlags.AVX512F (by decide)).1⟩

/-! ## OS-enablement gating and family/model decoding: lemmas -/

theorem X86.has_xmm_ymm (x : Nat) :
    bli_cpuid_has_features x (X86.XGETBV_MASK_XMM ||| X86.XGETBV_MASK_YMM)
      = (x.testBit 1 && x.testBit 2) := by
  have h : X86.XGETBV_MASK_XMM ||| X86.XGETBV_MASK_YMM = 2 ^ 1 ||| 2 ^ 2 := by decide
  rw [h, has_features_or, has_features_two_pow, has_features_two_pow]

theorem X86.os_gating_clears_ymm (F : FeatureFlags) (ecx xcr0 features a : Nat)
    (hx : bli_cpuid_has_features ecx X86.FEATURE_MASK_XGETBV = true)
    (hy : bli_cpuid_has_features xcr0 (X86.XGETBV_MASK_XMM ||| X86.XGETBV_MASK_YMM) = false)
    (ha : (F.AVX512F ||| F.AVX512DQ ||| F.AVX512PF ||| F.AVX512ER ||| F.AVX512CD |||
        F.AVX512BW ||| F.AVX512VL) &&& a = a ∨
      (F.AVX ||| F.AVX2 ||| F.FMA3 ||| F.FMA4) &&& a = a) :
    X86.os_gating F ecx xcr0 features &&& a = 0 := by
  have hz : bli_cpuid_has_features xcr0
      (X86.XGETBV_MASK_XMM ||| X86.XGETBV_MASK_YMM ||| X86.XGETBV_MASK_ZMM) = false := by
    rw [has_features_or, hy]; rfl
  simp only [X86.os_gating, X86.xgetbv_gating, hx, hy, hz, if_true, Bool.not_false]
  have h2 : X86.clear_flags (X86.clear_flags features
      (F.AVX512F ||| F.AVX512DQ ||| F.AVX512PF ||| F.AVX512ER ||| F.AVX512CD |||
        F.AVX512BW ||| F.AVX512VL)) (F.AVX ||| F.AVX2 ||| F.FMA3 ||| F.FMA4) &&& a = 0 := by
    rcases ha with ha | ha
    · exact X86.clear_flags_keeps_zero _ _ a (X86.clear_flags_and features _ a ha)
    · exact X86.clear_flags_and _ _ a ha
  split_ifs <;>
    first
    | exact Nat.zero_and a
    | exact h2

theorem X86.query_model_family (F : FeatureFlags) (r : X86.CpuidRegs) (h : ¬ r.cpuid_max < 1) :
    (X86.bli_cpuid_query F r).model = (X86.model_family r.leaf1_eax).1 ∧
    (X86.bli_cpuid_query F r).family = (X86.model_family r.leaf1_eax).2 := by
  simp only [X86.bli_cpuid_query, if_neg h]
  split_ifs <;> exact ⟨rfl, rfl⟩

theorem X86.model_family_fields (eax : Nat) :
    X86.model_family eax
      = if eax / 2 ^ 8 % 2 ^ 4 = 6 then
          (eax / 2 ^ 16 % 2 ^ 4 * 16 + eax / 2 ^ 4 % 2 ^ 4, eax / 2 ^ 8 % 2 ^ 4)
        else if eax / 2 ^ 8 % 2 ^ 4 = 15 then
          (eax / 2 ^ 16 % 2 ^ 4 * 16 + eax / 2 ^ 4 % 2 ^ 4,
            eax / 2 ^ 20 % 2 ^ 8 + eax / 2 ^ 8 % 2 ^ 4)
        else (eax / 2 ^ 4 % 2 ^ 4, eax / 2 ^ 8 % 2 ^ 4) := by
  have hF : (0xF : Nat) = 2 ^ 4 - 1 := by decide
  have hFF : (0xFF : Nat) = 2 ^ 8 - 1 := by decide
  simp only [X86.model_family, hF, hFF, Nat.and_pow_two_sub_one_eq_mod,
    Nat.shiftRight_eq_div_pow, Nat.shiftLeft_eq]

/-! ## OS-enablement gating and family/model decoding: results -/

/-- C11: the claim fails on the code.  On the example machine with leaf 1 ECX
`0x10000201` (SSE3, SSSE3 and AVX reported, bits 26 and 27 clear) the test on
`FEATURE_MASK_XGETBV` fails, yet the mask written to the caller is
SSE3|SSSE3|AVX and not 0, and the machine is classified SANDYBRIDGE: the
`else` branch assigns 0 to the pointer `features`, not to `*features`. -/
theorem feature_mask_kept_without_xgetbv :
    (0x10000201 : Nat).testBit 26 = false ∧ (0x10000201 : Nat).testBit 27 = false ∧
    bli_cpuid_has_features 0x10000201 X86.FEATURE_MASK_XGETBV = false ∧
    (X86.bli_cpuid_query sampleFlags { sampleIntelRegs with leaf1_ecx := 0x10000201 }).features
      = sampleFlags.SSE3 ||| sampleFlags.SSSE3 ||| sampleFlags.AVX ∧
    (X86.bli_cpuid_query sampleFlags { sampleIntelRegs with leaf1_ecx := 0x10000201 }).features
      ≠ 0 ∧
    X86.bli_cpuid_query_id sampleBuild sampleArch sampleFlags sampleNames none
      { sampleIntelRegs with leaf1_ecx := 0x10000201 } (-1) = sampleArch.SANDYBRIDGE := by
  decide

/-- C12: in the x86 `bli_cpuid_query`, whenever leaf 1 ECX has bits 26 and 27
both set (the gating branch is taken) and `xcr0` lacks bit 1 or bit 2, the
final feature mask has no bit in common with any of AVX, AVX2, FMA3, FMA4 nor
with any of the seven AVX-512 flags: no AVX-512 flag survives when the OS has
not enabled XMM and YMM state. -/
theorem wide_flags_cleared_without_ymm_state (F : FeatureFlags) (r : X86.CpuidRegs)
    (hx : r.leaf1_ecx.testBit 26 = true ∧ r.leaf1_ecx.testBit 27 = true)
    (hy : r.xcr0.testBit 1 = false ∨ r.xcr0.testBit 2 = false) :
    ∀ flag ∈ [F.AVX, F.AVX2, F.FMA3, F.FMA4, F.AVX512F, F.AVX512DQ, F.AVX512PF,
        F.AVX512ER, F.AVX512CD, F.AVX512BW, F.AVX512VL],
      (X86.bli_cpuid_query F r).features &&& flag = 0 ∧
      (flag ≠ 0 → bli_cpuid_has_features (X86.bli_cpuid_query F r).features flag = false) := by
  intro flag hflag
  have hsub : (F.AVX512F ||| F.AVX512DQ ||| F.AVX512PF ||| F.AVX512ER ||| F.AVX512CD |||
        F.AVX512BW ||| F.AVX512VL) &&& flag = flag ∨
      (F.AVX ||| F.AVX2 ||| F.FMA3 ||| F.FMA4) &&& flag = flag := by
    simp only [List.mem_cons, List.mem_singleton, List.not_mem_nil, or_false] at hflag
    rcases hflag with rfl | rfl | rfl | rfl | rfl | rfl | rfl | rfl | rfl | rfl | rfl
    iterate 4
      right
      repeat (first
        | exact Nat.and_self _
        | (apply and_or_right_sub; exact Nat.and_self _)
        | apply and_or_left_sub)
    iterate 7
      left
      repeat (first
        | exact Nat.and_self _
        | (apply and_or_right_sub; exact Nat.and_self _)
        | apply and_or_left_sub)
  have hzero : (X86.bli_cpuid_query F r).features &&& flag = 0 := by
    by_cases hmax : r.cpuid_max < 1
    · rw [X86.query_no_cpuid F r hmax]
      exact Nat.zero_and flag
    · rw [X86.query_features F r hmax]
      apply X86.os_gating_clears_ymm F _ _ _ flag
      · rw [X86.has_xgetbv, hx.1, hx.2]; rfl
      · rw [X86.has_xmm_ymm]
        rcases hy with h | h <;> simp [h]
      · exact hsub
  refine ⟨hzero, fun hne => ?_⟩
  simp only [bli_cpuid_has_features, hzero, beq_eq_false_iff_ne, ne_eq]
  exact fun h => hne h.symm

/-- Witness of C12: a machine reporting AVX, FMA3 and every leaf 7 bit while
the OS enables only XMM state (`xcr0 = 3`). -/
theorem wide_flags_cleared_without_ymm_state_witness :
    (0x1c001201 : Nat).testBit 26 = true ∧ (0x1c001201 : Nat).testBit 27 = true ∧
    (3 : Nat).testBit 2 = false ∧
    (X86.bli_cpuid_query sampleFlags
      { sampleIntelRegs with leaf7_ebx := 0xffffffff, leaf1_ecx := 0x1c001201, xcr0 := 3
      }).features &&& sampleFlags.AVX = 0 :=
  ⟨by decide, by decide, by decide,
    (wide_flags_cleared_without_ymm_state sampleFlags
      { sampleIntelRegs with leaf7_ebx := 0xffffffff, leaf1_ecx := 0x1c001201, xcr0 := 3 }
      ⟨by decide, by decide⟩ (Or.inr (by decide)) sampleFlags.AVX (by decide)).1⟩

/-- C13: family and model as decoded by the x86 `bli_cpuid_query` from leaf 1
EAX (maximum basic leaf at least 1).  With base_family = EAX[11:8],
base_model = EAX[7:4], ext_model = EAX[19:16], ext_family = EAX[27:20]: if
base_family = 15 then family = 15 + ext_family and model = 16*ext_model +
base_model; if base_family = 6 then family = 6 and model = 16*ext_model +
base_model; otherwise family = base_family and model = base_model. -/
theorem family_model_decoding (F : FeatureFlags) (r : X86.CpuidRegs)
    (hmax : 1 ≤ r.cpuid_max) (base_family base_model ext_model ext_family : Nat)
    (hbf : base_family = r.leaf1_eax / 2 ^ 8 % 2 ^ 4)
    (hbm : base_model = r.leaf1_eax / 2 ^ 4 % 2 ^ 4)
    (hem : ext_model = r.leaf1_eax / 2 ^ 16 % 2 ^ 4)
    (hef : ext_family = r.leaf1_eax / 2 ^ 20 % 2 ^ 8) :
    (base_family = 15 →
      (X86.bli_cpuid_query F r).family = 15 + ext_family ∧
      (X86.bli_cpuid_query F r).model = 16 * ext_model + base_model) ∧
    (base_family = 6 →
      (X86.bli_cpuid_query F r).family = 6 ∧
      (X86.bli_cpuid_query F r).model = 16 * ext_model + base_model) ∧
    (base_family ≠ 15 → base_family ≠ 6 →
      (X86.bli_cpuid_query F r).family = base_family ∧
      (X86.bli_cpuid_query F r).model = base_model) := by
  have hmax' : ¬ r.cpuid_max < 1 := by omega
  obtain ⟨hm, hf⟩ := X86.query_model_family F r hmax'
  rw [hm, hf, X86.model_family_fields, ← hbf, ← hbm, ← hem, ← hef]
  refine ⟨fun h => ?_, fun h => ?_, fun h15 h6 => ?_⟩
  · have h6 : ¬ base_family = 6 := by omega
    simp only [if_neg h6, if_pos h]
    constructor <;> omega
  · simp only [if_pos h]
    constructor <;> omega
  · rw [if_neg h6, if_neg h15]
    exact ⟨rfl, rfl⟩

/-- Witness of C13: EAX = 0x00830f10 (an AMD family 0x17, model 0x31 part):
base family 15, extended family 8, extended model 3, base model 1. -/
theorem family_model_decoding_witness :
    (X86.bli_cpuid_query sampleFlags { sampleIntelRegs with leaf1_eax := 0x00830f10 }).family
      = 0x17 ∧
    (X86.bli_cpuid_query sampleFlags { sampleIntelRegs with leaf1_eax := 0x00830f10 }).model
      = 0x31 :=
  ((family_model_decoding sampleFlags { sampleIntelRegs with leaf1_eax := 0x00830f10 }
    (by decide) 15 1 3 8 (by decide) (by decide) (by decide) (by decide)).1 rfl)

/-! ## The signature predicates in closed form: lemmas -/

theorem has_features_mono (x extra want : Nat) (h : bli_cpuid_has_features x want = true) :
    bli_cpuid_has_features (x ||| extra) want = true := by
  simp only [bli_cpuid_has_features, beq_iff_eq] at h ⊢
  apply Nat.eq_of_testBit_eq
  intro i
  have hi := congrArg (fun n => Nat.testBit n i) h
  simp only [Nat.testBit_and, Nat.testBit_or] at hi ⊢
  revert hi
  cases x.testBit i <;> cases extra.testBit i <;> cases want.testBit i <;> simp

theorem X86.is_skx_eq (F : FeatureFlags) (family model features : Nat) (nvpu : Int) :
    X86.bli_cpuid_is_skx F family model features nvpu
      = (bli_cpuid_has_features features (F.AVX ||| F.FMA3 ||| F.AVX2 ||| F.AVX512F |||
          F.AVX512DQ ||| F.AVX512BW ||| F.AVX512VL) && decide (nvpu = 2)) := by
  unfold X86.bli_cpuid_is_skx
  dsimp only
  generalize bli_cpuid_has_features features (F.AVX ||| F.FMA3 ||| F.AVX2 ||| F.AVX512F |||
      F.AVX512DQ ||| F.AVX512BW ||| F.AVX512VL) = hf
  cases hf
  · simp
  · by_cases h2 : nvpu = 2
    · simp [h2]
    · by_cases h1 : nvpu = 1 <;> simp [h1, h2]

theorem X86.is_knl_eq (F : FeatureFlags) (family model features : Nat) :
    X86.bli_cpuid_is_knl F family model features
      = bli_cpuid_has_features features (F.AVX ||| F.FMA3 ||| F.AVX2 ||| F.AVX512F ||| F.AVX512PF) := by
  unfold X86.bli_cpuid_is_knl
  dsimp only
  generalize bli_cpuid_has_features features (F.AVX ||| F.FMA3 ||| F.AVX2 ||| F.AVX512F ||| F.AVX512PF) = hf
  cases hf <;> rfl

theorem X86.is_haswell_eq (F : FeatureFlags) (family model features : Nat) :
    X86.bli_cpuid_is_haswell F family model features
      = bli_cpuid_has_features features (F.AVX ||| F.FMA3 ||| F.AVX2) := by
  unfold X86.bli_cpuid_is_haswell
  dsimp only
  generalize bli_cpuid_has_features features (F.AVX ||| F.FMA3 ||| F.AVX2) = hf
  cases hf <;> rfl

theorem X86.is_sandybridge_eq (F : FeatureFlags) (family model features : Nat) :
    X86.bli_cpuid_is_sandybridge F family model features
      = bli_cpuid_has_features features (F.AVX) := by
  unfold X86.bli_cpuid_is_sandybridge
  dsimp only
  generalize bli_cpuid_has_features features (F.AVX) = hf
  cases hf <;> rfl

theorem X86.is_penryn_eq (F : FeatureFlags) (family model features : Nat) :
    X86.bli_cpuid_is_penryn F family model features
      = bli_cpuid_has_features features (F.SSE3 ||| F.SSSE3) := by
  unfold X86.bli_cpuid_is_penryn
  dsimp only
  generalize bli_cpuid_has_features features (F.SSE3 ||| F.SSSE3) = hf
  cases hf <;> rfl

theorem X86.is_zen2_eq (F : FeatureFlags) (family model features : Nat) :
    X86.bli_cpuid_is_zen2 F family model features
      = (bli_cpuid_has_features features (F.AVX ||| F.FMA3 ||| F.AVX2) && (family == 0x17) &&
          (decide (0x30 ≤ model) && decide (model ≤ 0xff))) := by
  unfold X86.bli_cpuid_is_zen2
  dsimp only
  generalize bli_cpuid_has_features features (F.AVX ||| F.FMA3 ||| F.AVX2) = hf
  generalize (decide (0x30 ≤ model) && decide (model ≤ 0xff)) = ra
  cases hf <;> cases ra <;> by_cases h : family = 0x17 <;> simp [h]

theorem X86.is_zen_eq (F : FeatureFlags) (family model features : Nat) :
    X86.bli_cpuid_is_zen F family model features
      = (bli_cpuid_has_features features (F.AVX ||| F.FMA3 ||| F.AVX2) && (family == 0x17) &&
          (decide (0x00 ≤ model) && decide (model ≤ 0xff))) := by
  unfold X86.bli_cpuid_is_zen
  dsimp only
  generalize bli_cpuid_has_features features (F.AVX ||| F.FMA3 ||| F.AVX2) = hf
  generalize (decide (0x00 ≤ model) && decide (model ≤ 0xff)) = ra
  cases hf <;> cases ra <;> by_cases h : family = 0x17 <;> simp [h]

theorem X86.is_excavator_eq (F : FeatureFlags) (family model features : Nat) :
    X86.bli_cpuid_is_excavator F family model features
      = (bli_cpuid_has_features features (F.AVX ||| F.FMA3 ||| F.AVX2) && (family == 0x15) &&
          (decide (0x60 ≤ model) && decide (model ≤ 0x7f))) := by
  unfold X86.bli_cpuid_is_excavator
  dsimp only
  generalize bli_cpuid_has_features features (F.AVX ||| F.FMA3 ||| F.AVX2) = hf
  generalize (decide (0x60 ≤ model) && decide (model ≤ 0x7f)) = ra
  cases hf <;> cases ra <;> by_cases h : family = 0x15 <;> simp [h]

theorem X86.is_steamroller_eq (F : FeatureFlags) (family model features : Nat) :
    X86.bli_cpuid_is_steamroller F family model features
      = (bli_cpuid_has_features features (F.AVX ||| F.FMA3 ||| F.FMA4) && (family == 0x15) &&
          (decide (0x30 ≤ model) && decide (model ≤ 0x3f))) := by
  unfold X86.bli_cpuid_is_steamroller
  dsimp only
  generalize bli_cpuid_has_features features (F.AVX ||| F.FMA3 ||| F.FMA4) = hf
  generalize (decide (0x30 ≤ model) && decide (model ≤ 0x3f)) = ra
  cases hf <;> cases ra <;> by_cases h : family = 0x15 <;> simp [h]

theorem X86.is_piledriver_eq (F : FeatureFlags) (family model features : Nat) :
    X86.bli_cpuid_is_piledriver F family model features
      = (bli_cpuid_has_features features (F.AVX ||| F.FMA3 ||| F.FMA4) && (family == 0x15) &&
          (decide (model = 0x02) || (decide (0x10 ≤ model) && decide (model ≤ 0x1f)))) := by
  unfold X86.bli_cpuid_is_piledriver
  dsimp only
  generalize bli_cpuid_has_features features (F.AVX ||| F.FMA3 ||| F.FMA4) = hf
  generalize (decide (model = 0x02) || (decide (0x10 ≤ model) && decide (model ≤ 0x1f))) = ra
  cases hf <;> cases ra <;> by_cases h : family = 0x15 <;> simp [h]

theorem X86.is_bulldozer_eq (F : FeatureFlags) (family model features : Nat) :
    X86.bli_cpuid_is_bulldozer F family model features
      = (bli_cpuid_has_features features (F.AVX ||| F.FMA4) && (family == 0x15) &&
          (decide (model = 0x00) || decide (model = 0x01))) := by
  unfold X86.bli_cpuid_is_bulldozer
  dsimp only
  generalize bli_cpuid_has_features features (F.AVX ||| F.FMA4) = hf
  generalize (decide (model = 0x00) || decide (model = 0x01)) = ra
  cases hf <;> cases ra <;> by_cases h : family = 0x15 <;> simp [h]

theorem range_point (m k : Nat) : (decide (k ≤ m) && decide (m ≤ k)) = decide (m = k) := by
  rw [Bool.eq_iff_iff]
  simp only [Bool.and_eq_true, decide_eq_true_eq]
  omega

theorem X86.unset_match (b : Build) (A : ArchIds) (F : FeatureFlags)
    (arch_string : Nat → String) (vendor : vendor_t) (family model features : Nat)
    (nvpu : Int) :
    X86.bli_cpuid_query_id_with b A F (bli_env_check b A arch_string none)
        vendor family model features nvpu
      = X86.bli_cpuid_query_id_match b A F vendor family model features nvpu := by
  rw [bli_env_check_none, X86.bli_cpuid_query_id_with, X86.override_minus_one]

/-! ## The signature predicates and tables: further results -/

/-- C14: every signature predicate is monotone in the feature mask: if it
holds for (family, model, features) it holds for (family, model,
features | extra), for every set of extra flags (the FMA-unit count being
unchanged for skx), `bli_cpuid_has_features(have, want)` being
`(have & want) == want`. -/
theorem signatures_monotone (F : FeatureFlags) (NEON : Nat) (armfam : arm_model_t)
    (family model features extra : Nat) (nvpu : Int) :
    (X86.bli_cpuid_is_skx F family model features nvpu = true →
      X86.bli_cpuid_is_skx F family model (features ||| extra) nvpu = true) ∧
    (X86.bli_cpuid_is_knl F family model features = true →
      X86.bli_cpuid_is_knl F family model (features ||| extra) = true) ∧
    (X86.bli_cpuid_is_haswell F family model features = true →
      X86.bli_cpuid_is_haswell F family model (features ||| extra) = true) ∧
    (X86.bli_cpuid_is_sandybridge F family model features = true →
      X86.bli_cpuid_is_sandybridge F family model (features ||| extra) = true) ∧
    (X86.bli_cpuid_is_penryn F family model features = true →
      X86.bli_cpuid_is_penryn F family model (features ||| extra) = true) ∧
    (X86.bli_cpuid_is_zen2 F family model features = true →
      X86.bli_cpuid_is_zen2 F family model (features ||| extra) = true) ∧
    (X86.bli_cpuid_is_zen F family model features = true →
      X86.bli_cpuid_is_zen F family model (features ||| extra) = true) ∧
    (X86.bli_cpuid_is_excavator F family model features = true →
      X86.bli_cpuid_is_excavator F family model (features ||| extra) = true) ∧
    (X86.bli_cpuid_is_steamroller F family model features = true →
      X86.bli_cpuid_is_steamroller F family model (features ||| extra) = true) ∧
    (X86.bli_cpuid_is_piledriver F family model features = true →
      X86.bli_cpuid_is_piledriver F family model (features ||| extra) = true) ∧
    (X86.bli_cpuid_is_bulldozer F family model features = true →
      X86.bli_cpuid_is_bulldozer F family model (features ||| extra) = true) ∧
    (Arm.bli_cpuid_is_cortexa15 NEON armfam model features = true →
      Arm.bli_cpuid_is_cortexa15 NEON armfam model (features ||| extra) = true) ∧
    (Arm.bli_cpuid_is_cortexa9 NEON armfam model features = true →
      Arm.bli_cpuid_is_cortexa9 NEON armfam model (features ||| extra) = true) := by
  refine ⟨?_, ?_, ?_, ?_, ?_, ?_, ?_, ?_, ?_, ?_, ?_, ?_, ?_⟩
  · intro h
    rw [X86.is_skx_eq, Bool.and_eq_true] at h ⊢
    exact ⟨has_features_mono _ _ _ h.1, h.2⟩
  · intro h
    rw [X86.is_knl_eq] at h ⊢
    exact has_features_mono _ _ _ h
  · intro h
    rw [X86.is_haswell_eq] at h ⊢
    exact has_features_mono _ _ _ h
  · intro h
    rw [X86.is_sandybridge_eq] at h ⊢
    exact has_features_mono _ _ _ h
  · intro h
    rw [X86.is_penryn_eq] at h ⊢
    exact has_features_mono _ _ _ h
  · intro h
    rw [X86.is_zen2_eq, Bool.and_eq_true, Bool.and_eq_true] at h ⊢
    exact ⟨⟨has_features_mono _ _ _ h.1.1, h.1.2⟩, h.2⟩
  · intro h
    rw [X86.is_zen_eq, Bool.and_eq_true, Bool.and_eq_true] at h ⊢
    exact ⟨⟨has_features_mono _ _ _ h.1.1, h.1.2⟩, h.2⟩
  · intro h
    rw [X86.is_excavator_eq, Bool.and_eq_true, Bool.and_eq_true] at h ⊢
    exact ⟨⟨has_features_mono _ _ _ h.1.1, h.1.2⟩, h.2⟩
  · intro h
    rw [X86.is_steamroller_eq, Bool.and_eq_true, Bool.and_eq_true] at h ⊢
    exact ⟨⟨has_features_mono _ _ _ h.1.1, h.1.2⟩, h.2⟩
  · intro h
    rw [X86.is_piledriver_eq, Bool.and_eq_true, Bool.and_eq_true] at h ⊢
    exact ⟨⟨has_features_mono _ _ _ h.1.1, h.1.2⟩, h.2⟩
  · intro h
    rw [X86.is_bulldozer_eq, Bool.and_eq_true, Bool.and_eq_true] at h ⊢
    exact ⟨⟨has_features_mono _ _ _ h.1.1, h.1.2⟩, h.2⟩
  · intro h
    simp only [Arm.bli_cpuid_is_cortexa15, Bool.and_eq_true] at h ⊢
    exact ⟨has_features_mono _ _ _ h.1, h.2⟩
  · intro h
    simp only [Arm.bli_cpuid_is_cortexa9, Bool.and_eq_true] at h ⊢
    exact ⟨has_features_mono _ _ _ h.1, h.2⟩

/-- Witness of C14: a Zen 2 mask AVX|FMA3|AVX2 enlarged by SSE3 and FMA4, on
the example numbering. -/
theorem signatures_monotone_witness :
    X86.bli_cpuid_is_zen2 sampleFlags 0x17 0x30 0x70 = true ∧
    X86.bli_cpuid_is_zen2 sampleFlags 0x17 0x30 (0x70 ||| 0x81) = true :=
  ⟨by decide,
    (signatures_monotone sampleFlags 1 MODEL_ARMV7 0x17 0x30 0x70 0x81 (-1)).2.2.2.2.2.1
      (by decide)⟩

/-- C15: with no override and every AMD sub-configuration enabled, for vendor
AMD `bli_cpuid_query_id` is the id of the first matching row of the table
ZEN2 (family 0x17, model 0x30..0xff, AVX|FMA3|AVX2), ZEN (0x17, 0x00..0xff,
AVX|FMA3|AVX2), EXCAVATOR (0x15, 0x60..0x7f, AVX|FMA3|AVX2), STEAMROLLER (0x15,
0x30..0x3f, AVX|FMA3|FMA4), PILEDRIVER (0x15, 0x02 or 0x10..0x1f,
AVX|FMA3|FMA4), BULLDOZER (0x15, 0x00 or 0x01, AVX|FMA4), and GENERIC when no
row matches; the bounds are inclusive and the family is matched exactly. -/
theorem amd_table_lookup (b : Build) (A : ArchIds) (F : FeatureFlags)
    (arch_string : Nat → String) (hb : x86_all_enabled b)
    (family model features : Nat) (nvpu : Int) :
    X86.bli_cpuid_query_id_with b A F (bli_env_check b A arch_string none)
        VENDOR_AMD family model features nvpu
      = spec_amd_lookup A.GENERIC family model features (spec_amd_rows A F) := by
  obtain ⟨-, -, -, -, -, h6, h7, h8, h9, h10, h11⟩ := hb
  rw [X86.unset_match, X86.match_amd]
  simp only [spec_first_match, spec_amd_table, h6, h7, h8, h9, h10, h11, Bool.true_and,
    spec_amd_lookup, spec_amd_rows, AmdRow.row_matches, List.any_cons, List.any_nil,
    Bool.or_false, range_point, X86.is_zen2_eq, X86.is_zen_eq, X86.is_excavator_eq,
    X86.is_steamroller_eq, X86.is_piledriver_eq, X86.is_bulldozer_eq]

/-- Witness of C15: a Piledriver part (family 0x15, model 0x02, AVX|FMA3|FMA4)
on the example numbering. -/
theorem amd_table_lookup_witness :
    x86_all_enabled sampleBuild ∧
    X86.bli_cpuid_query_id_with sampleBuild sampleArch sampleFlags
      (bli_env_check sampleBuild sampleArch sampleNames none)
      VENDOR_AMD 0x15 0x02 0xd0 (-1) = sampleArch.PILEDRIVER :=
  ⟨by unfold x86_all_enabled; decide,
    (amd_table_lookup sampleBuild sampleArch sampleFlags sampleNames
      (by unfold x86_all_enabled; decide) 0x15 0x02 0xd0 (-1)).trans (by decide)⟩

/-- C16, as stated, fails: an Intel mask holding the seven SKX flags and also
AVX512PF, with FMA-unit count 1 or unknown (-1), is classified KNL and not
HASWELL, because the KNL signature is tested before the HASWELL one. -/
theorem one_fma_unit_with_avx512pf_is_knl :
    bli_cpuid_has_features 0x6770
      (sampleFlags.AVX ||| sampleFlags.FMA3 ||| sampleFlags.AVX2 ||| sampleFlags.AVX512F |||
        sampleFlags.AVX512DQ ||| sampleFlags.AVX512BW ||| sampleFlags.AVX512VL) = true ∧
    X86.bli_cpuid_query_id_with sampleBuild sampleArch sampleFlags
      (bli_env_check sampleBuild sampleArch sampleNames none)
      VENDOR_INTEL 6 85 0x6770 1 = sampleArch.KNL ∧
    X86.bli_cpuid_query_id_with sampleBuild sampleArch sampleFlags
      (bli_env_check sampleBuild sampleArch sampleNames none)
      VENDOR_INTEL 6 85 0x6770 (-1) = sampleArch.KNL ∧
    sampleArch.KNL ≠ sampleArch.HASWELL := by
  decide

/-- C16, amended: with no override and every Intel sub-configuration enabled,
for every Intel input whose feature mask contains the seven SKX flags, if the
FMA-unit count is 1 or unknown (-1), `bli_cpuid_query_id` returns
`BLIS_ARCH_HASWELL` when the mask does not contain AVX512PF (and
`BLIS_ARCH_KNL`, the entry tested before HASWELL, when it does). -/
theorem one_fma_unit_is_haswell (b : Build) (A : ArchIds) (F : FeatureFlags)
    (arch_string : Nat → String) (hb : x86_all_enabled b)
    (family model features : Nat) (nvpu : Int)
    (hf : bli_cpuid_has_features features (F.AVX ||| F.FMA3 ||| F.AVX2 ||| F.AVX512F |||
      F.AVX512DQ ||| F.AVX512BW ||| F.AVX512VL) = true)
    (hn : nvpu = 1 ∨ nvpu = -1) :
    X86.bli_cpuid_query_id_with b A F (bli_env_check b A arch_string none)
        VENDOR_INTEL family model features nvpu
      = if bli_cpuid_has_features features F.AVX512PF then A.KNL else A.HASWELL := by
  obtain ⟨h1, h2, h3, -⟩ := hb
  have hn2 : ¬ nvpu = 2 := by omega
  simp only [has_features_or, Bool.and_eq_true] at hf
  obtain ⟨⟨⟨⟨⟨⟨f1, f2⟩, f3⟩, f4⟩, f5⟩, f6⟩, f7⟩ := hf
  rw [X86.unset_match]
  simp only [X86.bli_cpuid_query_id_match, X86.is_skx_eq, X86.is_knl_eq, X86.is_haswell_eq,
    has_features_or, h1, h2, h3, f1, f2, f3, f4, f5, f6, f7, hn2, if_true, Bool.true_and,
    Bool.and_true, decide_False, Bool.and_false, Bool.false_eq_true, if_false]

/-- Witness of the amended C16: the seven SKX flags alone with one FMA unit,
on the example numbering. -/
theorem one_fma_unit_is_haswell_witness :
    x86_all_enabled sampleBuild ∧
    bli_cpuid_has_features 0x6370
      (sampleFlags.AVX ||| sampleFlags.FMA3 ||| sampleFlags.AVX2 ||| sampleFlags.AVX512F |||
        sampleFlags.AVX512DQ ||| sampleFlags.AVX512BW ||| sampleFlags.AVX512VL) = true ∧
    X86.bli_cpuid_query_id_with sampleBuild sampleArch sampleFlags
      (bli_env_check sampleBuild sampleArch sampleNames none)
      VENDOR_INTEL 6 85 0x6370 1 = sampleArch.HASWELL :=
  ⟨by unfold x86_all_enabled; decide, by decide,
    (one_fma_unit_is_haswell sampleBuild sampleArch sampleFlags sampleNames
      (by unfold x86_all_enabled; decide) 6 85 0x6370 1 (by decide) (Or.inl rfl)).trans
      (by decide)⟩

/-! ## `strstr`: lemmas -/

theorem strstr_some_starts (h n r : List Nat) (hr : strstr h n = some r) :
    ∃ u, r = n ++ u := by
  induction h with
  | nil =>
    simp only [strstr] at hr
    split at hr
    · next hp =>
      rw [List.isPrefixOf_iff_prefix] at hp
      obtain ⟨u, hu⟩ := hp
      simp only [Option.some.injEq] at hr
      exact ⟨u, by rw [← hr, hu]⟩
    · simp at hr
  | cons c t ih =>
    simp only [strstr] at hr
    split at hr
    · next hp =>
      rw [List.isPrefixOf_iff_prefix] at hp
      obtain ⟨u, hu⟩ := hp
      simp only [Option.some.injEq] at hr
      exact ⟨u, by rw [← hr, hu]⟩
    · exact ih hr

theorem strstr_isSome_iff (h n : List Nat) : (strstr h n).isSome = true ↔ occurs_in n h := by
  induction h with
  | nil =>
    simp only [strstr, occurs_in]
    constructor
    · intro hs
      split at hs
      · next hp =>
        rw [List.isPrefixOf_iff_prefix] at hp
        obtain ⟨u, hu⟩ := hp
        exact ⟨[], u, by simpa using hu.symm⟩
      · simp at hs
    · rintro ⟨a, c, hac⟩
      have hn : n = [] := by
        have := congrArg List.length hac
        simp only [List.length_nil, List.length_append] at this
        exact List.length_eq_zero.mp (by omega)
      simp [hn]
  | cons c t ih =>
    simp only [strstr]
    split
    · next hp =>
      rw [List.isPrefixOf_iff_prefix] at hp
      obtain ⟨u, hu⟩ := hp
      simp only [Option.isSome_some, true_iff]
      exact ⟨[], u, by simpa using hu.symm⟩
    · next hp =>
      rw [ih]
      constructor
      · rintro ⟨a, d, had⟩
        exact ⟨c :: a, d, by simp [had]⟩
      · rintro ⟨a, d, had⟩
        cases a with
        | nil =>
          exfalso
          apply hp
          rw [List.isPrefixOf_iff_prefix]
          exact ⟨d, by simpa using had.symm⟩
        | cons x a =>
          simp only [List.cons_append, List.cons.injEq] at had
          exact ⟨a, d, had.2⟩

theorem strstr_eq_none_iff (h n : List Nat) : strstr h n = none ↔ ¬ occurs_in n h := by
  rw [← strstr_isSome_iff]
  cases strstr h n <;> simp

/-! ## `vpu_count`: results -/

/-- C17, as stated, fails: the brand string `Platinum Edition CPU` contains
`Platinum` but not `Intel(R) Xeon(R)`, and `vpu_count` returns -1 for it, so
`bli_cpuid_is_skx` is false on a mask holding the seven SKX flags and the CPU
is classified HASWELL. -/
theorem platinum_without_xeon :
    occurs_in (ascii "Platinum") (ascii "Platinum Edition CPU") ∧
    X86.vpu_count (ascii "Platinum Edition CPU") = -1 ∧
    X86.bli_cpuid_is_skx sampleFlags 6 85 0x6370
      (X86.vpu_count (ascii "Platinum Edition CPU")) = false ∧
    X86.bli_cpuid_query_id_with sampleBuild sampleArch sampleFlags
      (bli_env_check sampleBuild sampleArch sampleNames none)
      VENDOR_INTEL 6 85 0x6370 (X86.vpu_count (ascii "Platinum Edition CPU"))
        = sampleArch.HASWELL :=
  ⟨⟨[], ascii " Edition CPU", by decide⟩, by decide, by decide, by decide⟩

/-- C17, amended: for every processor brand string that contains both
`Intel(R) Xeon(R)` and `Platinum`, `vpu_count` returns 2, so that
`bli_cpuid_is_skx` is true for every feature mask containing the seven SKX
flags, and an Intel CPU is classified SKX (no override, SKX enabled). -/
theorem platinum_xeon_has_two_units (cpu_name : List Nat)
    (hx : occurs_in (ascii "Intel(R) Xeon(R)") cpu_name)
    (hp : occurs_in (ascii "Platinum") cpu_name) :
    X86.vpu_count cpu_name = 2 ∧
    (∀ (F : FeatureFlags) (family model features : Nat),
      bli_cpuid_has_features features (F.AVX ||| F.FMA3 ||| F.AVX2 ||| F.AVX512F |||
        F.AVX512DQ ||| F.AVX512BW ||| F.AVX512VL) = true →
      X86.bli_cpuid_is_skx F family model features (X86.vpu_count cpu_name) = true) ∧
    (∀ (b : Build) (A : ArchIds) (F : FeatureFlags) (arch_string : Nat → String)
        (family model features : Nat),
      b.CONFIG_SKX = true →
      bli_cpuid_has_features features (F.AVX ||| F.FMA3 ||| F.AVX2 ||| F.AVX512F |||
        F.AVX512DQ ||| F.AVX512BW ||| F.AVX512VL) = true →
      X86.bli_cpuid_query_id_with b A F (bli_env_check b A arch_string none)
        VENDOR_INTEL family model features (X86.vpu_count cpu_name) = A.SKX) := by
  have h2 : X86.vpu_count cpu_name = 2 := by
    rw [← strstr_isSome_iff] at hx hp
    obtain ⟨r, hr⟩ := Option.isSome_iff_exists.mp hp
    simp [X86.vpu_count, hx, hr]
  refine ⟨h2, ?_, ?_⟩
  · intro F family model features hf
    rw [h2, X86.is_skx_eq, hf]
    rfl
  · intro b A F arch_string family model features hb hf
    rw [X86.unset_match, h2]
    simp [X86.bli_cpuid_query_id_match, X86.is_skx_eq, hb, hf]

/-- Witness of the amended C17: a Xeon Platinum 8180 brand string. -/
theorem platinum_xeon_has_two_units_witness :
    occurs_in (ascii "Intel(R) Xeon(R)") (ascii "Intel(R) Xeon(R) Platinum 8180 CPU @ 2.50GHz") ∧
    occurs_in (ascii "Platinum") (ascii "Intel(R) Xeon(R) Platinum 8180 CPU @ 2.50GHz") ∧
    X86.vpu_count (ascii "Intel(R) Xeon(R) Platinum 8180 CPU @ 2.50GHz") = 2 :=
  ⟨⟨[], ascii " Platinum 8180 CPU @ 2.50GHz", by decide⟩,
    ⟨ascii "Intel(R) Xeon(R) ", ascii " 8180 CPU @ 2.50GHz", by decide⟩,
    (platinum_xeon_has_two_units (ascii "Intel(R) Xeon(R) Platinum 8180 CPU @ 2.50GHz")
      ⟨[], ascii " Platinum 8180 CPU @ 2.50GHz", by decide⟩
      ⟨ascii "Intel(R) Xeon(R) ", ascii " 8180 CPU @ 2.50GHz", by decide⟩).1⟩

/-- C18: for every brand string with no recognized marker (one containing
neither `Intel(R) Xeon(R)` nor `Intel(R) Core(TM)`, or one containing
`Intel(R) Xeon(R)` and none of `Platinum`, `Gold`, `Silver`, `Bronze`, `W`,
`D`), `vpu_count` returns -1, and then `bli_cpuid_is_skx` is false for every
feature mask. -/
theorem unmarked_brand_is_unknown (cpu_name : List Nat)
    (h : (¬ occurs_in (ascii "Intel(R) Xeon(R)") cpu_name ∧
          ¬ occurs_in (ascii "Intel(R) Core(TM)") cpu_name) ∨
        (occurs_in (ascii "Intel(R) Xeon(R)") cpu_name ∧
          ¬ occurs_in (ascii "Platinum") cpu_name ∧ ¬ occurs_in (ascii "Gold") cpu_name ∧
          ¬ occurs_in (ascii "Silver") cpu_name ∧ ¬ occurs_in (ascii "Bronze") cpu_name ∧
          ¬ occurs_in (ascii "W") cpu_name ∧ ¬ occurs_in (ascii "D") cpu_name)) :
    X86.vpu_count cpu_name = -1 ∧
    (∀ (F : FeatureFlags) (family model features : Nat),
      X86.bli_cpuid_is_skx F family model features (X86.vpu_count cpu_name) = false) := by
  have h1 : X86.vpu_count cpu_name = -1 := by
    rcases h with ⟨hx, hc⟩ | ⟨hx, hp, hg, hs, hb, hw, hd⟩
    · rw [← strstr_eq_none_iff] at hx hc
      simp [X86.vpu_count, hx, hc]
    · rw [← strstr_isSome_iff] at hx
      rw [← strstr_eq_none_iff] at hp hg hs hb hw hd
      simp [X86.vpu_count, hx, hp, hg, hs, hb, hw, hd]
  refine ⟨h1, ?_⟩
  intro F family model features
  rw [h1, X86.is_skx_eq]
  simp

/-- Witness of C18: an AMD brand string. -/
theorem unmarked_brand_is_unknown_witness :
    strstr (ascii "AMD EPYC 7742 64-Core Processor") (ascii "Intel(R) Xeon(R)") = none ∧
    X86.vpu_count (ascii "AMD EPYC 7742 64-Core Processor") = -1 :=
  ⟨by decide,
    (unmarked_brand_is_unknown (ascii "AMD EPYC 7742 64-Core Processor")
      (Or.inl ⟨(strstr_eq_none_iff _ _).1 (by decide),
        (strstr_eq_none_iff _ _).1 (by decide)⟩)).1⟩

/-! ## Lines of a file and `fgets`: lemmas -/

theorem file_lines_eq_nil (f : List Nat) (h : file_lines f = []) : f = [] := by
  cases f with
  | nil => rfl
  | cons c t =>
    exfalso
    simp only [file_lines] at h
    split at h
    · simp at h
    · split at h <;> simp at h

theorem file_lines_nonempty (f : List Nat) : ∀ l ∈ file_lines f, l ≠ [] := by
  induction f with
  | nil => simp [file_lines]
  | cons c t ih =>
    intro l hl
    simp only [file_lines] at hl
    split at hl
    · rcases List.mem_cons.mp hl with h | h
      · simp [h]
      · exact ih l h
    · split at hl
      · simp only [List.mem_singleton] at hl
        simp [hl]
      · next l0 ls0 h0 =>
        rcases List.mem_cons.mp hl with h | h
        · simp [h]
        · exact ih l (by rw [h0]; exact List.mem_cons_of_mem l0 h)

theorem line_length_le (f : List Nat) :
    ∀ l ∈ file_lines f, l.length ≤ (line_text l).length + 1 := by
  induction f with
  | nil => simp [file_lines]
  | cons c t ih =>
    intro l hl
    simp only [file_lines] at hl
    split at hl
    · rcases List.mem_cons.mp hl with h | h
      · simp [h]
      · exact ih l h
    · next hc =>
      have hcb : (c != 10) = true := by simpa using hc
      split at hl
      · simp only [List.mem_singleton] at hl
        simp [hl]
      · next l0 ls0 h0 =>
        rcases List.mem_cons.mp hl with h | h
        · have h1 := ih l0 (by rw [h0]; exact List.mem_cons_self l0 ls0)
          rw [h]
          simp only [line_text, List.length_cons, List.filter_cons, hcb, if_true] at h1 ⊢
          omega
        · exact ih l (by rw [h0]; exact List.mem_cons_of_mem l0 h)

theorem fgets_chars_line (k : Nat) (f l : List Nat) (ls : List (List Nat))
    (hl : file_lines f = l :: ls) (hk : l.length ≤ k) :
    ∃ e, fgets_chars k f = (l, f.drop l.length, e) ∧ file_lines (f.drop l.length) = ls ∧
      l = f.take l.length ∧ (e = true → f.drop l.length = []) := by
  induction f generalizing k l ls with
  | nil => simp [file_lines] at hl
  | cons c t ih =>
    simp only [file_lines] at hl
    by_cases hc : c = 10
    · rw [if_pos hc] at hl
      simp only [List.cons.injEq] at hl
      obtain ⟨hl1, hl2⟩ := hl
      subst hl1
      obtain ⟨k', rfl⟩ : ∃ k', k = k' + 1 := ⟨k - 1, by simp at hk; omega⟩
      exact ⟨false, by simp [fgets_chars, hc], by simpa using hl2, by simp, by simp⟩
    · rw [if_neg hc] at hl
      cases hft : file_lines t with
      | nil =>
        rw [hft] at hl
        simp only [List.cons.injEq] at hl
        obtain ⟨hl1, hl2⟩ := hl
        subst hl1
        have ht := file_lines_eq_nil t hft
        subst ht
        obtain ⟨k', rfl⟩ : ∃ k', k = k' + 1 := ⟨k - 1, by simp at hk; omega⟩
        cases k' with
        | zero => exact ⟨false, by simp [fgets_chars, hc], by simpa [file_lines] using hl2,
            by simp, by simp⟩
        | succ k2 => exact ⟨true, by simp [fgets_chars, hc], by simpa [file_lines] using hl2,
            by simp, by simp⟩
      | cons l0 ls0 =>
        rw [hft] at hl
        simp only [List.cons.injEq] at hl
        obtain ⟨hl1, hl2⟩ := hl
        subst hl1
        obtain ⟨k', rfl⟩ : ∃ k', k = k' + 1 := ⟨k - 1, by simp at hk; omega⟩
        obtain ⟨e, he, hls, htake, hee⟩ := ih k' l0 ls0 hft (by simpa using hk)
        refine ⟨e, ?_, ?_, ?_, ?_⟩
        · simp [fgets_chars, hc, he]
        · rw [← hl2]; simpa using hls
        · simp only [List.length_cons, List.take_succ_cons, List.cons.injEq, true_and]
          exact htake
        · simpa using hee

theorem fgets_chars_split (k : Nat) (s : List Nat) :
    (fgets_chars k s).1 ++ (fgets_chars k s).2.1 = s := by
  induction k generalizing s with
  | zero => simp [fgets_chars]
  | succ k ih =>
    cases s with
    | nil => simp [fgets_chars]
    | cons c t =>
      simp only [fgets_chars]
      split
      · simp
      · simp [ih t]

theorem fgets_chars_nil (k : Nat) (s : List Nat) (h : (fgets_chars (k + 1) s).1 = []) :
    s = [] := by
  cases s with
  | nil => rfl
  | cons c t =>
    exfalso
    simp only [fgets_chars] at h
    split at h <;> simp at h

theorem occurs_in_append_left (n a c : List Nat) (h : occurs_in n a) : occurs_in n (a ++ c) := by
  obtain ⟨x, y, hxy⟩ := h
  exact ⟨x, y ++ c, by simp [hxy]⟩

theorem occurs_in_append_right (n a c : List Nat) (h : occurs_in n c) : occurs_in n (a ++ c) := by
  obtain ⟨x, y, hxy⟩ := h
  exact ⟨a ++ x, y, by simp [hxy]⟩

theorem occurs_in_c_string (n mem : List Nat) (h : occurs_in n (c_string mem)) :
    occurs_in n mem := by
  have hsplit : c_string mem ++ mem.dropWhile (fun c => c != 0) = mem := by
    simp [c_string, List.takeWhile_append_dropWhile]
  rw [← hsplit]
  exact occurs_in_append_left n _ _ h

theorem c_string_no_nul (l : List Nat) (h : ∀ x ∈ l, x ≠ 0) : c_string l = l :=
  takeWhile_no_nul l h

/-! ## The loop of `find_string_in`: lemmas -/

theorem find_loop_lines (target : List Nat) (m : Nat) :
    ∀ (fuel : Nat) (f : List Nat), (∀ c ∈ f, c ≠ 0) →
      (∀ l ∈ file_lines f, l.length ≤ m + 1) → f.length < fuel →
      find_string_in_loop target (m + 3) fuel ⟨f, false⟩
        = some ((first_line_with target f).bind
            (fun l => (strstr l target).map (Found.mk l))) := by
  intro fuel
  induction fuel with
  | zero => intro f _ _ h; simp at h
  | succ fuel ih =>
    intro f hnul hlen hfuel
    cases hf : file_lines f with
    | nil =>
      have hnil := file_lines_eq_nil f hf
      subst hnil
      simp [find_string_in_loop, fgets, fgets_chars, first_line_with, file_lines]
    | cons l ls =>
      obtain ⟨e, he, hls, htake, hee⟩ :=
        fgets_chars_line (m + 1) f l ls hf (hlen l (by rw [hf]; exact List.mem_cons_self l ls))
      have hlne : l ≠ [] := file_lines_nonempty f l (by rw [hf]; exact List.mem_cons_self l ls)
      have hlmem : ∀ x ∈ l, x ≠ 0 := by
        intro x hx
        rw [htake] at hx
        exact hnul x (List.mem_of_mem_take hx)
      have hcs : c_string l = l := c_string_no_nul l hlmem
      have hll : l.length ≤ m + 1 := hlen l (by rw [hf]; exact List.mem_cons_self l ls)
      have htk : l.take (m + 3 - 1) = l := List.take_of_length_le (by omega)
      have hfg : fgets (m + 3 - 1) ⟨f, false⟩
          = (some l, ⟨f.drop l.length, e⟩) := by
        simp [fgets, he, hlne]
      simp only [find_string_in_loop, hfg, hcs, htk, first_line_with, hf, List.find?_cons,
        Bool.false_eq_true, if_false]
      cases hstr : strstr l target with
      | some r => simp [hstr]
      | none =>
        simp only [Option.isSome_none]
        have hlpos : 0 < l.length := List.length_pos.mpr hlne
        have hlf : l.length ≤ f.length := by
          have h1 := congrArg List.length htake
          rw [List.length_take] at h1
          omega
        have hdrop : (f.drop l.length).length < fuel := by
          rw [List.length_drop]; omega
        cases e with
        | true =>
          have hd := hee rfl
          rw [hd] at hls ⊢
          rw [← hls]
          obtain ⟨fuel', rfl⟩ : ∃ fuel', fuel = fuel' + 1 := ⟨fuel - 1, by omega⟩
          simp [find_string_in_loop, file_lines]
        | false =>
          have := ih (f.drop l.length)
            (fun c hc => hnul c (List.mem_of_mem_drop hc))
            (fun l' hl' => hlen l' (by rw [hf]; exact List.mem_cons_of_mem l (hls ▸ hl')))
            hdrop
          rw [this, first_line_with, hls]

theorem find_loop_absent (target : List Nat) (m : Nat) :
    ∀ (fuel : Nat) (st : FileStream), ¬ occurs_in target st.rest → st.rest.length < fuel →
      find_string_in_loop target (m + 3) fuel st = some none := by
  intro fuel
  induction fuel with
  | zero => intro st _ h; simp at h
  | succ fuel ih =>
    intro st hno hfuel
    simp only [find_string_in_loop]
    by_cases heof : st.eof = true
    · simp [heof]
    · simp only [heof, Bool.false_eq_true, if_false]
      have hsplit := fgets_chars_split (m + 1) st.rest
      by_cases hnull : (fgets_chars (m + 1) st.rest).1 = [] ∧
          (fgets_chars (m + 1) st.rest).2.2 = true
      · simp [fgets, hnull]
      · have hne : (fgets_chars (m + 1) st.rest).1 ≠ [] := by
          intro h1
          have hs := fgets_chars_nil m st.rest h1
          apply hnull
          rw [hs]
          simp [fgets_chars]
        have hfg : fgets (m + 3 - 1) st
            = (some (fgets_chars (m + 1) st.rest).1,
                ⟨(fgets_chars (m + 1) st.rest).2.1,
                  st.eof || (fgets_chars (m + 1) st.rest).2.2⟩) := by
          simp only [fgets]
          rw [if_neg (by omega)]
          have : m + 3 - 1 - 1 = m + 1 := by omega
          rw [this, if_neg hnull]
        have hstr : strstr (c_string (fgets_chars (m + 1) st.rest).1) target = none := by
          rw [strstr_eq_none_iff]
          intro hocc
          apply hno
          rw [← hsplit]
          exact occurs_in_append_left _ _ _ (occurs_in_c_string _ _ hocc)
        rw [hfg]
        simp only [hstr]
        apply ih
        · intro hocc
          apply hno
          rw [← hsplit]
          exact occurs_in_append_right _ _ _ hocc
        · have hlen := congrArg List.length hsplit
          rw [List.length_append] at hlen
          have hpos : 0 < (fgets_chars (m + 1) st.rest).1.length := List.length_pos.mpr hne
          show (fgets_chars (m + 1) st.rest).2.1.length < fuel
          omega

theorem find_loop_total (target : List Nat) (m : Nat) :
    ∀ (fuel : Nat) (st : FileStream), st.rest.length < fuel →
      ∃ r, find_string_in_loop target (m + 3) fuel st = some r := by
  intro fuel
  induction fuel with
  | zero => intro st h; simp at h
  | succ fuel ih =>
    intro st hfuel
    simp only [find_string_in_loop]
    by_cases heof : st.eof = true
    · exact ⟨none, by simp [heof]⟩
    · simp only [heof, Bool.false_eq_true, if_false]
      have hsplit := fgets_chars_split (m + 1) st.rest
      by_cases hnull : (fgets_chars (m + 1) st.rest).1 = [] ∧
          (fgets_chars (m + 1) st.rest).2.2 = true
      · exact ⟨none, by simp [fgets, hnull]⟩
      · have hne : (fgets_chars (m + 1) st.rest).1 ≠ [] := by
          intro h1
          have hs := fgets_chars_nil m st.rest h1
          apply hnull
          rw [hs]
          simp [fgets_chars]
        have hfg : fgets (m + 3 - 1) st
            = (some (fgets_chars (m + 1) st.rest).1,
                ⟨(fgets_chars (m + 1) st.rest).2.1,
                  st.eof || (fgets_chars (m + 1) st.rest).2.2⟩) := by
          simp only [fgets]
          rw [if_neg (by omega)]
          have : m + 3 - 1 - 1 = m + 1 := by omega
          rw [this, if_neg hnull]
        simp only [hfg]
        cases hstr : strstr (c_string (fgets_chars (m + 1) st.rest).1) target with
        | some r => exact ⟨_, rfl⟩
        | none =>
          simp only
          apply ih
          have hlen := congrArg List.length hsplit
          rw [List.length_append] at hlen
          have hpos : 0 < (fgets_chars (m + 1) st.rest).1.length := List.length_pos.mpr hne
          show (fgets_chars (m + 1) st.rest).2.1.length < fuel
          omega

theorem starts_file_line (target : List Nat) :
    ∀ (f u : List Nat), target ≠ [] → (∀ c ∈ target, c ≠ 10) → f = target ++ u →
      ∃ l ls v, file_lines f = l :: ls ∧ l = target ++ v := by
  induction target with
  | nil => intro f u h; exact absurd rfl h
  | cons x tg ih =>
    intro f u _ hnl hf
    subst hf
    have hx : x ≠ 10 := hnl x (List.mem_cons_self x tg)
    simp only [List.cons_append, file_lines, if_neg hx]
    by_cases htg : tg = []
    · subst htg
      cases file_lines ([] ++ u) with
      | nil => exact ⟨[x], [], [], rfl, rfl⟩
      | cons l0 ls0 => exact ⟨x :: l0, ls0, l0, rfl, rfl⟩
    · obtain ⟨l, ls, v, hl, hv⟩ := ih (tg ++ u) u htg
        (fun c hc => hnl c (List.mem_cons_of_mem x hc)) rfl
      have hl' : file_lines (tg.append u) = l :: ls := hl
      rw [hl']
      exact ⟨x :: l, ls, v, rfl, by simp [hv]⟩

theorem occurs_in_file_line (target : List Nat) (hne : target ≠ [])
    (hnl : ∀ c ∈ target, c ≠ 10) :
    ∀ f : List Nat, occurs_in target f → ∃ l ∈ file_lines f, occurs_in target l := by
  intro f
  induction f with
  | nil =>
    rintro ⟨a, c, hac⟩
    exfalso
    have := congrArg List.length hac
    simp only [List.length_nil, List.length_append] at this
    exact hne (List.length_eq_zero.mp (by omega))
  | cons c t ih =>
    rintro ⟨a, d, had⟩
    cases a with
    | nil =>
      obtain ⟨l, ls, v, hl, hv⟩ := starts_file_line target (c :: t) d hne hnl (by simpa using had)
      exact ⟨l, by rw [hl]; exact List.mem_cons_self l ls, ⟨[], v, by simp [hv]⟩⟩
    | cons x a' =>
      simp only [List.cons_append, List.cons.injEq] at had
      obtain ⟨l, hl, hocc⟩ := ih ⟨a', d, had.2⟩
      simp only [file_lines]
      split
      · exact ⟨l, List.mem_cons_of_mem _ hl, hocc⟩
      · cases hft : file_lines t with
        | nil => rw [hft] at hl; simp at hl
        | cons l0 ls0 =>
          rw [hft] at hl
          rcases List.mem_cons.mp hl with h | h
          · refine ⟨c :: l0, List.mem_cons_self _ _, ?_⟩
            rw [← h]
            obtain ⟨p, q, hpq⟩ := hocc
            exact ⟨c :: p, q, by simp [hpq]⟩
          · exact ⟨l, List.mem_cons_of_mem _ h, hocc⟩

theorem find_string_in_lines (fuel : Nat) (target cpuinfo l : List Nat)
    (hnul : ∀ c ∈ cpuinfo, c ≠ 0)
    (hlen : ∀ l ∈ file_lines cpuinfo, (line_text l).length < 198)
    (hl : first_line_with target cpuinfo = some l) (hfuel : cpuinfo.length < fuel) :
    ∃ r, find_string_in fuel target Arm32.TEMP_BUFFER_SIZE cpuinfo = some (some ⟨l, r⟩) := by
  have hlen' : ∀ l ∈ file_lines cpuinfo, l.length ≤ 197 + 1 := by
    intro l' hl'
    have h1 := line_length_le cpuinfo l' hl'
    have h2 := hlen l' hl'
    omega
  have hloop := find_loop_lines target 197 fuel cpuinfo hnul hlen' hfuel
  have hsome : (strstr l target).isSome = true := by
    have := List.find?_some hl
    simpa using this
  obtain ⟨r, hr⟩ := Option.isSome_iff_exists.mp hsome
  refine ⟨r, ?_⟩
  show find_string_in_loop target (197 + 3) fuel ⟨cpuinfo, false⟩ = _
  rw [hloop, hl]
  simp [hr]

theorem find_string_in_absent (fuel : Nat) (target cpuinfo : List Nat)
    (hne : target ≠ []) (hnl : ∀ c ∈ target, c ≠ 10)
    (habs : ∀ l ∈ file_lines cpuinfo, ¬ occurs_in target l) (hfuel : cpuinfo.length < fuel) :
    find_string_in fuel target Arm32.TEMP_BUFFER_SIZE cpuinfo = some none := by
  have hno : ¬ occurs_in target cpuinfo := by
    intro hocc
    obtain ⟨l, hl, hol⟩ := occurs_in_file_line target hne hnl cpuinfo hocc
    exact habs l hl hol
  exact find_loop_absent target 197 fuel ⟨cpuinfo, false⟩ hno hfuel

theorem find_string_in_total (fuel : Nat) (target cpuinfo : List Nat)
    (hfuel : cpuinfo.length < fuel) :
    ∃ r, find_string_in fuel target Arm32.TEMP_BUFFER_SIZE cpuinfo = some r :=
  find_loop_total target 197 fuel ⟨cpuinfo, false⟩ hfuel

theorem strtol16_0x (u : List Nat) :
    strtol16 (48 :: 120 :: u) = min (hex_value 0 u : Int) LONG_MAX := by
  rfl

theorem strtol16_part (u : List Nat) (hv : hex_value 0 u ≤ 0x7fffffff) :
    (strtol16 (48 :: 120 :: u) % 2 ^ 32).toNat = hex_value 0 u := by
  have hmin : min (hex_value 0 u : Int) LONG_MAX = (hex_value 0 u : Int) := by
    apply min_eq_left
    simp only [LONG_MAX]
    omega
  have hmod : ((hex_value 0 u : Int) % 2 ^ 32) = (hex_value 0 u : Int) :=
    Int.emod_eq_of_lt (by omega) (by omega)
  rw [strtol16_0x, hmin, hmod]
  exact Int.toNat_ofNat _

/-! ## The textual scan: results -/

/-- C19, as stated, fails for part numbers that do not fit a `long`: on the
cpuinfo lines `Processor : ARMv8`, `CPU part : 0x100000000`,
`Features : neon asimd` the hexadecimal value following the first `0x` of the
`CPU part` line is 0x100000000, whereas `*part` is 0x7fffffff (`strtol`
saturates at `LONG_MAX`, and `*part` has 32 bits). -/
theorem cpuinfo_part_out_of_range :
    first_line_with (ascii "CPU part")
        (ascii "Processor : ARMv8\nCPU part : 0x100000000\nFeatures : neon asimd\n")
      = some (ascii "CPU part : 0x100000000\n") ∧
    strstr (ascii "CPU part : 0x100000000\n") (ascii "0x") = some (ascii "0x100000000\n") ∧
    hex_value 0 (ascii "100000000\n") = 0x100000000 ∧
    Arm32.bli_cpuid_query 1 100
        (ascii "Processor : ARMv8\nCPU part : 0x100000000\nFeatures : neon asimd\n")
      = some ⟨VENDOR_ARM, MODEL_ARMV8, 0x7fffffff, 1⟩ := by
  decide

/-- C19, amended: for every cpuinfo text file (no NUL byte, lines shorter than
198 characters) that has a line with `Processor`, a line with `CPU part` and a
line with `Features`, the 32-bit ARM `bli_cpuid_query` returns (the scans
terminate) with `VENDOR_ARM`; `*part` is the hexadecimal value following the
first `0x` of the first `CPU part` line when that value is at most 0x7fffffff
(and 0 when the line has no `0x`); `FEATURE_NEON` is set iff the first
`Features` line contains `neon` or `asimd`; `*model` is `MODEL_ARMV7` if the
first `Processor` line contains `ARMv7`, else `MODEL_ARMV8` if it contains
`AArch64` or `ARMv8`, else `MODEL_UNKNOWN`. -/
theorem cpuinfo_scan (NEON fuel : Nat) (cpuinfo lp lq lf : List Nat)
    (hnul : ∀ c ∈ cpuinfo, c ≠ 0)
    (hlen : ∀ l ∈ file_lines cpuinfo, (line_text l).length < 198)
    (hp : first_line_with (ascii "Processor") cpuinfo = some lp)
    (hq : first_line_with (ascii "CPU part") cpuinfo = some lq)
    (hf : first_line_with (ascii "Features") cpuinfo = some lf)
    (hfuel : cpuinfo.length < fuel) :
    ∃ q, Arm32.bli_cpuid_query NEON fuel cpuinfo = some q ∧
      q.vendor = VENDOR_ARM ∧
      (∀ r, strstr lq (ascii "0x") = some r → hex_value 0 (r.drop 2) ≤ 0x7fffffff →
        q.part = hex_value 0 (r.drop 2)) ∧
      (¬ occurs_in (ascii "0x") lq → q.part = 0) ∧
      ((occurs_in (ascii "neon") lf ∨ occurs_in (ascii "asimd") lf) →
        q.features = NEON % 2 ^ 32) ∧
      (¬ (occurs_in (ascii "neon") lf ∨ occurs_in (ascii "asimd") lf) → q.features = 0) ∧
      (occurs_in (ascii "ARMv7") lp → q.model = MODEL_ARMV7) ∧
      (¬ occurs_in (ascii "ARMv7") lp →
        (occurs_in (ascii "AArch64") lp ∨ occurs_in (ascii "ARMv8") lp) →
        q.model = MODEL_ARMV8) ∧
      (¬ occurs_in (ascii "ARMv7") lp → ¬ occurs_in (ascii "AArch64") lp →
        ¬ occurs_in (ascii "ARMv8") lp → q.model = MODEL_UNKNOWN) := by
  obtain ⟨rp, h1⟩ := find_string_in_lines fuel _ cpuinfo lp hnul hlen hp hfuel
  obtain ⟨rq, h2⟩ := find_string_in_lines fuel _ cpuinfo lq hnul hlen hq hfuel
  obtain ⟨rf, h3⟩ := find_string_in_lines fuel _ cpuinfo lf hnul hlen hf hfuel
  simp only [← strstr_isSome_iff]
  refine ⟨_, by simp only [Arm32.bli_cpuid_query, h1, h2, h3]; rfl, rfl, ?_, ?_, ?_, ?_, ?_, ?_, ?_⟩
  · intro r hr hv
    obtain ⟨u, hu⟩ := strstr_some_starts _ _ _ hr
    have h0x : ascii "0x" = [48, 120] := by decide
    rw [h0x] at hu
    subst hu
    simp only [List.cons_append, List.nil_append, List.drop_succ_cons, List.drop_zero] at hv hr ⊢
    simp only [hr]
    exact strtol16_part u hv
  · intro hno
    have : strstr lq (ascii "0x") = none := by
      cases h : strstr lq (ascii "0x") with
      | none => rfl
      | some r => rw [h] at hno; simp at hno
    simp only [this]
  · intro hocc
    simp only [hocc, if_true, Nat.zero_or]
  · intro hocc
    simp only [hocc, if_false]
  · intro hocc
    simp only [hocc, if_true]
  · intro h7 h8
    simp only [h7, h8, if_true, Bool.false_eq_true, if_false]
  · intro h7 ha h8
    simp only [h7, ha, h8, or_self, Bool.false_eq_true, if_false]

/-- Witness of the amended C19: the fixture of the spec, with the lines
`Processor : ARMv8`, `CPU part : 0xd07`, `Features : neon asimd`, gives vendor
ARM, model ARMV8, part 0xd07 and NEON set. -/
theorem cpuinfo_scan_witness :
    (∀ c ∈ sampleCpuinfo, c ≠ 0) ∧
    (∀ l ∈ file_lines sampleCpuinfo, (line_text l).length < 198) ∧
    Arm32.bli_cpuid_query 1 100 sampleCpuinfo = some ⟨VENDOR_ARM, MODEL_ARMV8, 0xd07, 1⟩ ∧
    (∃ q, Arm32.bli_cpuid_query 1 100 sampleCpuinfo = some q ∧ q.vendor = VENDOR_ARM ∧
      q.part = 0xd07) := by
  refine ⟨by decide, by decide, by decide, ?_⟩
  obtain ⟨q, hq, hv, hpart, -⟩ := cpuinfo_scan 1 100 sampleCpuinfo
    (ascii "Processor : ARMv8\n") (ascii "CPU part : 0xd07\n")
    (ascii "Features : neon asimd\n") (by decide) (by decide) (by decide) (by decide)
    (by decide) (by decide)
  exact ⟨q, hq, hv, (hpart (ascii "0xd07\n") (by decide) (by decide)).trans (by decide)⟩

/-- C20: if one of the three labels `Processor`, `CPU part`, `Features` occurs
on no line of the file, the textual-scan `bli_cpuid_query` still returns (the
scans terminate, whatever the file holds) and leaves no partial result: it
returns `VENDOR_ARM` with `*model = MODEL_UNKNOWN`, `*part = 0` and
`*features = 0`, also when the other labels are present; `bli_cpuid_query_id`
with no override then returns `BLIS_ARCH_GENERIC`. -/
theorem missing_label_leaves_defaults (b : Build) (A : ArchIds) (NEON : Nat)
    (arch_string : Nat → String) (fuel : Nat) (cpuinfo : List Nat)
    (hfuel : cpuinfo.length < fuel)
    (hmiss : (∀ l ∈ file_lines cpuinfo, ¬ occurs_in (ascii "Processor") l) ∨
      (∀ l ∈ file_lines cpuinfo, ¬ occurs_in (ascii "CPU part") l) ∨
      (∀ l ∈ file_lines cpuinfo, ¬ occurs_in (ascii "Features") l)) :
    Arm32.bli_cpuid_query NEON fuel cpuinfo = some ⟨VENDOR_ARM, MODEL_UNKNOWN, 0, 0⟩ ∧
    Arm32.bli_cpuid_query_id b A NEON arch_string none fuel cpuinfo = some A.GENERIC := by
  have hquery : Arm32.bli_cpuid_query NEON fuel cpuinfo
      = some ⟨VENDOR_ARM, MODEL_UNKNOWN, 0, 0⟩ := by
    obtain ⟨r1, h1⟩ := find_string_in_total fuel (ascii "Processor") cpuinfo hfuel
    obtain ⟨r2, h2⟩ := find_string_in_total fuel (ascii "CPU part") cpuinfo hfuel
    rcases hmiss with h | h | h
    · have h0 := find_string_in_absent fuel (ascii "Processor") cpuinfo (by decide) (by decide)
        h hfuel
      simp only [Arm32.bli_cpuid_query, h0]
    · have h0 := find_string_in_absent fuel (ascii "CPU part") cpuinfo (by decide) (by decide)
        h hfuel
      cases r1 with
      | none => simp only [Arm32.bli_cpuid_query, h1]
      | some x => simp only [Arm32.bli_cpuid_query, h1, h0]
    · have h0 := find_string_in_absent fuel (ascii "Features") cpuinfo (by decide) (by decide)
        h hfuel
      cases r1 with
      | none => simp only [Arm32.bli_cpuid_query, h1]
      | some x =>
        cases r2 with
        | none => simp only [Arm32.bli_cpuid_query, h1, h2]
        | some y => simp only [Arm32.bli_cpuid_query, h1, h2, h0]
  refine ⟨hquery, ?_⟩
  simp only [Arm32.bli_cpuid_query_id, bli_env_check_none, Arm.arm_override_minus_one, hquery]
  simp [Arm.bli_cpuid_query_id_match]

/-- Witness of C20: a cpuinfo with `Processor` and `CPU part` lines and no
`Features` line. -/
theorem missing_label_leaves_defaults_witness :
    (∀ l ∈ file_lines (ascii "Processor : ARMv7\nCPU part : 0xc09\n"),
      strstr l (ascii "Features") = none) ∧
    Arm32.bli_cpuid_query 1 100 (ascii "Processor : ARMv7\nCPU part : 0xc09\n")
      = some ⟨VENDOR_ARM, MODEL_UNKNOWN, 0, 0⟩ ∧
    Arm32.bli_cpuid_query_id sampleBuild sampleArch 1 sampleNames none 100
      (ascii "Processor : ARMv7\nCPU part : 0xc09\n") = some sampleArch.GENERIC :=
  ⟨by decide,
    (missing_label_leaves_defaults sampleBuild sampleArch 1 sampleNames 100
      (ascii "Processor : ARMv7\nCPU part : 0xc09\n") (by decide)
      (Or.inr (Or.inr (fun l hl => (strstr_eq_none_iff _ _).1
        ((by decide : ∀ l ∈ file_lines (ascii "Processor : ARMv7\nCPU part : 0xc09\n"),
          strstr l (ascii "Features") = none) l hl))))).1,
    (missing_label_leaves_defaults sampleBuild sampleArch 1 sampleNames 100
      (ascii "Processor : ARMv7\nCPU part : 0xc09\n") (by decide)
      (Or.inr (Or.inr (fun l hl => (strstr_eq_none_iff _ _).1
        ((by decide : ∀ l ∈ file_lines (ascii "Processor : ARMv7\nCPU part : 0xc09\n"),
          strstr l (ascii "Features") = none) l hl))))).2⟩

/-! ## `find_string_in`: the copied line and the caller's buffer: lemmas -/

theorem fgets_chars_length (k : Nat) (s : List Nat) : (fgets_chars k s).1.length ≤ k := by
  induction k generalizing s with
  | zero => simp [fgets_chars]
  | succ k ih =>
    cases s with
    | nil => simp [fgets_chars]
    | cons c t =>
      simp only [fgets_chars]
      split
      · simp
      · have := ih t
        simp only [List.length_cons]
        omega

theorem c_string_mem (l : List Nat) : ∀ c ∈ c_string l, c ≠ 0 := by
  intro c hc
  have := List.mem_takeWhile_imp hc
  simpa using this

theorem c_string_length_le (l : List Nat) : (c_string l).length ≤ l.length := by
  induction l with
  | nil => simp [c_string]
  | cons x l ih =>
    simp only [c_string, List.takeWhile] at ih ⊢
    split
    · simp only [List.length_cons]; omega
    · simp

theorem strncpy_length (src : List Nat) (n : Nat) : (strncpy src n).length = n := by
  induction n generalizing src with
  | zero => cases src <;> simp [strncpy]
  | succ n ih =>
    cases src with
    | nil => simp [strncpy, ih]
    | cons c t => simp [strncpy, ih]

theorem buffer_bytes_length (src : List Nat) (n : Nat) : (buffer_bytes src n).length = n := by
  unfold buffer_bytes
  dsimp only
  split <;> simp [strncpy_length]

theorem strncpy_set_split (k : Nat) :
    ∀ src : List Nat, ∃ rest, (strncpy src (k + 1)).set k 0 = src.take k ++ 0 :: rest := by
  induction k with
  | zero =>
    intro src
    cases src with
    | nil => exact ⟨[], by simp [strncpy]⟩
    | cons c t => exact ⟨[], by simp [strncpy]⟩
  | succ k ih =>
    intro src
    cases src with
    | nil =>
      exact ⟨(strncpy [] (k + 1)).set k 0, by simp [strncpy]⟩
    | cons c t =>
      obtain ⟨rest, hrest⟩ := ih t
      exact ⟨rest, by simp [strncpy, hrest]⟩

theorem buffer_bytes_split (src : List Nat) (n : Nat) (hn : 0 < n) :
    ∃ rest, buffer_bytes src n = src.take (n - 1) ++ 0 :: rest := by
  obtain ⟨k, rfl⟩ : ∃ k, n = k + 1 := ⟨n - 1, by omega⟩
  obtain ⟨rest, hrest⟩ := strncpy_set_split k src
  refine ⟨rest, ?_⟩
  unfold buffer_bytes
  simp only [Nat.add_sub_cancel, hrest, Nat.succ_pos, if_true, gt_iff_lt]

theorem find_loop_buffer (target : List Nat) (buf_len : Nat) (found : Found) :
    ∀ (fuel : Nat) (st : FileStream),
      find_string_in_loop target buf_len fuel st = some (some found) →
      ∃ src, (∀ c ∈ src, c ≠ 0) ∧ src.length ≤ buf_len - 2 ∧
        found.buffer = src.take (buf_len - 1) ∧ strstr src target = some found.r_val := by
  intro fuel
  induction fuel with
  | zero => intro st h; simp [find_string_in_loop] at h
  | succ fuel ih =>
    intro st h
    simp only [find_string_in_loop] at h
    by_cases heof : st.eof = true
    · simp [heof] at h
    · simp only [heof, Bool.false_eq_true, if_false] at h
      cases hfg : fgets (buf_len - 1) st with
      | mk line st' =>
        cases line with
        | none => simp [hfg] at h
        | some buf_local =>
          simp only [hfg] at h
          cases hstr : strstr (c_string buf_local) target with
          | none =>
            simp only [hstr] at h
            exact ih st' h
          | some r_val =>
            simp only [hstr, Option.some.injEq] at h
            subst h
            refine ⟨c_string buf_local, c_string_mem buf_local, ?_, rfl, hstr⟩
            have hl : buf_local.length ≤ buf_len - 1 - 1 := by
              unfold fgets at hfg
              split at hfg
              · simp at hfg
              · dsimp only at hfg
                split at hfg
                · simp at hfg
                · simp only [Prod.mk.injEq, Option.some.injEq] at hfg
                  rw [← hfg.1]
                  exact fgets_chars_length _ _
            have := c_string_length_le buf_local
            omega

theorem find_loop_short_buffer (target : List Nat) (htarget : target ≠ []) :
    ∀ fuel : Nat, find_string_in_loop target 2 fuel ⟨[], false⟩ = none := by
  intro fuel
  induction fuel with
  | zero => rfl
  | succ fuel ih =>
    cases target with
    | nil => exact absurd rfl htarget
    | cons x t =>
      simp only [find_string_in_loop, Bool.false_eq_true, if_false]
      have hfg : fgets (2 - 1) ⟨[], false⟩ = (some [], ⟨[], false⟩) := rfl
      simp only [hfg]
      have hs : strstr (c_string []) (x :: t) = none := by
        simp [c_string, strstr, List.isPrefixOf]
      simp only [hs]
      exact ih

theorem file_line_shape (f : List Nat) :
    ∀ l ∈ file_lines f, l = line_text l ∨ l = line_text l ++ [10] := by
  induction f with
  | nil => simp [file_lines]
  | cons c t ih =>
    intro l hl
    simp only [file_lines] at hl
    split at hl
    · next hc =>
      rcases List.mem_cons.mp hl with h | h
      · right
        rw [h, hc]
        rfl
      · exact ih l h
    · next hc =>
      have hcb : (c != 10) = true := by simpa using hc
      cases hft : file_lines t with
      | nil =>
        rw [hft] at hl
        simp only [List.mem_singleton] at hl
        left
        rw [hl]
        simp [line_text, List.filter, hcb]
      | cons l0 ls =>
        rw [hft] at hl
        rcases List.mem_cons.mp hl with h | h
        · have h0 := ih l0 (by rw [hft]; exact List.mem_cons_self l0 ls)
          have hlt : line_text (c :: l0) = c :: line_text l0 := by
            simp [line_text, List.filter, hcb]
          rw [h, hlt]
          rcases h0 with h0 | h0
          · left; rw [← h0]
          · right; rw [List.cons_append, ← h0]
        · exact ih l (by rw [hft]; exact List.mem_cons_of_mem l0 h)

theorem occurs_in_drop_newline (target t : List Nat) (hnl : ∀ c ∈ target, c ≠ 10)
    (h : occurs_in target (t ++ [10])) : occurs_in target t := by
  obtain ⟨a, e, hae⟩ := h
  rcases List.eq_nil_or_concat e with he | ⟨e0, y, he⟩
  · subst he
    rcases List.eq_nil_or_concat target with ht | ⟨t0, x, ht⟩
    · subst ht
      exact ⟨[], t, by simp⟩
    · exfalso
      subst ht
      have hx : x ≠ 10 := hnl x (by simp)
      have heq : t ++ [10] = (a ++ t0) ++ [x] := by simpa using hae
      have := (List.append_inj' heq rfl).2
      simp only [List.cons.injEq, and_true] at this
      exact hx this.symm
  · subst he
    have heq : t ++ [10] = (a ++ target ++ e0) ++ [y] := by simpa using hae
    exact ⟨a, e0, (List.append_inj' heq rfl).1⟩

theorem occurs_in_line_text (target f : List Nat) (hnl : ∀ c ∈ target, c ≠ 10) :
    ∀ l ∈ file_lines f, occurs_in target l ↔ occurs_in target (line_text l) := by
  intro l hl
  rcases file_line_shape f l hl with h | h
  · rw [← h]
  · constructor
    · intro hocc
      rw [h] at hocc
      exact occurs_in_drop_newline target _ hnl hocc
    · intro hocc
      rw [h]
      exact occurs_in_append_left target _ _ hocc

/-! ## `find_string_in`: results -/

/-- C21: `find_string_in` does not copy the substring that starts at the match
point, although its header comment says it does: it copies the line read by
`fgets` from its first character.  On a file whose second line is
`CPU part : 0xd07`, searched for `part`, the caller's buffer holds
`CPU part : 0xd07` with the newline, the four characters before the match
included, while the string the claim describes (`r_val`, the result of
`strstr`) is `part : 0xd07` with the newline. -/
theorem find_string_in_copies_whole_line :
    find_string_in 100 (ascii "part") 200 (ascii "Processor : ARMv8\nCPU part : 0xd07\n")
      = some (some ⟨ascii "CPU part : 0xd07\n", ascii "part : 0xd07\n"⟩) ∧
    ascii "CPU part : 0xd07\n" ≠ ascii "part : 0xd07\n" := by
  decide

/-- C22, as stated, fails in two ways.  With `buf_len = 2` the call
`fgets( buf_local, 1, stream )` reads nothing and returns the empty string, so
the end of the file is never seen: on the empty file, searched for `x`, the
loop never ends, whatever bound is put on its iterations, and no NULL is
returned.  And a line is searched as a C string, up to its first NUL byte: on
the one line `a`, NUL, `part`, which contains `part`, the search for `part`
with `buf_len = 200` returns NULL. -/
theorem find_string_in_short_buffer_or_nul :
    (file_lines [] = [] ∧ ∀ fuel, find_string_in fuel (ascii "x") 2 [] = none) ∧
    (file_lines [97, 0, 112, 97, 114, 116, 10] = [[97, 0, 112, 97, 114, 116, 10]] ∧
      (strstr [97, 0, 112, 97, 114, 116, 10] (ascii "part")).isSome = true ∧
      find_string_in 100 (ascii "part") 200 [97, 0, 112, 97, 114, 116, 10] = some none) :=
  ⟨⟨rfl, find_loop_short_buffer (ascii "x") (by decide)⟩, by decide, by decide, by decide⟩

/-- C22, amended (`buf_len >= 3`, no NUL byte in the file): for every such
file all of whose lines are shorter than `buf_len - 2` characters,
`find_string_in` returns (the loop terminates); it returns non-NULL iff some
line contains `target` (a line being taken with its newline), the line copied
to `buffer` is then the first such line in file order and the returned pointer
is the first occurrence of `target` in it; when no line contains `target` it
returns NULL.  For a target without a newline character the line may as well
be taken without its newline.  The last line may lack its newline and the
file may be empty. -/
theorem find_string_in_first_line (fuel : Nat) (target : List Nat) (buf_len : Nat)
    (file : List Nat) (hbuf : 3 ≤ buf_len) (hnul : ∀ c ∈ file, c ≠ 0)
    (hlen : ∀ l ∈ file_lines file, (line_text l).length < buf_len - 2)
    (hfuel : file.length < fuel) :
    ∃ r, find_string_in fuel target buf_len file = some r ∧
      (r.isSome = true ↔ ∃ l ∈ file_lines file, occurs_in target l) ∧
      ((∀ c ∈ target, c ≠ 10) →
        (r.isSome = true ↔ ∃ l ∈ file_lines file, occurs_in target (line_text l))) ∧
      (∀ found, r = some found →
        first_line_with target file = some found.buffer ∧
        strstr found.buffer target = some found.r_val) ∧
      ((∀ l ∈ file_lines file, ¬ occurs_in target l) → r = none) := by
  obtain ⟨m, rfl⟩ : ∃ m, buf_len = m + 3 := ⟨buf_len - 3, by omega⟩
  have hlen' : ∀ l ∈ file_lines file, l.length ≤ m + 1 := by
    intro l hl
    have h1 := line_length_le file l hl
    have h2 := hlen l hl
    omega
  have hloop := find_loop_lines target m fuel file hnul hlen' hfuel
  have hiff : (((first_line_with target file).bind
        (fun l => (strstr l target).map (Found.mk l))).isSome = true ↔
      ∃ l ∈ file_lines file, occurs_in target l) := by
    cases hfirst : first_line_with target file with
      | none =>
        simp only [Option.none_bind, Option.isSome_none, Bool.false_eq_true, false_iff]
        rintro ⟨l, hl, hocc⟩
        have hnone := List.find?_eq_none.mp hfirst l hl
        exact hnone ((strstr_isSome_iff l target).2 hocc)
      | some l =>
        have hsome : (strstr l target).isSome = true := by
          have := List.find?_some hfirst
          simpa using this
        obtain ⟨rv, hrv⟩ := Option.isSome_iff_exists.mp hsome
        simp only [Option.some_bind, hrv, Option.map_some', Option.isSome_some, true_iff]
        exact ⟨l, List.mem_of_find?_eq_some hfirst, (strstr_isSome_iff l target).1 hsome⟩
  refine ⟨_, hloop, hiff, ?_, ?_, ?_⟩
  · intro hnl
    rw [hiff]
    constructor
    · rintro ⟨l, hl, hocc⟩
      exact ⟨l, hl, (occurs_in_line_text target file hnl l hl).1 hocc⟩
    · rintro ⟨l, hl, hocc⟩
      exact ⟨l, hl, (occurs_in_line_text target file hnl l hl).2 hocc⟩
  · intro found hfound
    cases hfirst : first_line_with target file with
    | none => rw [hfirst] at hfound; simp at hfound
    | some l =>
      rw [hfirst] at hfound
      simp only [Option.some_bind] at hfound
      cases hrv : strstr l target with
      | none => rw [hrv] at hfound; simp at hfound
      | some rv =>
        rw [hrv] at hfound
        simp only [Option.map_some', Option.some.injEq] at hfound
        subst hfound
        exact ⟨rfl, hrv⟩
  · intro hno
    cases hfirst : first_line_with target file with
    | none => rfl
    | some l =>
      exfalso
      have hsome : (strstr l target).isSome = true := by
        have := List.find?_some hfirst
        simpa using this
      exact hno l (List.mem_of_find?_eq_some hfirst) ((strstr_isSome_iff l target).1 hsome)

/-- Witness of the amended C22: a file of three lines whose last line has no
newline, searched for `part` with `buf_len = 30`; the second line is the first
that contains `part`, the third contains it too. -/
theorem find_string_in_first_line_witness :
    (3 ≤ 30 ∧ (∀ c ∈ ascii "Processor : ARMv8\nCPU part : 0xd07\nno part", c ≠ 0) ∧
      (∀ l ∈ file_lines (ascii "Processor : ARMv8\nCPU part : 0xd07\nno part"),
        (line_text l).length < 30 - 2)) ∧
    find_string_in 100 (ascii "part") 30 (ascii "Processor : ARMv8\nCPU part : 0xd07\nno part")
      = some (some ⟨ascii "CPU part : 0xd07\n", ascii "part : 0xd07\n"⟩) ∧
    (∃ r, find_string_in 100 (ascii "part") 30
        (ascii "Processor : ARMv8\nCPU part : 0xd07\nno part") = some r ∧
      (r.isSome = true ↔ ∃ l ∈ file_lines (ascii "Processor : ARMv8\nCPU part : 0xd07\nno part"),
        occurs_in (ascii "part") l)) :=
  ⟨⟨by decide, by decide, by decide⟩, by decide,
    (find_string_in_first_line 100 (ascii "part") 30
      (ascii "Processor : ARMv8\nCPU part : 0xd07\nno part") (by decide) (by decide)
      (by decide) (by decide)).imp (fun r h => ⟨h.1, h.2.1⟩)⟩

/-- C23: for every `buf_len >= 2`, every target and every file content, lines
longer than `buf_len` included, whenever `find_string_in` reports a match the
string in the caller's buffer has at most `buf_len - 1` characters, none of
them NUL, and the stores to the buffer, those of `strncpy` and of the
terminator, cover exactly the `buf_len` bytes `buffer[0 .. buf_len-1]`, which
then hold that string followed by a NUL byte; the string that `fgets` left in
`buf_local` has at most `buf_len - 2` characters. -/
theorem buffer_holds_bounded_string (fuel : Nat) (target : List Nat) (buf_len : Nat)
    (file : List Nat) (found : Found) (hbuf : 2 ≤ buf_len)
    (h : find_string_in fuel target buf_len file = some (some found)) :
    found.buffer.length ≤ buf_len - 1 ∧ (∀ c ∈ found.buffer, c ≠ 0) ∧
    ∃ src rest, src.length ≤ buf_len - 2 ∧ (∀ c ∈ src, c ≠ 0) ∧
      (buffer_bytes src buf_len).length = buf_len ∧
      buffer_bytes src buf_len = found.buffer ++ 0 :: rest ∧
      c_string (buffer_bytes src buf_len) = found.buffer := by
  obtain ⟨src, hsrc, hlen, hbuffer, -⟩ := find_loop_buffer target buf_len found fuel _ h
  have hmem : ∀ c ∈ found.buffer, c ≠ 0 := by
    intro c hc
    rw [hbuffer] at hc
    exact hsrc c (List.mem_of_mem_take hc)
  obtain ⟨rest, hrest⟩ := buffer_bytes_split src buf_len (by omega)
  rw [← hbuffer] at hrest
  refine ⟨?_, hmem, src, rest, hlen, hsrc, buffer_bytes_length src buf_len, hrest, ?_⟩
  · rw [hbuffer, List.length_take]
    omega
  · rw [hrest, c_string, takeWhile_append_nul]
    exact takeWhile_no_nul _ hmem

/-- Witness of C23: a line of fourteen characters read with `buf_len = 8`; the
second block of six characters contains `pa`, and the buffer then holds these
six characters and a NUL. -/
theorem buffer_holds_bounded_string_witness :
    2 ≤ 8 ∧
    find_string_in 100 (ascii "pa") 8 (ascii "xxxxxxxxxxpart\n")
      = some (some ⟨ascii "xxxxpa", ascii "pa"⟩) ∧
    buffer_bytes (ascii "xxxxpa") 8 = ascii "xxxxpa" ++ [0, 0] ∧
    (ascii "xxxxpa").length ≤ 8 - 1 :=
  ⟨by decide, by decide, by decide,
    (buffer_holds_bounded_string 100 (ascii "pa") 8 (ascii "xxxxxxxxxxpart\n")
      ⟨ascii "xxxxpa", ascii "pa"⟩ (by decide) (by decide)).1⟩

/-- C24: `find_string_in` does not test the result of `fopen`.  When the file
cannot be opened, the null stream is handed to `feof` (and, were the loop
left, to `fclose`): the call has undefined behaviour and does not return
NULL, for every target and buffer length. -/
theorem find_string_in_unopened_file (fuel : Nat) (target : List Nat) (buf_len : Nat) :
    find_string_in_file fuel target buf_len none = Call.undefined ∧
    find_string_in_file fuel target buf_len none ≠ Call.returns (some none) := by
  constructor
  · rfl
  · intro h
    simp [find_string_in_file] at h

/-! ## 64-bit ARM and IBM Z: lemmas -/

theorem nat_int_ne_minus_one (x : Nat) : ((x : Int) == (-1 : Int)) = false := by
  rw [beq_eq_false_iff_ne]
  omega

theorem and_two_pow_eq_zero (x k : Nat) : x &&& 2 ^ k = 0 ↔ x.testBit k = false := by
  constructor
  · intro h
    have hk := congrArg (fun n => Nat.testBit n k) h
    simpa [Nat.testBit_and, Nat.testBit_two_pow_self] using hk
  · intro h
    apply Nat.eq_of_testBit_eq
    intro i
    rw [Nat.testBit_and, Nat.testBit_two_pow, Nat.zero_testBit]
    by_cases hki : k = i
    · subst hki; simp [h]
    · simp [hki]

theorem pair_beq (x y i p : Nat) :
    ((x, y) == (i, p)) = (decide (i = x) && decide (p = y)) := by
  rw [Bool.eq_iff_iff]
  simp only [beq_iff_eq, Prod.mk.injEq, Bool.and_eq_true, decide_eq_true_eq]
  constructor
  · rintro ⟨h1, h2⟩; exact ⟨h1.symm, h2.symm⟩
  · rintro ⟨h1, h2⟩; exact ⟨h1.symm, h2.symm⟩

theorem Aarch64.hwcap_test (hwcap : Nat) :
    hwcap &&& Aarch64.HWCAP_CPUID = 0 ↔ hwcap.testBit 11 = false := by
  have h : Aarch64.HWCAP_CPUID = 2 ^ 11 := by decide
  rw [h]
  exact and_two_pow_eq_zero hwcap 11

theorem Aarch64.midr_fields (midr_el1 : Nat) :
    (midr_el1 >>> 24) &&& 0xFF = midr_el1 / 2 ^ 24 % 2 ^ 8 ∧
    (midr_el1 >>> 4) &&& 0xFFF = midr_el1 / 2 ^ 4 % 2 ^ 12 := by
  have h8 : (0xFF : Nat) = 2 ^ 8 - 1 := by norm_num
  have h12 : (0xFFF : Nat) = 2 ^ 12 - 1 := by norm_num
  rw [h8, h12, Nat.and_pow_two_sub_one_eq_mod, Nat.and_pow_two_sub_one_eq_mod,
    Nat.shiftRight_eq_div_pow, Nat.shiftRight_eq_div_pow]
  exact ⟨rfl, rfl⟩

theorem Aarch64.get_coretype_lookup (A : ArchIds) (hwcap midr_el1 : Nat)
    (hcap : hwcap.testBit 11 = true) :
    Aarch64.get_coretype A hwcap midr_el1
      = Aarch64.spec_midr_lookup A (midr_el1 / 2 ^ 24 % 2 ^ 8) (midr_el1 / 2 ^ 4 % 2 ^ 12) := by
  have hne : ¬ (hwcap &&& Aarch64.HWCAP_CPUID = 0) := by
    rw [Aarch64.hwcap_test, hcap]
    simp
  obtain ⟨h1, h2⟩ := Aarch64.midr_fields midr_el1
  unfold Aarch64.get_coretype
  rw [if_neg hne]
  dsimp only
  rw [h1, h2]
  generalize midr_el1 / 2 ^ 24 % 2 ^ 8 = i
  generalize midr_el1 / 2 ^ 4 % 2 ^ 12 = p
  simp only [Aarch64.spec_midr_lookup, Aarch64.spec_midr_table, List.find?, pair_beq]
  by_cases h41 : i = 0x41
  · subst h41
    by_cases a : p = 0xd07
    · subst a; rfl
    · by_cases c : p = 0xd03
      · subst c; rfl
      · simp [a, c]
  · by_cases h42 : i = 0x42
    · subst h42
      by_cases a : p = 0x516
      · subst a; rfl
      · simp [a]
    · by_cases h43 : i = 0x43
      · subst h43
        by_cases a : p = 0x0af
        · subst a; rfl
        · by_cases c : p = 0x0b8
          · subst c; rfl
          · simp [a, c]
      · by_cases h46 : i = 0x46
        · subst h46
          by_cases a : p = 0x001
          · subst a; rfl
          · simp [a]
        · simp [h41, h42, h43, h46]

/-! ## 64-bit ARM and IBM Z: results -/

/-- C25: on 64-bit ARM Linux with the `HWCAP_CPUID` bit (bit 11) present in
`getauxval(AT_HWCAP)`, `get_coretype` is the lookup of the pair (implementer,
part), taken from bits 31:24 and bits 15:4 of `MIDR_EL1`, in the table
(0x41, 0xd07) -> CORTEXA57, (0x41, 0xd03) -> CORTEXA53, (0x42, 0x516) ->
THUNDERX2, (0x43, 0x0af) and (0x43, 0x0b8) -> THUNDERX2, (0x46, 0x001) ->
A64FX, every other pair giving CORTEXA57; and `bli_cpuid_query` returns
`VENDOR_ARM` with `*model = MODEL_ARMV8`, `*features = 0` and `*part` equal to
that id. -/
theorem midr_decoding (A : ArchIds) (hwcap midr_el1 : Nat)
    (hcap : hwcap.testBit 11 = true) :
    Aarch64.get_coretype A hwcap midr_el1
      = Aarch64.spec_midr_lookup A (midr_el1 / 2 ^ 24 % 2 ^ 8) (midr_el1 / 2 ^ 4 % 2 ^ 12) ∧
    Aarch64.bli_cpuid_query A true hwcap midr_el1
      = ⟨VENDOR_ARM, MODEL_ARMV8,
          Aarch64.spec_midr_lookup A (midr_el1 / 2 ^ 24 % 2 ^ 8) (midr_el1 / 2 ^ 4 % 2 ^ 12),
          0⟩ := by
  have h := Aarch64.get_coretype_lookup A hwcap midr_el1 hcap
  refine ⟨h, ?_⟩
  simp only [Aarch64.bli_cpuid_query, if_true, h]

/-- Witness of C25: the `MIDR_EL1` value 0x431f0af1 (Cavium, part 0x0af) with
the capability bit present decodes to THUNDERX2, and 0x410fd0c0 (ARM, part
0xd0c, which has no row) to CORTEXA57. -/
theorem midr_decoding_witness :
    (0x800 : Nat).testBit 11 = true ∧
    Aarch64.get_coretype sampleArch 0x800 0x431f0af1 = sampleArch.THUNDERX2 ∧
    Aarch64.get_coretype sampleArch 0x800 0x410fd0c0 = sampleArch.CORTEXA57 ∧
    Aarch64.bli_cpuid_query sampleArch true 0x800 0x431f0af1
      = ⟨VENDOR_ARM, MODEL_ARMV8, sampleArch.THUNDERX2, 0⟩ :=
  ⟨by decide, by decide, by decide,
    (midr_decoding sampleArch 0x800 0x431f0af1 (by decide)).2.trans (by decide)⟩

/-- C26: on 64-bit ARM Linux, when `getauxval(AT_HWCAP)` lacks the
`HWCAP_CPUID` bit (bit 11), `get_coretype` returns 0 whatever `MIDR_EL1` holds
(the register is not read), and `bli_cpuid_query_id` with no override returns
`BLIS_ARCH_GENERIC`, provided that 0 is not the `arch_t` value of A64FX,
THUNDERX2, CORTEXA57 or CORTEXA53. -/
theorem missing_cpuid_capability_gives_generic (b : Build) (A : ArchIds) (NEON : Nat)
    (arch_string : Nat → String) (hwcap midr_el1 : Nat)
    (hcap : hwcap.testBit 11 = false)
    (h0 : A.A64FX ≠ 0 ∧ A.THUNDERX2 ≠ 0 ∧ A.CORTEXA57 ≠ 0 ∧ A.CORTEXA53 ≠ 0) :
    Aarch64.get_coretype A hwcap midr_el1 = 0 ∧
    Aarch64.bli_cpuid_query A true hwcap midr_el1 = ⟨VENDOR_ARM, MODEL_ARMV8, 0, 0⟩ ∧
    Aarch64.bli_cpuid_query_id b A NEON arch_string none true hwcap midr_el1 = A.GENERIC := by
  have hz : Aarch64.get_coretype A hwcap midr_el1 = 0 := by
    unfold Aarch64.get_coretype
    rw [if_pos ((Aarch64.hwcap_test hwcap).2 hcap)]
  have hq : Aarch64.bli_cpuid_query A true hwcap midr_el1 = ⟨VENDOR_ARM, MODEL_ARMV8, 0, 0⟩ := by
    simp only [Aarch64.bli_cpuid_query, if_true, hz]
  obtain ⟨h1, h2, h3, h4⟩ := h0
  refine ⟨hz, hq, ?_⟩
  simp only [Aarch64.bli_cpuid_query_id, hq, bli_env_check_none, Arm.bli_cpuid_query_id_with,
    Arm.arm_override_minus_one, Arm.bli_cpuid_query_id_match, if_true,
    Arm.bli_cpuid_is_a64fx, Arm.bli_cpuid_is_thunderx2, Arm.bli_cpuid_is_cortexa57,
    Arm.bli_cpuid_is_cortexa53]
  have e1 : ((0 : Nat) == A.A64FX) = false := by
    rw [beq_eq_false_iff_ne]; exact fun h => h1 h.symm
  have e2 : ((0 : Nat) == A.THUNDERX2) = false := by
    rw [beq_eq_false_iff_ne]; exact fun h => h2 h.symm
  have e3 : ((0 : Nat) == A.CORTEXA57) = false := by
    rw [beq_eq_false_iff_ne]; exact fun h => h3 h.symm
  have e4 : ((0 : Nat) == A.CORTEXA53) = false := by
    rw [beq_eq_false_iff_ne]; exact fun h => h4 h.symm
  simp [e1, e2, e3, e4]

/-- Witness of C26: an auxiliary vector without bit 11 on the example
numbering, where the four ids are 11, 12, 13 and 14. -/
theorem missing_cpuid_capability_gives_generic_witness :
    (0x7ff : Nat).testBit 11 = false ∧
    (sampleArch.A64FX ≠ 0 ∧ sampleArch.THUNDERX2 ≠ 0 ∧ sampleArch.CORTEXA57 ≠ 0 ∧
      sampleArch.CORTEXA53 ≠ 0) ∧
    Aarch64.get_coretype sampleArch 0x7ff 0x431f0af1 = 0 ∧
    Aarch64.bli_cpuid_query_id sampleBuild sampleArch 1 sampleNames none true 0x7ff 0x431f0af1
      = sampleArch.GENERIC :=
  ⟨by decide, by decide,
    (missing_cpuid_capability_gives_generic sampleBuild sampleArch 1 sampleNames 0x7ff
      0x431f0af1 (by decide) (by decide)).1,
    (missing_cpuid_capability_gives_generic sampleBuild sampleArch 1 sampleNames 0x7ff
      0x431f0af1 (by decide) (by decide)).2.2⟩

/-- C27: on IBM Z, on the hwcap path, `bli_cpuid_query` returns `VENDOR_IBM`
and exactly one of three models: `MODEL_Z14` iff `hwcap & HWCAP_S390_VX` and
`hwcap & HWCAP_S390_VXE` are both non-zero, `MODEL_Z13` iff the first is
non-zero and the second is zero, `MODEL_Z900` iff the first is zero (whatever
the second is); with no override and both sub-configurations enabled,
`bli_cpuid_query_id` returns Z14, Z13 and GENERIC respectively. -/
theorem z_model_from_capability_bits (b : Build) (A : ArchIds) (P : S390.Params)
    (arch_string : Nat → String) (hwcap : Nat)
    (h14 : P.CONFIG_Z14 = true) (h13 : P.CONFIG_Z13 = true) :
    (S390.bli_cpuid_query P hwcap).1 = VENDOR_IBM ∧
    ((S390.bli_cpuid_query P hwcap).2 = S390.z_model_t.MODEL_Z14 ↔
      (hwcap &&& P.HWCAP_S390_VX ≠ 0 ∧ hwcap &&& P.HWCAP_S390_VXE ≠ 0)) ∧
    ((S390.bli_cpuid_query P hwcap).2 = S390.z_model_t.MODEL_Z13 ↔
      (hwcap &&& P.HWCAP_S390_VX ≠ 0 ∧ hwcap &&& P.HWCAP_S390_VXE = 0)) ∧
    ((S390.bli_cpuid_query P hwcap).2 = S390.z_model_t.MODEL_Z900 ↔
      hwcap &&& P.HWCAP_S390_VX = 0) ∧
    S390.bli_cpuid_query_id b A P arch_string none hwcap
      = (match (S390.bli_cpuid_query P hwcap).2 with
        | S390.z_model_t.MODEL_Z14 => P.Z14
        | S390.z_model_t.MODEL_Z13 => P.Z13
        | S390.z_model_t.MODEL_Z900 => A.GENERIC) := by
  have hid : S390.bli_cpuid_query_id b A P arch_string none hwcap
      = (if (S390.bli_cpuid_query P hwcap).2 = S390.z_model_t.MODEL_Z14 then P.Z14
        else if (S390.bli_cpuid_query P hwcap).2 = S390.z_model_t.MODEL_Z13 then P.Z13
        else A.GENERIC) := by
    simp only [S390.bli_cpuid_query_id, bli_env_check_none, nat_int_ne_minus_one, h14, h13,
      Bool.and_false, Bool.false_eq_true, if_false, Bool.true_and, beq_iff_eq]
  rw [hid]
  by_cases hvx : hwcap &&& P.HWCAP_S390_VX = 0
  · simp [S390.bli_cpuid_query, hvx]
  · by_cases hvxe : hwcap &&& P.HWCAP_S390_VXE = 0
    · simp [S390.bli_cpuid_query, hvx, hvxe]
    · simp [S390.bli_cpuid_query, hvx, hvxe]

/-- Witness of C27: with the capability bits of the Linux headers (VX = 2048,
VXE = 8192) and both sub-configurations enabled, `hwcap = 2048 + 8192` gives
Z14, `hwcap = 2048` gives Z13 and `hwcap = 8192` (VXE without VX) gives
`MODEL_Z900` and GENERIC. -/
theorem z_model_from_capability_bits_witness :
    (sampleZ.CONFIG_Z14 = true ∧ sampleZ.CONFIG_Z13 = true) ∧
    S390.bli_cpuid_query sampleZ 10240 = (VENDOR_IBM, S390.z_model_t.MODEL_Z14) ∧
    S390.bli_cpuid_query sampleZ 2048 = (VENDOR_IBM, S390.z_model_t.MODEL_Z13) ∧
    S390.bli_cpuid_query sampleZ 8192 = (VENDOR_IBM, S390.z_model_t.MODEL_Z900) ∧
    S390.bli_cpuid_query_id sampleBuild sampleArch sampleZ sampleNames none 10240 = sampleZ.Z14 ∧
    S390.bli_cpuid_query_id sampleBuild sampleArch sampleZ sampleNames none 8192
      = sampleArch.GENERIC :=
  ⟨⟨by decide, by decide⟩, by decide, by decide, by decide,
    (z_model_from_capability_bits sampleBuild sampleArch sampleZ sampleNames 10240
      (by decide) (by decide)).2.2.2.2.trans (by decide),
    (z_model_from_capability_bits sampleBuild sampleArch sampleZ sampleNames 8192
      (by decide) (by decide)).2.2.2.2.trans (by decide)⟩

/-! ## The normalizer as a table: lemmas -/

theorem testBit_below (x i : Nat) (hx : x < 2 ^ 32) :
    x.testBit i = (decide (i < 32) && x.testBit i) := by
  by_cases hi : i < 32
  · simp [hi]
  · have hlt : x < 2 ^ i :=
      lt_of_lt_of_le hx (Nat.pow_le_pow_right (by decide) (by omega))
    simp [hi, Nat.testBit_lt_two_pow hlt]

theorem X86.set_flag_lt (features flag : Nat) : X86.set_flag features flag < 2 ^ 32 :=
  Nat.mod_lt _ (by decide)

theorem X86.set_rows_testBit (i : Nat) :
    ∀ (rows : List (Bool × Nat)) (features : Nat), features < 2 ^ 32 →
      (X86.set_rows rows features).testBit i
        = (features.testBit i ||
            rows.any (fun row => row.1 && (decide (i < 32) && row.2.testBit i))) := by
  intro rows
  induction rows with
  | nil => intro features _; simp [X86.set_rows]
  | cons row rest ih =>
    intro features hf
    simp only [X86.set_rows, List.any_cons]
    cases hr : row.1 with
    | false =>
      simp only [Bool.false_eq_true, if_false, Bool.false_and, Bool.false_or]
      exact ih features hf
    | true =>
      simp only [if_true, Bool.true_and]
      rw [ih _ (X86.set_flag_lt features row.2), X86.set_flag, Nat.testBit_mod_two_pow,
        Nat.testBit_or, testBit_below features i hf]
      cases decide (i < 32) <;> simp [Bool.or_assoc]

theorem X86.set_if_two_pow (reg k features flag : Nat) :
    X86.set_if reg (2 ^ k) features flag
      = if reg.testBit k then X86.set_flag features flag else features := by
  simp only [X86.set_if, has_features_two_pow]

theorem X86.normalized_eq_rows (F : FeatureFlags) (r : X86.CpuidRegs) :
    X86.normalized_features F r = X86.set_rows (X86.spec_feature_table F r) 0 := by
  simp only [X86.normalized_features, X86.leaf7_features, X86.ext_features,
    X86.leaf1_features, X86.FEATURE_MASK_SSE3, X86.FEATURE_MASK_SSSE3, X86.FEATURE_MASK_SSE41,
    X86.FEATURE_MASK_SSE42, X86.FEATURE_MASK_AVX, X86.FEATURE_MASK_AVX2, X86.FEATURE_MASK_FMA3,
    X86.FEATURE_MASK_FMA4, X86.FEATURE_MASK_AVX512F, X86.FEATURE_MASK_AVX512DQ,
    X86.FEATURE_MASK_AVX512PF, X86.FEATURE_MASK_AVX512ER, X86.FEATURE_MASK_AVX512CD,
    X86.FEATURE_MASK_AVX512BW, X86.FEATURE_MASK_AVX512VL, Nat.one_shiftLeft,
    X86.set_if_two_pow, X86.spec_feature_table, X86.set_rows]
  by_cases h7 : 7 ≤ r.cpuid_max
  · by_cases hext : 0x80000001 ≤ r.cpuid_max_ext
    · simp only [ge_iff_le, h7, hext, if_true, decide_True, Bool.true_and]
    · simp only [ge_iff_le, h7, hext, if_true, if_false, decide_True, decide_False,
        Bool.true_and, Bool.false_and, Bool.false_eq_true]
  · by_cases hext : 0x80000001 ≤ r.cpuid_max_ext
    · simp only [ge_iff_le, h7, hext, if_true, if_false, decide_True, decide_False,
        Bool.true_and, Bool.false_and, Bool.false_eq_true]
    · simp only [ge_iff_le, h7, hext, if_false, decide_False, Bool.false_and,
        Bool.false_eq_true]

theorem disjoint_rows_unique :
    ∀ rows : List (Bool × Nat), (rows.map Prod.snd).Pairwise (fun a c => a &&& c = 0) →
      ∀ p ∈ rows, ∀ q ∈ rows, p.2 &&& q.2 ≠ 0 → p = q := by
  intro rows
  induction rows with
  | nil => intro _ p hp; simp at hp
  | cons row rest ih =>
    intro hpw p hp q hq hne
    simp only [List.map_cons, List.pairwise_cons] at hpw
    obtain ⟨hhead, htail⟩ := hpw
    rcases List.mem_cons.mp hp with hp1 | hp1
    · rcases List.mem_cons.mp hq with hq1 | hq1
      · rw [hp1, hq1]
      · exfalso
        rw [hp1] at hne
        exact hne (hhead q.2 (List.mem_map_of_mem Prod.snd hq1))
    · rcases List.mem_cons.mp hq with hq1 | hq1
      · exfalso
        rw [hq1, Nat.land_comm] at hne
        exact hne (hhead p.2 (List.mem_map_of_mem Prod.snd hp1))
      · exact ih htail p hp1 q hq1 hne

theorem X86.set_rows_has (rows : List (Bool × Nat))
    (hpw : (rows.map Prod.snd).Pairwise (fun a c => a &&& c = 0))
    (hb : ∀ a ∈ rows.map Prod.snd, a ≠ 0 ∧ a < 2 ^ 32) (row : Bool × Nat) (hrow : row ∈ rows) :
    bli_cpuid_has_features (X86.set_rows rows 0) row.2 = row.1 := by
  obtain ⟨hnz, hlt⟩ := hb row.2 (List.mem_map_of_mem Prod.snd hrow)
  rw [Bool.eq_iff_iff]
  simp only [bli_cpuid_has_features, beq_iff_eq]
  constructor
  · intro h
    obtain ⟨i, hi⟩ := Nat.ne_zero_implies_bit_true hnz
    have hbit := congrArg (fun n => Nat.testBit n i) h
    simp only [Nat.testBit_and, hi, Bool.and_true] at hbit
    rw [X86.set_rows_testBit i rows 0 (by decide), Nat.zero_testBit, Bool.false_or,
      List.any_eq_true] at hbit
    obtain ⟨q, hq, hqc⟩ := hbit
    simp only [Bool.and_eq_true, decide_eq_true_eq] at hqc
    obtain ⟨hq1, -, hq2⟩ := hqc
    have hshare : q.2 &&& row.2 ≠ 0 := by
      intro hz
      have := congrArg (fun n => Nat.testBit n i) hz
      simp [Nat.testBit_and, hi, hq2] at this
    have hqrow := disjoint_rows_unique rows hpw q hq row hrow hshare
    rw [← hqrow]
    exact hq1
  · intro h
    apply Nat.eq_of_testBit_eq
    intro i
    rw [Nat.testBit_and]
    cases hi : row.2.testBit i with
    | false => simp
    | true =>
      have hi32 : i < 32 := by
        have := testBit_below row.2 i hlt
        rw [hi] at this
        by_contra hcon
        simp [hcon] at this
      rw [X86.set_rows_testBit i rows 0 (by decide), Nat.zero_testBit, Bool.false_or,
        Bool.and_true, List.any_eq_true]
      exact ⟨row, hrow, by simp [h, hi, hi32]⟩

/-! ## The x86 normalizer, the XMM gate and the Intel table: results -/

/-- C28: before the OS-enablement gating, the x86 normalizer sets each
canonical flag iff its raw bit is set and its leaf is available, the
`FEATURE_*` enumerators being independent flags of a 32-bit mask: from leaf 1
ECX, bits 0, 9, 19, 20, 28, 12 give SSE3, SSSE3, SSE41, SSE42, AVX, FMA3; from
leaf 7 EBX, only if the maximum basic leaf is at least 7, bits 5, 16, 17, 26,
27, 28, 30, 31 give AVX2, AVX512F, AVX512DQ, AVX512PF, AVX512ER, AVX512CD,
AVX512BW, AVX512VL; from leaf 0x80000001 ECX, only if the maximum extended
leaf is at least 0x80000001, bit 16 gives FMA4.  FMA4 and AVX512F, whose raw
bits are both bit 16, depend on different registers. -/
theorem raw_bits_give_flags (F : FeatureFlags) (r : X86.CpuidRegs)
    (hind : X86.independent_flags F) :
    bli_cpuid_has_features (X86.normalized_features F r) F.SSE3 = r.leaf1_ecx.testBit 0 ∧
    bli_cpuid_has_features (X86.normalized_features F r) F.SSSE3 = r.leaf1_ecx.testBit 9 ∧
    bli_cpuid_has_features (X86.normalized_features F r) F.SSE41 = r.leaf1_ecx.testBit 19 ∧
    bli_cpuid_has_features (X86.normalized_features F r) F.SSE42 = r.leaf1_ecx.testBit 20 ∧
    bli_cpuid_has_features (X86.normalized_features F r) F.AVX = r.leaf1_ecx.testBit 28 ∧
    bli_cpuid_has_features (X86.normalized_features F r) F.FMA3 = r.leaf1_ecx.testBit 12 ∧
    bli_cpuid_has_features (X86.normalized_features F r) F.AVX2
      = (decide (7 ≤ r.cpuid_max) && r.leaf7_ebx.testBit 5) ∧
    bli_cpuid_has_features (X86.normalized_features F r) F.AVX512F
      = (decide (7 ≤ r.cpuid_max) && r.leaf7_ebx.testBit 16) ∧
    bli_cpuid_has_features (X86.normalized_features F r) F.AVX512DQ
      = (decide (7 ≤ r.cpuid_max) && r.leaf7_ebx.testBit 17) ∧
    bli_cpuid_has_features (X86.normalized_features F r) F.AVX512PF
      = (decide (7 ≤ r.cpuid_max) && r.leaf7_ebx.testBit 26) ∧
    bli_cpuid_has_features (X86.normalized_features F r) F.AVX512ER
      = (decide (7 ≤ r.cpuid_max) && r.leaf7_ebx.testBit 27) ∧
    bli_cpuid_has_features (X86.normalized_features F r) F.AVX512CD
      = (decide (7 ≤ r.cpuid_max) && r.leaf7_ebx.testBit 28) ∧
    bli_cpuid_has_features (X86.normalized_features F r) F.AVX512BW
      = (decide (7 ≤ r.cpuid_max) && r.leaf7_ebx.testBit 30) ∧
    bli_cpuid_has_features (X86.normalized_features F r) F.AVX512VL
      = (decide (7 ≤ r.cpuid_max) && r.leaf7_ebx.testBit 31) ∧
    bli_cpuid_has_features (X86.normalized_features F r) F.FMA4
      = (decide (0x80000001 ≤ r.cpuid_max_ext) && r.ext1_ecx.testBit 16) := by
  obtain ⟨hpw, hb⟩ := hind
  have hpw' : ((X86.spec_feature_table F r).map Prod.snd).Pairwise (fun a c => a &&& c = 0) :=
    hpw
  have hb' : ∀ a ∈ (X86.spec_feature_table F r).map Prod.snd, a ≠ 0 ∧ a < 2 ^ 32 := hb
  have key := X86.set_rows_has (X86.spec_feature_table F r) hpw' hb'
  rw [X86.normalized_eq_rows]
  refine ⟨key (r.leaf1_ecx.testBit 0, F.SSE3) ?_, key (r.leaf1_ecx.testBit 9, F.SSSE3) ?_,
    key (r.leaf1_ecx.testBit 19, F.SSE41) ?_, key (r.leaf1_ecx.testBit 20, F.SSE42) ?_,
    key (r.leaf1_ecx.testBit 28, F.AVX) ?_, key (r.leaf1_ecx.testBit 12, F.FMA3) ?_,
    key (decide (7 ≤ r.cpuid_max) && r.leaf7_ebx.testBit 5, F.AVX2) ?_,
    key (decide (7 ≤ r.cpuid_max) && r.leaf7_ebx.testBit 16, F.AVX512F) ?_,
    key (decide (7 ≤ r.cpuid_max) && r.leaf7_ebx.testBit 17, F.AVX512DQ) ?_,
    key (decide (7 ≤ r.cpuid_max) && r.leaf7_ebx.testBit 26, F.AVX512PF) ?_,
    key (decide (7 ≤ r.cpuid_max) && r.leaf7_ebx.testBit 27, F.AVX512ER) ?_,
    key (decide (7 ≤ r.cpuid_max) && r.leaf7_ebx.testBit 28, F.AVX512CD) ?_,
    key (decide (7 ≤ r.cpuid_max) && r.leaf7_ebx.testBit 30, F.AVX512BW) ?_,
    key (decide (7 ≤ r.cpuid_max) && r.leaf7_ebx.testBit 31, F.AVX512VL) ?_,
    key (decide (0x80000001 ≤ r.cpuid_max_ext) && r.ext1_ecx.testBit 16, F.FMA4) ?_⟩ <;>
  simp only [X86.spec_feature_table, List.mem_cons, true_or, or_true]

/-- Witness of C28: on the example numbering, a machine whose leaf 7 EBX has
bit 16 and whose leaf 0x80000001 ECX has not: AVX512F is set and FMA4 is not;
with the two registers exchanged, FMA4 is set and AVX512F is not. -/
theorem raw_bits_give_flags_witness :
    X86.independent_flags sampleFlags ∧
    bli_cpuid_has_features
      (X86.normalized_features sampleFlags ⟨7, 0x80000001, 0, 0, 0, 0x10000, 0, 0, 0, 0⟩)
      sampleFlags.AVX512F = true ∧
    bli_cpuid_has_features
      (X86.normalized_features sampleFlags ⟨7, 0x80000001, 0, 0, 0, 0x10000, 0, 0, 0, 0⟩)
      sampleFlags.FMA4 = false ∧
    bli_cpuid_has_features
      (X86.normalized_features sampleFlags ⟨7, 0x80000001, 0, 0, 0, 0, 0x10000, 0, 0, 0⟩)
      sampleFlags.FMA4 = true ∧
    bli_cpuid_has_features
      (X86.normalized_features sampleFlags ⟨7, 0x80000001, 0, 0, 0, 0, 0x10000, 0, 0, 0⟩)
      sampleFlags.AVX512F = false :=
  ⟨by unfold X86.independent_flags X86.feature_flag_list; decide,
    (raw_bits_give_flags sampleFlags ⟨7, 0x80000001, 0, 0, 0, 0x10000, 0, 0, 0, 0⟩
      (by unfold X86.independent_flags X86.feature_flag_list; decide)).2.2.2.2.2.2.2.1.trans
      (by decide),
    by decide, by decide, by decide⟩

/-- C29: in the x86 `bli_cpuid_query`, when the OS-enablement check is
performed (leaf 1 exists and its ECX has bits 26 and 27) and bit 1 of `xcr0`
(XMM state) is clear, the final feature mask is exactly 0, whatever the raw
feature bits and the other bits of `xcr0` are. -/
theorem mask_empty_without_xmm_state (F : FeatureFlags) (r : X86.CpuidRegs)
    (hmax : 1 ≤ r.cpuid_max)
    (h26 : r.leaf1_ecx.testBit 26 = true) (h27 : r.leaf1_ecx.testBit 27 = true)
    (hxmm : r.xcr0.testBit 1 = false) :
    (X86.bli_cpuid_query F r).features = 0 := by
  have hx : bli_cpuid_has_features r.leaf1_ecx X86.FEATURE_MASK_XGETBV = true := by
    rw [X86.has_xgetbv, h26, h27]; rfl
  have hm : bli_cpuid_has_features r.xcr0 X86.XGETBV_MASK_XMM = false := by
    have h : X86.XGETBV_MASK_XMM = 2 ^ 1 := by decide
    rw [h, has_features_two_pow, hxmm]
  rw [X86.query_features F r (by omega)]
  simp only [X86.os_gating, hx, if_true, X86.xgetbv_gating, hm, Bool.not_false]

/-- Witness of C29: the Intel example machine with `xcr0 = 0xe4` (YMM and ZMM
state but no XMM state) ends with an empty mask, while its mask before the
gating is not empty. -/
theorem mask_empty_without_xmm_state_witness :
    (1 ≤ 13 ∧ (0x1c000201 : Nat).testBit 26 = true ∧ (0x1c000201 : Nat).testBit 27 = true ∧
      (0xe4 : Nat).testBit 1 = false) ∧
    X86.normalized_features sampleFlags { sampleIntelRegs with xcr0 := 0xe4 } = 0x13 ∧
    (X86.bli_cpuid_query sampleFlags { sampleIntelRegs with xcr0 := 0xe4 }).features = 0 :=
  ⟨⟨by decide, by decide, by decide, by decide⟩, by decide,
    mask_empty_without_xmm_state sampleFlags { sampleIntelRegs with xcr0 := 0xe4 }
      (by decide) (by decide) (by decide) (by decide)⟩

/-- C30: with no override and the five Intel sub-configurations enabled, for
vendor Intel `bli_cpuid_query_id` is the id of the first matching row of the
table SKX (AVX|FMA3|AVX2|AVX512F|AVX512DQ|AVX512BW|AVX512VL and
`vpu_count()` = 2), KNL (AVX|FMA3|AVX2|AVX512F|AVX512PF), HASWELL
(AVX|FMA3|AVX2), SANDYBRIDGE (AVX), PENRYN (SSE3|SSSE3), and GENERIC when no
row matches; the result is the same for every family and model. -/
theorem intel_table_lookup (b : Build) (A : ArchIds) (F : FeatureFlags)
    (arch_string : Nat → String)
    (hb : b.CONFIG_SKX = true ∧ b.CONFIG_KNL = true ∧ b.CONFIG_HASWELL = true ∧
      b.CONFIG_SANDYBRIDGE = true ∧ b.CONFIG_PENRYN = true)
    (family model features : Nat) (nvpu : Int) :
    X86.bli_cpuid_query_id_with b A F (bli_env_check b A arch_string none)
        VENDOR_INTEL family model features nvpu
      = X86.spec_intel_lookup A.GENERIC features nvpu (X86.spec_intel_rows A F) ∧
    ∀ family2 model2 : Nat,
      X86.bli_cpuid_query_id_with b A F (bli_env_check b A arch_string none)
          VENDOR_INTEL family2 model2 features nvpu
        = X86.bli_cpuid_query_id_with b A F (bli_env_check b A arch_string none)
          VENDOR_INTEL family model features nvpu := by
  obtain ⟨h1, h2, h3, h4, h5⟩ := hb
  have key : ∀ fam mod : Nat,
      X86.bli_cpuid_query_id_with b A F (bli_env_check b A arch_string none)
          VENDOR_INTEL fam mod features nvpu
        = X86.spec_intel_lookup A.GENERIC features nvpu (X86.spec_intel_rows A F) := by
    intro fam mod
    rw [X86.unset_match, X86.match_intel]
    simp only [spec_first_match, spec_intel_table, h1, h2, h3, h4, h5, Bool.true_and,
      X86.spec_intel_lookup, X86.spec_intel_rows, X86.IntelRow.row_matches, Bool.not_true,
      Bool.not_false, Bool.false_or, Bool.true_or, Bool.and_true, X86.is_skx_eq, X86.is_knl_eq,
      X86.is_haswell_eq, X86.is_sandybridge_eq, X86.is_penryn_eq]
  exact ⟨key family model, fun family2 model2 => (key family2 model2).trans (key family model).symm⟩

/-- Witness of C30: on the example numbering, the seven SKX flags with one FMA
unit and without AVX512PF match the HASWELL row, whatever family and model
are. -/
theorem intel_table_lookup_witness :
    (sampleBuild.CONFIG_SKX = true ∧ sampleBuild.CONFIG_KNL = true ∧
      sampleBuild.CONFIG_HASWELL = true ∧ sampleBuild.CONFIG_SANDYBRIDGE = true ∧
      sampleBuild.CONFIG_PENRYN = true) ∧
    X86.bli_cpuid_query_id_with sampleBuild sampleArch sampleFlags
      (bli_env_check sampleBuild sampleArch sampleNames none)
      VENDOR_INTEL 6 0x55 0x6370 1 = sampleArch.HASWELL :=
  ⟨by decide,
    (intel_table_lookup sampleBuild sampleArch sampleFlags sampleNames (by decide)
      6 0x55 0x6370 1).1.trans (by decide)⟩

/-! ## The SKU ranges of `vpu_count`: lemmas -/

theorem strstr_first (needle post : List Nat) (hne : needle ≠ []) :
    ∀ pre : List Nat, ¬ occurs_in needle (pre ++ needle.dropLast) →
      strstr (pre ++ needle ++ post) needle = some (needle ++ post) := by
  intro pre
  induction pre with
  | nil =>
    intro _
    cases needle with
    | nil => exact absurd rfl hne
    | cons x t =>
      have hp : (x :: t).isPrefixOf (x :: (t ++ post)) = true := by
        rw [List.isPrefixOf_iff_prefix]
        exact ⟨post, rfl⟩
      have hs : strstr (x :: (t ++ post)) (x :: t) = some (x :: (t ++ post)) := by
        rw [strstr, if_pos hp]
      simpa using hs
  | cons c p ih =>
    intro hno
    have hnp : needle.isPrefixOf (c :: (p ++ needle ++ post)) = false := by
      rw [Bool.eq_false_iff]
      intro hpre
      rw [List.isPrefixOf_iff_prefix] at hpre
      apply hno
      have hsplit : needle = needle.dropLast ++ [needle.getLast hne] :=
        (List.dropLast_append_getLast hne).symm
      have hpre2 : (c :: p ++ needle.dropLast) <+: c :: (p ++ needle ++ post) := by
        refine ⟨[needle.getLast hne] ++ post, ?_⟩
        conv_rhs => rw [hsplit]
        simp
      have hlen : needle.length ≤ (c :: p ++ needle.dropLast).length := by
        have hpos : 0 < needle.length := List.length_pos.mpr hne
        simp only [List.cons_append, List.length_cons, List.length_append,
          List.length_dropLast]
        omega
      obtain ⟨u, hu⟩ := List.prefix_of_prefix_length_le hpre hpre2 hlen
      exact ⟨[], u, by simpa using hu.symm⟩
    have hno' : ¬ occurs_in needle (p ++ needle.dropLast) := by
      intro hocc
      exact hno (occurs_in_append_right needle [c] _ hocc)
    have hs : strstr (c :: (p ++ needle ++ post)) needle
        = strstr (p ++ needle ++ post) needle := by
      rw [strstr, if_neg (by rw [hnp]; decide)]
    have hs' : strstr (c :: p ++ needle ++ post) needle
        = strstr (p ++ needle ++ post) needle := by
      simpa using hs
    rw [hs']
    exact ih hno'

theorem no_char_no_occurrence (c : Nat) (l : List Nat) (h : ∀ x ∈ l, x ≠ c) :
    ¬ occurs_in [c] l := by
  rintro ⟨a, e, hae⟩
  exact h c (by rw [hae]; simp) rfl

theorem X86.four_digits_value (n : Nat) (hn : n < 10000) :
    atoi (X86.four_digits n) = (n : Int) := by
  have h3 : n / 1000 % 10 < 10 := Nat.mod_lt _ (by decide)
  have h2 : n / 100 % 10 < 10 := Nat.mod_lt _ (by decide)
  have h1 : n / 10 % 10 < 10 := Nat.mod_lt _ (by decide)
  have h0 : n % 10 < 10 := Nat.mod_lt _ (by decide)
  have hval : ((n / 1000 % 10 * 10 + n / 100 % 10) * 10 + n / 10 % 10) * 10 + n % 10 = n := by
    omega
  have hsp : isspace (48 + n / 1000 % 10) = false := by
    simp only [isspace, Bool.or_eq_false_iff, beq_eq_false_iff_ne, Bool.and_eq_false_iff,
      decide_eq_false_iff_not]
    omega
  have hdig : ∀ d, d < 10 → (decide (48 ≤ 48 + d) && decide (48 + d ≤ 57)) = true := by
    intro d hd
    simp only [Bool.and_eq_true, decide_eq_true_eq]
    omega
  have hdw : (X86.four_digits n).dropWhile isspace = X86.four_digits n := by
    simp only [X86.four_digits, List.dropWhile, hsp]
  unfold atoi
  rw [hdw]
  simp only [X86.four_digits]
  split
  · next heq =>
    simp only [List.cons.injEq] at heq
    omega
  · next heq =>
    simp only [List.cons.injEq] at heq
    omega
  · simp only [decimal_value, hdig _ h3, hdig _ h2, hdig _ h1, hdig _ h0, if_true,
      Nat.add_sub_cancel_left, Nat.zero_mul, Nat.zero_add]
    exact congrArg Int.ofNat hval

theorem X86.spec_sku_units_eq (n : Nat) :
    X86.spec_sku_units n
      = if (8100 ≤ n ∧ n ≤ 8199) ∨ (6100 ≤ n ∧ n ≤ 6299) ∨ (3200 ≤ n ∧ n ≤ 3299) ∨
            (2200 ≤ n ∧ n ≤ 2299) ∨ (2120 ≤ n ∧ n ≤ 2199) ∨ n = 5122 ∨ n = 2102 ∨ n = 2104
        then 2
        else if (5100 ≤ n ∧ n ≤ 5299) ∨ (4100 ≤ n ∧ n ≤ 4199) ∨ (3100 ≤ n ∧ n ≤ 3199) ∨
            (2100 ≤ n ∧ n ≤ 2119) then 1
        else -1 := by
  simp only [X86.spec_sku_units, X86.spec_two_unit_ranges, X86.spec_two_unit_exceptions,
    X86.spec_one_unit_ranges, List.any_cons, List.any_nil, Bool.or_false, List.contains_cons,
    List.contains_nil, Bool.or_eq_true, Bool.and_eq_true, decide_eq_true_eq,
    beq_iff_eq, or_assoc]

theorem X86.sku_units_spec (n : Nat) : X86.sku_units (n : Int) = X86.spec_sku_units n := by
  rw [X86.spec_sku_units_eq]
  unfold X86.sku_units
  repeat' (first | rfl | split | omega)

theorem X86.vpu_count_sku_gold (mid rest : List Nat) (n : Nat) (hn : n < 10000)
    (hmid : ∀ c ∈ mid, c ≠ 32) :
    X86.vpu_count_sku (ascii "Gold" ++ mid ++ 32 :: X86.four_digits n ++ rest)
      = X86.spec_sku_units n := by
  have hgold : ascii "Gold" = [71, 111, 108, 100] := by decide
  have hsp : ascii " " = [32] := by decide
  have hold : ∀ x ∈ [111, 108, 100] ++ mid ++ ([32] : List Nat).dropLast, x ≠ 32 := by
    intro x hx
    simp only [List.dropLast, List.append_nil, List.mem_append, List.mem_cons,
      List.mem_singleton, List.not_mem_nil, or_false] at hx
    rcases hx with (h | h | h) | h
    · omega
    · omega
    · omega
    · exact hmid x h
  have hfirst := strstr_first [32] (X86.four_digits n ++ rest) (by simp)
    ([111, 108, 100] ++ mid) (no_char_no_occurrence 32 _ hold)
  have htail : (ascii "Gold" ++ mid ++ 32 :: X86.four_digits n ++ rest).tail
      = ([111, 108, 100] ++ mid) ++ [32] ++ (X86.four_digits n ++ rest) := by
    rw [hgold]
    simp
  have hhead : (ascii "Gold" ++ mid ++ 32 :: X86.four_digits n ++ rest).headD 0 = 71 := by
    rw [hgold]
    rfl
  have htake : (X86.four_digits n ++ rest).take 4 = X86.four_digits n := by
    simp [X86.four_digits]
  have hstr : strstr (ascii "Gold" ++ mid ++ 32 :: X86.four_digits n ++ rest).tail (ascii " ")
      = some (32 :: (X86.four_digits n ++ rest)) := by
    rw [htail, hsp]
    exact hfirst
  have hcond : ¬ ('W'.toNat = (ascii "Gold" ++ mid ++ 32 :: X86.four_digits n ++ rest).headD 0 ∧
      '-'.toNat = (ascii "Gold" ++ mid ++ 32 :: X86.four_digits n ++ rest).tail.headD 0) := by
    rw [hhead]
    intro h
    exact absurd h.1 (by decide)
  unfold X86.vpu_count_sku
  simp only [hcond, if_false, hstr, List.tail_cons, htake, X86.four_digits_value n hn,
    X86.sku_units_spec]

theorem X86.vpu_count_sku_w (rest : List Nat) (n : Nat) (hn : n < 10000) :
    X86.vpu_count_sku (ascii "W-" ++ X86.four_digits n ++ rest) = X86.spec_sku_units n := by
  have hw : ascii "W-" = [87, 45] := by decide
  have htake : (X86.four_digits n ++ rest).take 4 = X86.four_digits n := by
    simp [X86.four_digits]
  have hW : 'W'.toNat = 87 ∧ '-'.toNat = 45 := by decide
  unfold X86.vpu_count_sku
  rw [hw]
  simp only [List.cons_append, List.nil_append, List.headD_cons, List.tail_cons, hW, and_self,
    if_true, htake, X86.four_digits_value n hn, X86.sku_units_spec]

/-! ## The SKU ranges of `vpu_count` and the ARMv7 matcher: results -/

/-- C31: for every brand string that contains `Intel(R) Xeon(R)` and not
`Platinum`, and whose tier marker is `Gold` (its first occurrence) followed
after the next space by the four decimal digits of `n`, or is `W-` followed at
once by the four digits of `n` (the string then having none of `Gold`,
`Silver`, `Bronze`, and no `W` before that one, so that the search reaches
it), `vpu_count` returns 2 if `n` is in 8100-8199, 6100-6299,
3200-3299, 2200-2299, 2120-2199 or is one of 5122, 2102, 2104; 1 if `n` is
in 5100-5299 other than 5122, in 4100-4199, in 3100-3199, or in 2100-2119
other than 2102 and 2104; and -1 for every other `n`. -/
theorem sku_ranges (cpu_name : List Nat) (n : Nat) (hn : n < 10000)
    (hx : occurs_in (ascii "Intel(R) Xeon(R)") cpu_name)
    (hp : ¬ occurs_in (ascii "Platinum") cpu_name)
    (hmark :
      (∃ pre mid rest,
        cpu_name = pre ++ ascii "Gold" ++ (mid ++ 32 :: X86.four_digits n ++ rest) ∧
        ¬ occurs_in (ascii "Gold") (pre ++ ascii "Gol") ∧ ∀ c ∈ mid, c ≠ 32) ∨
      (¬ occurs_in (ascii "Gold") cpu_name ∧ ¬ occurs_in (ascii "Silver") cpu_name ∧
        ¬ occurs_in (ascii "Bronze") cpu_name ∧
        ∃ pre rest, cpu_name = pre ++ ascii "W" ++ (ascii "-" ++ X86.four_digits n ++ rest) ∧
          ¬ occurs_in (ascii "W") pre)) :
    X86.vpu_count cpu_name = X86.spec_sku_units n := by
  have hxs := (strstr_isSome_iff cpu_name _).2 hx
  have hps := (strstr_eq_none_iff cpu_name _).2 hp
  rcases hmark with ⟨pre, mid, rest, hname, hfirst, hmid⟩ | ⟨hg, hs, hb, pre, rest, hname, hfirst⟩
  · have hgold : strstr cpu_name (ascii "Gold")
        = some (ascii "Gold" ++ (mid ++ 32 :: X86.four_digits n ++ rest)) := by
      rw [hname]
      exact strstr_first (ascii "Gold") _ (by decide) pre hfirst
    simp only [X86.vpu_count, hxs, if_true, hps, hgold]
    have := X86.vpu_count_sku_gold mid rest n hn hmid
    simpa using this
  · have hgs := (strstr_eq_none_iff cpu_name _).2 hg
    have hss := (strstr_eq_none_iff cpu_name _).2 hs
    have hbs := (strstr_eq_none_iff cpu_name _).2 hb
    have hW : strstr cpu_name (ascii "W")
        = some (ascii "W" ++ (ascii "-" ++ X86.four_digits n ++ rest)) := by
      rw [hname]
      exact strstr_first (ascii "W") _ (by decide) pre (by simpa [ascii] using hfirst)
    simp only [X86.vpu_count, hxs, if_true, hps, hgs, hss, hbs, hW]
    have := X86.vpu_count_sku_w rest n hn
    simpa using this

/-- Witness of C31: `Intel(R) Xeon(R) Gold 5122 CPU` has two units although
5100-5299 gives one, `Intel(R) Xeon(R) Gold 5120 CPU` has one, and
`Intel(R) Xeon(R) W-2104 CPU` has two although 2100-2119 gives one. -/
theorem sku_ranges_witness :
    X86.spec_sku_units 5122 = 2 ∧ X86.spec_sku_units 5120 = 1 ∧ X86.spec_sku_units 2104 = 2 ∧
    X86.spec_sku_units 2103 = 1 ∧ X86.spec_sku_units 7000 = -1 ∧
    X86.vpu_count (ascii "Intel(R) Xeon(R) W-2104 CPU") = 2 ∧
    X86.vpu_count (ascii "Intel(R) Xeon(R) Gold 5122 CPU") = 2 :=
  ⟨by decide, by decide, by decide, by decide, by decide, by decide,
    (sku_ranges (ascii "Intel(R) Xeon(R) Gold 5122 CPU") 5122 (by decide)
      ⟨[], ascii " Gold 5122 CPU", rfl⟩
      ((strstr_eq_none_iff _ _).1 (by decide))
      (Or.inl ⟨ascii "Intel(R) Xeon(R) ", [], ascii " CPU", by decide,
        (strstr_eq_none_iff _ _).1 (by decide), by decide⟩)).trans (by decide)⟩

/-- C32: on the ARM matcher with no override, both ARMv7 sub-configurations
enabled and `model = MODEL_ARMV7`, the result is CORTEXA15 if `part = 0xc0f`
and `FEATURE_NEON` is set, else CORTEXA9 if `part = 0xc09` and `FEATURE_NEON`
is set, else GENERIC; without `FEATURE_NEON` it is GENERIC, for part 0xc09 as
for every other part; and when the three ids are distinct the result is
CORTEXA15 only for part 0xc0f with NEON and CORTEXA9 only for part 0xc09 with
NEON. -/
theorem armv7_matcher (b : Build) (A : ArchIds) (NEON : Nat) (arch_string : Nat → String)
    (part features : Nat)
    (h15 : b.CONFIG_CORTEXA15 = true) (h9 : b.CONFIG_CORTEXA9 = true) :
    Arm.bli_cpuid_query_id_with b A NEON (bli_env_check b A arch_string none)
        VENDOR_ARM MODEL_ARMV7 part features
      = (if bli_cpuid_has_features features NEON = true ∧ part = 0xc0f then A.CORTEXA15
        else if bli_cpuid_has_features features NEON = true ∧ part = 0xc09 then A.CORTEXA9
        else A.GENERIC) ∧
    (bli_cpuid_has_features features NEON = false →
      Arm.bli_cpuid_query_id_with b A NEON (bli_env_check b A arch_string none)
        VENDOR_ARM MODEL_ARMV7 part features = A.GENERIC) ∧
    (A.CORTEXA15 ≠ A.CORTEXA9 → A.CORTEXA15 ≠ A.GENERIC → A.CORTEXA9 ≠ A.GENERIC →
      (Arm.bli_cpuid_query_id_with b A NEON (bli_env_check b A arch_string none)
          VENDOR_ARM MODEL_ARMV7 part features = A.CORTEXA15 ↔
        (part = 0xc0f ∧ bli_cpuid_has_features features NEON = true)) ∧
      (Arm.bli_cpuid_query_id_with b A NEON (bli_env_check b A arch_string none)
          VENDOR_ARM MODEL_ARMV7 part features = A.CORTEXA9 ↔
        (part = 0xc09 ∧ bli_cpuid_has_features features NEON = true))) := by
  have hmain : Arm.bli_cpuid_query_id_with b A NEON (bli_env_check b A arch_string none)
        VENDOR_ARM MODEL_ARMV7 part features
      = (if bli_cpuid_has_features features NEON = true ∧ part = 0xc0f then A.CORTEXA15
        else if bli_cpuid_has_features features NEON = true ∧ part = 0xc09 then A.CORTEXA9
        else A.GENERIC) := by
    simp only [Arm.bli_cpuid_query_id_with, bli_env_check_none, Arm.arm_override_minus_one,
      Arm.bli_cpuid_query_id_match, h15, h9, Arm.bli_cpuid_is_cortexa15,
      Arm.bli_cpuid_is_cortexa9, Bool.true_and, Bool.and_eq_true, beq_iff_eq, if_true]
    simp
  refine ⟨hmain, ?_, ?_⟩
  · intro hno
    rw [hmain]
    simp [hno]
  · intro d1 d2 d3
    rw [hmain]
    constructor
    · constructor
      · intro h
        split_ifs at h with c1 c2
        · exact ⟨c1.2, c1.1⟩
        · exact absurd h.symm d1
        · exact absurd h.symm d2
      · rintro ⟨hp, hf⟩
        simp [hp, hf]
    · constructor
      · intro h
        split_ifs at h with c1 c2
        · exact absurd h d1
        · exact ⟨c2.2, c2.1⟩
        · exact absurd h.symm d3
      · rintro ⟨hp, hf⟩
        simp [hp, hf]

/-- Witness of C32: on the example numbering, part 0xc09 with NEON is
CORTEXA9, and part 0xc09 without NEON is GENERIC. -/
theorem armv7_matcher_witness :
    (sampleBuild.CONFIG_CORTEXA15 = true ∧ sampleBuild.CONFIG_CORTEXA9 = true) ∧
    Arm.bli_cpuid_query_id_with sampleBuild sampleArch 1
      (bli_env_check sampleBuild sampleArch sampleNames none)
      VENDOR_ARM MODEL_ARMV7 0xc09 1 = sampleArch.CORTEXA9 ∧
    Arm.bli_cpuid_query_id_with sampleBuild sampleArch 1
      (bli_env_check sampleBuild sampleArch sampleNames none)
      VENDOR_ARM MODEL_ARMV7 0xc09 0 = sampleArch.GENERIC :=
  ⟨⟨by decide, by decide⟩,
    (armv7_matcher sampleBuild sampleArch 1 sampleNames 0xc09 1 (by decide) (by decide)).1.trans
      (by decide),
    (armv7_matcher sampleBuild sampleArch 1 sampleNames 0xc09 0 (by decide) (by decide)).2.1
      (by decide)⟩

/-! ## The gating as a frame, the decoder bounds and the AMD table: lemmas -/

theorem X86.clear_flags_sub (y m x : Nat) (h : y &&& x = y) :
    X86.clear_flags y m &&& x = X86.clear_flags y m := by
  apply Nat.eq_of_testBit_eq
  intro i
  have hi := congrArg (fun k => Nat.testBit k i) h
  simp only [Nat.testBit_and] at hi
  simp only [X86.clear_flags, Nat.testBit_and]
  revert hi
  cases y.testBit i <;> cases x.testBit i <;> simp

theorem X86.os_gating_sub (F : FeatureFlags) (ecx xcr0 x : Nat) :
    X86.os_gating F ecx xcr0 x &&& x = X86.os_gating F ecx xcr0 x := by
  have h0 : x &&& x = x := Nat.and_self x
  have h1 := fun m => X86.clear_flags_sub x m x h0
  have h2 := fun m m2 => X86.clear_flags_sub (X86.clear_flags x m) m2 x (h1 m)
  simp only [X86.os_gating, X86.xgetbv_gating]
  split_ifs <;>
    first
    | exact Nat.zero_and x
    | exact h0
    | exact h1 _
    | exact h2 _ _

theorem X86.clear_flags_has (x m a : Nat) (ha : a < 2 ^ 32) (hd : a &&& m = 0) :
    bli_cpuid_has_features (X86.clear_flags x m) a = bli_cpuid_has_features x a := by
  have key : X86.clear_flags x m &&& a = x &&& a := by
    apply Nat.eq_of_testBit_eq
    intro i
    have hi := congrArg (fun k => Nat.testBit k i) hd
    have hb := testBit_below a i ha
    simp only [Nat.testBit_and, Nat.zero_testBit] at hi
    simp only [X86.clear_flags, Nat.testBit_and, Nat.testBit_xor, Nat.testBit_two_pow_sub_one,
      Nat.testBit_mod_two_pow]
    revert hi hb
    cases x.testBit i <;> cases m.testBit i <;> cases a.testBit i <;>
      cases decide (i < 32) <;> simp
  simp only [bli_cpuid_has_features, key]

theorem and_or_eq_zero (a b c : Nat) : a &&& (b ||| c) = 0 ↔ a &&& b = 0 ∧ a &&& c = 0 := by
  constructor
  · intro h
    constructor <;>
    · apply Nat.eq_of_testBit_eq
      intro i
      have hi := congrArg (fun k => Nat.testBit k i) h
      simp only [Nat.testBit_and, Nat.testBit_or, Nat.zero_testBit] at hi ⊢
      revert hi
      cases a.testBit i <;> cases b.testBit i <;> cases c.testBit i <;> simp
  · rintro ⟨hb, hc⟩
    apply Nat.eq_of_testBit_eq
    intro i
    have hbi := congrArg (fun k => Nat.testBit k i) hb
    have hci := congrArg (fun k => Nat.testBit k i) hc
    simp only [Nat.testBit_and, Nat.testBit_or, Nat.zero_testBit] at hbi hci ⊢
    revert hbi hci
    cases a.testBit i <;> cases b.testBit i <;> cases c.testBit i <;> simp

theorem pairwise_disjoint_split (pre post : List Nat) (a : Nat)
    (h : (pre ++ a :: post).Pairwise (fun x y => x &&& y = 0)) :
    ∀ c ∈ pre ++ post, a &&& c = 0 := by
  rw [List.pairwise_append] at h
  obtain ⟨-, hpost, hcross⟩ := h
  rw [List.pairwise_cons] at hpost
  intro c hc
  rcases List.mem_append.mp hc with hc | hc
  · rw [Nat.land_comm]
    exact hcross c hc a (List.mem_cons_self a post)
  · exact hpost.1 c hc

theorem X86.xgetbv_gating_keeps (F : FeatureFlags) (xcr0 x a : Nat) (ha : a < 2 ^ 32)
    (h512 : a &&& (F.AVX512F ||| F.AVX512DQ ||| F.AVX512PF ||| F.AVX512ER ||| F.AVX512CD |||
      F.AVX512BW ||| F.AVX512VL) = 0)
    (hwide : a &&& (F.AVX ||| F.AVX2 ||| F.FMA3 ||| F.FMA4) = 0)
    (h1 : xcr0.testBit 1 = true) :
    bli_cpuid_has_features (X86.xgetbv_gating F xcr0 x) a = bli_cpuid_has_features x a := by
  have hm : bli_cpuid_has_features xcr0 X86.XGETBV_MASK_XMM = true := by
    have h : X86.XGETBV_MASK_XMM = 2 ^ 1 := by decide
    rw [h, has_features_two_pow, h1]
  simp only [X86.xgetbv_gating, hm, Bool.not_true, Bool.false_eq_true, if_false]
  split_ifs <;>
    first
    | rfl
    | rw [X86.clear_flags_has _ _ a ha hwide, X86.clear_flags_has _ _ a ha h512]
    | rw [X86.clear_flags_has _ _ a ha h512]
    | rw [X86.clear_flags_has _ _ a ha hwide]

theorem X86.sse_flag_disjoint (F : FeatureFlags) (pre post : List Nat) (a : Nat)
    (hlist : X86.feature_flag_list F = pre ++ a :: post)
    (hpw : (X86.feature_flag_list F).Pairwise (fun x y => x &&& y = 0))
    (h512 : ∀ c ∈ [F.AVX512F, F.AVX512DQ, F.AVX512PF, F.AVX512ER, F.AVX512CD, F.AVX512BW,
      F.AVX512VL], c ∈ pre ++ post)
    (hwide : ∀ c ∈ [F.AVX, F.AVX2, F.FMA3, F.FMA4], c ∈ pre ++ post) :
    a &&& (F.AVX512F ||| F.AVX512DQ ||| F.AVX512PF ||| F.AVX512ER ||| F.AVX512CD |||
      F.AVX512BW ||| F.AVX512VL) = 0 ∧
    a &&& (F.AVX ||| F.AVX2 ||| F.FMA3 ||| F.FMA4) = 0 := by
  rw [hlist] at hpw
  have hd := pairwise_disjoint_split pre post a hpw
  simp only [and_or_eq_zero]
  exact ⟨⟨⟨⟨⟨⟨⟨hd _ (h512 _ (by simp)), hd _ (h512 _ (by simp))⟩, hd _ (h512 _ (by simp))⟩,
    hd _ (h512 _ (by simp))⟩, hd _ (h512 _ (by simp))⟩, hd _ (h512 _ (by simp))⟩,
    hd _ (h512 _ (by simp))⟩,
    ⟨⟨⟨hd _ (hwide _ (by simp)), hd _ (hwide _ (by simp))⟩, hd _ (hwide _ (by simp))⟩,
      hd _ (hwide _ (by simp))⟩⟩

theorem X86.model_family_bounds (eax : Nat) :
    (X86.model_family eax).1 ≤ 0xff ∧ (X86.model_family eax).2 ≤ 0x10e := by
  rw [X86.model_family_fields]
  have h1 : eax / 2 ^ 16 % 2 ^ 4 < 2 ^ 4 := Nat.mod_lt _ (by decide)
  have h2 : eax / 2 ^ 4 % 2 ^ 4 < 2 ^ 4 := Nat.mod_lt _ (by decide)
  have h3 : eax / 2 ^ 8 % 2 ^ 4 < 2 ^ 4 := Nat.mod_lt _ (by decide)
  have h4 : eax / 2 ^ 20 % 2 ^ 8 < 2 ^ 8 := Nat.mod_lt _ (by decide)
  split_ifs <;> constructor <;> simp only <;> omega

theorem spec_first_match_skip (G family model features : Nat) (nvpu : Int)
    (pre rest : List Signature)
    (h : ∀ e ∈ pre, (e.enabled && e.pred family model features nvpu) = false) :
    spec_first_match G family model features nvpu (pre ++ rest)
      = spec_first_match G family model features nvpu rest := by
  induction pre with
  | nil => rfl
  | cons e pre ih =>
    simp only [List.cons_append, spec_first_match, h e (List.mem_cons_self e pre),
      Bool.false_eq_true, if_false]
    exact ih (fun e' he' => h e' (List.mem_cons_of_mem e he'))

theorem spec_first_match_hit (G family model features : Nat) (nvpu : Int)
    (e : Signature) (rest : List Signature)
    (h : (e.enabled && e.pred family model features nvpu) = true) :
    spec_first_match G family model features nvpu (e :: rest) = e.id := by
  simp only [spec_first_match, h, if_true]

theorem spec_first_match_drop (G family model features : Nat) (nvpu : Int)
    (e : Signature) (rest : List Signature)
    (h : (e.enabled && e.pred family model features nvpu) = false) :
    spec_first_match G family model features nvpu (e :: rest)
      = spec_first_match G family model features nvpu rest := by
  simp only [spec_first_match, h, Bool.false_eq_true, if_false]

theorem spec_first_match_unique (G family model features : Nat) (nvpu : Int) (v : Nat)
    (tbl : List Signature)
    (hid : ∀ e ∈ tbl, (e.enabled && e.pred family model features nvpu) = true → e.id = v)
    (hex : ∃ e ∈ tbl, (e.enabled && e.pred family model features nvpu) = true) :
    spec_first_match G family model features nvpu tbl = v := by
  induction tbl with
  | nil =>
    obtain ⟨e, he, -⟩ := hex
    simp at he
  | cons e0 rest ih =>
    cases h0 : (e0.enabled && e0.pred family model features nvpu) with
    | true =>
      rw [spec_first_match_hit G family model features nvpu e0 rest h0]
      exact hid e0 (List.mem_cons_self e0 rest) h0
    | false =>
      rw [spec_first_match_drop G family model features nvpu e0 rest h0]
      apply ih (fun e he => hid e (List.mem_cons_of_mem e0 he))
      obtain ⟨e, he, hf⟩ := hex
      rcases List.mem_cons.mp he with h | h
      · rw [h, h0] at hf
        exact absurd hf (by decide)
      · exact ⟨e, h, hf⟩

theorem spec_first_match_perm (G family model features : Nat) (nvpu : Int)
    (l1 l2 : List Signature) (hperm : l1.Perm l2)
    (huniq : ∀ e1 ∈ l2, ∀ e2 ∈ l2,
      (e1.enabled && e1.pred family model features nvpu) = true →
      (e2.enabled && e2.pred family model features nvpu) = true → e1.id = e2.id) :
    spec_first_match G family model features nvpu l1
      = spec_first_match G family model features nvpu l2 := by
  by_cases hex : ∃ e ∈ l2, (e.enabled && e.pred family model features nvpu) = true
  · obtain ⟨e, he, hf⟩ := hex
    rw [spec_first_match_unique G family model features nvpu e.id l2
        (fun e' he' hf' => huniq e' he' e he hf' hf) ⟨e, he, hf⟩,
      spec_first_match_unique G family model features nvpu e.id l1
        (fun e' he' hf' => huniq e' (hperm.mem_iff.1 he') e he hf' hf)
        ⟨e, hperm.mem_iff.2 he, hf⟩]
  · have hnone : ∀ e ∈ l2, (e.enabled && e.pred family model features nvpu) = false := by
      intro e he
      cases hf : (e.enabled && e.pred family model features nvpu) with
      | false => rfl
      | true => exact absurd ⟨e, he, hf⟩ hex
    have h2 := spec_first_match_skip G family model features nvpu l2 [] hnone
    have h1 := spec_first_match_skip G family model features nvpu l1 []
      (fun e he => hnone e (hperm.mem_iff.1 he))
    simp only [List.append_nil] at h1 h2
    rw [h1, h2]

theorem Arm32.query_of_lines (NEON fuel : Nat) (cpuinfo lp lq lf : List Nat)
    (hnul : ∀ c ∈ cpuinfo, c ≠ 0)
    (hlen : ∀ l ∈ file_lines cpuinfo, (line_text l).length < 198)
    (hp : first_line_with (ascii "Processor") cpuinfo = some lp)
    (hq : first_line_with (ascii "CPU part") cpuinfo = some lq)
    (hf : first_line_with (ascii "Features") cpuinfo = some lf)
    (hfuel : cpuinfo.length < fuel) :
    Arm32.bli_cpuid_query NEON fuel cpuinfo
      = some ⟨VENDOR_ARM,
          (if (strstr lp (ascii "ARMv7")).isSome then MODEL_ARMV7
            else if (strstr lp (ascii "AArch64")).isSome ∨
              (strstr lp (ascii "ARMv8")).isSome then MODEL_ARMV8
            else MODEL_UNKNOWN),
          (match strstr lq (ascii "0x") with
            | some r_val => (strtol16 r_val % 2 ^ 32).toNat
            | none => 0),
          (if (strstr lf (ascii "neon")).isSome ∨ (strstr lf (ascii "asimd")).isSome
            then (0 ||| NEON) % 2 ^ 32 else 0)⟩ := by
  obtain ⟨rp, h1⟩ := find_string_in_lines fuel _ cpuinfo lp hnul hlen hp hfuel
  obtain ⟨rq, h2⟩ := find_string_in_lines fuel _ cpuinfo lq hnul hlen hq hfuel
  obtain ⟨rf, h3⟩ := find_string_in_lines fuel _ cpuinfo lf hnul hlen hf hfuel
  simp only [Arm32.bli_cpuid_query, h1, h2, h3]

theorem spec_first_match_remove (G family model features : Nat) (nvpu : Int)
    (e : Signature) (pre rest : List Signature)
    (h : (e.enabled && e.pred family model features nvpu) = false) :
    spec_first_match G family model features nvpu (pre ++ e :: rest)
      = spec_first_match G family model features nvpu (pre ++ rest) := by
  induction pre with
  | nil => exact spec_first_match_drop G family model features nvpu e rest h
  | cons e0 pre ih =>
    cases h0 : (e0.enabled && e0.pred family model features nvpu) with
    | true =>
      rw [List.cons_append, List.cons_append,
        spec_first_match_hit G family model features nvpu e0 _ h0,
        spec_first_match_hit G family model features nvpu e0 _ h0]
    | false =>
      rw [List.cons_append, List.cons_append,
        spec_first_match_drop G family model features nvpu e0 _ h0,
        spec_first_match_drop G family model features nvpu e0 _ h0]
      exact ih

theorem spec_first_match_order (G family model features : Nat) (nvpu : Int)
    (z2 z : Signature) (others a c d : List Signature)
    (hperm : (a ++ c ++ d).Perm others)
    (hz2 : (z2.enabled && z2.pred family model features nvpu) = true →
      ∀ e ∈ others, (e.enabled && e.pred family model features nvpu) = false)
    (hz : (z.enabled && z.pred family model features nvpu) = true →
      ∀ e ∈ others, (e.enabled && e.pred family model features nvpu) = false)
    (huniq : ∀ e1 ∈ others, ∀ e2 ∈ others,
      (e1.enabled && e1.pred family model features nvpu) = true →
      (e2.enabled && e2.pred family model features nvpu) = true → e1.id = e2.id) :
    spec_first_match G family model features nvpu (a ++ z2 :: (c ++ z :: d))
      = spec_first_match G family model features nvpu (z2 :: z :: others) := by
  have ha : ∀ e ∈ a, e ∈ others := fun e he =>
    hperm.mem_iff.1 (List.mem_append_left d (List.mem_append_left c he))
  have hc : ∀ e ∈ c, e ∈ others := fun e he =>
    hperm.mem_iff.1 (List.mem_append_left d (List.mem_append_right a he))
  cases h2 : (z2.enabled && z2.pred family model features nvpu) with
  | true =>
    have hn := hz2 h2
    rw [spec_first_match_skip G family model features nvpu a _ (fun e he => hn e (ha e he)),
      spec_first_match_hit G family model features nvpu z2 _ h2,
      spec_first_match_hit G family model features nvpu z2 _ h2]
  | false =>
    cases h1 : (z.enabled && z.pred family model features nvpu) with
    | true =>
      have hn := hz h1
      rw [spec_first_match_skip G family model features nvpu a _ (fun e he => hn e (ha e he)),
        spec_first_match_drop G family model features nvpu z2 _ h2,
        spec_first_match_skip G family model features nvpu c _ (fun e he => hn e (hc e he)),
        spec_first_match_hit G family model features nvpu z _ h1,
        spec_first_match_drop G family model features nvpu z2 _ h2,
        spec_first_match_hit G family model features nvpu z _ h1]
    | false =>
      rw [spec_first_match_remove G family model features nvpu z2 a _ h2,
        ← List.append_assoc,
        spec_first_match_remove G family model features nvpu z (a ++ c) d h1,
        spec_first_match_drop G family model features nvpu z2 _ h2,
        spec_first_match_drop G family model features nvpu z _ h1]
      exact spec_first_match_perm G family model features nvpu _ _ hperm huniq

theorem X86.family_15_disjoint (F : FeatureFlags) (family model features : Nat) :
    (X86.bli_cpuid_is_excavator F family model features &&
      X86.bli_cpuid_is_steamroller F family model features) = false ∧
    (X86.bli_cpuid_is_excavator F family model features &&
      X86.bli_cpuid_is_piledriver F family model features) = false ∧
    (X86.bli_cpuid_is_excavator F family model features &&
      X86.bli_cpuid_is_bulldozer F family model features) = false ∧
    (X86.bli_cpuid_is_steamroller F family model features &&
      X86.bli_cpuid_is_piledriver F family model features) = false ∧
    (X86.bli_cpuid_is_steamroller F family model features &&
      X86.bli_cpuid_is_bulldozer F family model features) = false ∧
    (X86.bli_cpuid_is_piledriver F family model features &&
      X86.bli_cpuid_is_bulldozer F family model features) = false := by
  simp only [X86.is_excavator_eq, X86.is_steamroller_eq, X86.is_piledriver_eq,
    X86.is_bulldozer_eq]
  refine ⟨?_, ?_, ?_, ?_, ?_, ?_⟩ <;>
  · rw [Bool.eq_false_iff]
    intro h
    simp only [Bool.and_eq_true, Bool.or_eq_true, beq_iff_eq, decide_eq_true_eq] at h
    omega

theorem X86.family_17_disjoint (F : FeatureFlags) (family model features : Nat) :
    (X86.bli_cpuid_is_zen F family model features &&
      X86.bli_cpuid_is_excavator F family model features) = false ∧
    (X86.bli_cpuid_is_zen F family model features &&
      X86.bli_cpuid_is_steamroller F family model features) = false ∧
    (X86.bli_cpuid_is_zen F family model features &&
      X86.bli_cpuid_is_piledriver F family model features) = false ∧
    (X86.bli_cpuid_is_zen F family model features &&
      X86.bli_cpuid_is_bulldozer F family model features) = false ∧
    (X86.bli_cpuid_is_zen2 F family model features &&
      X86.bli_cpuid_is_excavator F family model features) = false ∧
    (X86.bli_cpuid_is_zen2 F family model features &&
      X86.bli_cpuid_is_steamroller F family model features) = false ∧
    (X86.bli_cpuid_is_zen2 F family model features &&
      X86.bli_cpuid_is_piledriver F family model features) = false ∧
    (X86.bli_cpuid_is_zen2 F family model features &&
      X86.bli_cpuid_is_bulldozer F family model features) = false := by
  simp only [X86.is_zen2_eq, X86.is_zen_eq, X86.is_excavator_eq, X86.is_steamroller_eq,
    X86.is_piledriver_eq, X86.is_bulldozer_eq]
  refine ⟨?_, ?_, ?_, ?_, ?_, ?_, ?_, ?_⟩ <;>
  · rw [Bool.eq_false_iff]
    intro h
    simp only [Bool.and_eq_true, Bool.or_eq_true, beq_iff_eq, decide_eq_true_eq] at h
    omega

theorem X86.zen2_is_zen (F : FeatureFlags) (family model features : Nat)
    (h : X86.bli_cpuid_is_zen2 F family model features = true) :
    X86.bli_cpuid_is_zen F family model features = true := by
  rw [X86.is_zen2_eq] at h
  rw [X86.is_zen_eq]
  simp only [Bool.and_eq_true, beq_iff_eq, decide_eq_true_eq] at h ⊢
  exact ⟨h.1, by omega, h.2.2⟩

/-! ## The gating as a frame, the decoder bounds, the AMD table and the ARMv8 part: results -/

/-- C33: the OS-enablement gating of the x86 `bli_cpuid_query` only clears
flags.  For every raw input the final mask is a subset of the mask before the
gating; when the gating is reached (leaf 1 exists) and `xcr0` has bits 1, 2,
5, 6 and 7, the final mask equals the mask before the gating; and when `xcr0`
has bit 1 and not bit 2, the SSE3, SSSE3, SSE41 and SSE42 flags keep the value
they had before the gating, the `FEATURE_*` enumerators being independent
flags of a 32-bit mask. -/
theorem gating_only_clears (F : FeatureFlags) (r : X86.CpuidRegs) :
    (X86.bli_cpuid_query F r).features &&& X86.normalized_features F r
      = (X86.bli_cpuid_query F r).features ∧
    (1 ≤ r.cpuid_max → r.xcr0.testBit 1 = true → r.xcr0.testBit 2 = true →
      r.xcr0.testBit 5 = true → r.xcr0.testBit 6 = true → r.xcr0.testBit 7 = true →
      (X86.bli_cpuid_query F r).features = X86.normalized_features F r) ∧
    (X86.independent_flags F → 1 ≤ r.cpuid_max →
      r.xcr0.testBit 1 = true → r.xcr0.testBit 2 = false →
      bli_cpuid_has_features (X86.bli_cpuid_query F r).features F.SSE3
        = bli_cpuid_has_features (X86.normalized_features F r) F.SSE3 ∧
      bli_cpuid_has_features (X86.bli_cpuid_query F r).features F.SSSE3
        = bli_cpuid_has_features (X86.normalized_features F r) F.SSSE3 ∧
      bli_cpuid_has_features (X86.bli_cpuid_query F r).features F.SSE41
        = bli_cpuid_has_features (X86.normalized_features F r) F.SSE41 ∧
      bli_cpuid_has_features (X86.bli_cpuid_query F r).features F.SSE42
        = bli_cpuid_has_features (X86.normalized_features F r) F.SSE42) := by
  refine ⟨?_, ?_, ?_⟩
  · by_cases h : r.cpuid_max < 1
    · rw [X86.query_no_cpuid F r h]
      exact Nat.zero_and _
    · rw [X86.query_features F r h]
      exact X86.os_gating_sub F _ _ _
  · intro hmax h1 h2 h5 h6 h7
    rw [X86.query_features F r (by omega)]
    have ha : bli_cpuid_has_features r.xcr0
        (X86.XGETBV_MASK_XMM ||| X86.XGETBV_MASK_YMM ||| X86.XGETBV_MASK_ZMM) = true := by
      rw [X86.has_xmm_ymm_zmm, h1, h2, h5, h6, h7]
      rfl
    have hb : bli_cpuid_has_features r.xcr0 (X86.XGETBV_MASK_XMM ||| X86.XGETBV_MASK_YMM)
        = true := by
      rw [X86.has_xmm_ymm, h1, h2]
      rfl
    have hc : bli_cpuid_has_features r.xcr0 X86.XGETBV_MASK_XMM = true := by
      have h : X86.XGETBV_MASK_XMM = 2 ^ 1 := by decide
      rw [h, has_features_two_pow, h1]
    simp only [X86.os_gating, X86.xgetbv_gating, ha, hb, hc, Bool.not_true, Bool.false_eq_true,
      if_false, ite_self]
  · intro hind hmax h1 h2
    obtain ⟨hpw, hb⟩ := hind
    rw [X86.query_features F r (by omega)]
    have keep : ∀ a, a < 2 ^ 32 →
        a &&& (F.AVX512F ||| F.AVX512DQ ||| F.AVX512PF ||| F.AVX512ER ||| F.AVX512CD |||
          F.AVX512BW ||| F.AVX512VL) = 0 ∧
        a &&& (F.AVX ||| F.AVX2 ||| F.FMA3 ||| F.FMA4) = 0 →
        bli_cpuid_has_features
            (X86.os_gating F r.leaf1_ecx r.xcr0 (X86.normalized_features F r)) a
          = bli_cpuid_has_features (X86.normalized_features F r) a := by
      intro a ha hd
      unfold X86.os_gating
      split
      · exact X86.xgetbv_gating_keeps F r.xcr0 _ a ha hd.1 hd.2 h1
      · rfl
    refine ⟨keep F.SSE3 (hb _ (by simp [X86.feature_flag_list])).2 ?_,
      keep F.SSSE3 (hb _ (by simp [X86.feature_flag_list])).2 ?_,
      keep F.SSE41 (hb _ (by simp [X86.feature_flag_list])).2 ?_,
      keep F.SSE42 (hb _ (by simp [X86.feature_flag_list])).2 ?_⟩
    · exact X86.sse_flag_disjoint F
        [F.AVX2, F.AVX512F, F.AVX512DQ, F.AVX512PF, F.AVX512ER, F.AVX512CD, F.AVX512BW,
          F.AVX512VL, F.FMA4]
        [F.SSSE3, F.SSE41, F.SSE42, F.AVX, F.FMA3] F.SSE3 rfl hpw
        (by intro c hc; simp only [List.mem_cons, List.not_mem_nil, or_false] at hc
            rcases hc with rfl | rfl | rfl | rfl | rfl | rfl | rfl <;> simp)
        (by intro c hc; simp only [List.mem_cons, List.not_mem_nil, or_false] at hc
            rcases hc with rfl | rfl | rfl | rfl <;> simp)
    · exact X86.sse_flag_disjoint F
        [F.AVX2, F.AVX512F, F.AVX512DQ, F.AVX512PF, F.AVX512ER, F.AVX512CD, F.AVX512BW,
          F.AVX512VL, F.FMA4, F.SSE3]
        [F.SSE41, F.SSE42, F.AVX, F.FMA3] F.SSSE3 rfl hpw
        (by intro c hc; simp only [List.mem_cons, List.not_mem_nil, or_false] at hc
            rcases hc with rfl | rfl | rfl | rfl | rfl | rfl | rfl <;> simp)
        (by intro c hc; simp only [List.mem_cons, List.not_mem_nil, or_false] at hc
            rcases hc with rfl | rfl | rfl | rfl <;> simp)
    · exact X86.sse_flag_disjoint F
        [F.AVX2, F.AVX512F, F.AVX512DQ, F.AVX512PF, F.AVX512ER, F.AVX512CD, F.AVX512BW,
          F.AVX512VL, F.FMA4, F.SSE3, F.SSSE3]
        [F.SSE42, F.AVX, F.FMA3] F.SSE41 rfl hpw
        (by intro c hc; simp only [List.mem_cons, List.not_mem_nil, or_false] at hc
            rcases hc with rfl | rfl | rfl | rfl | rfl | rfl | rfl <;> simp)
        (by intro c hc; simp only [List.mem_cons, List.not_mem_nil, or_false] at hc
            rcases hc with rfl | rfl | rfl | rfl <;> simp)
    · exact X86.sse_flag_disjoint F
        [F.AVX2, F.AVX512F, F.AVX512DQ, F.AVX512PF, F.AVX512ER, F.AVX512CD, F.AVX512BW,
          F.AVX512VL, F.FMA4, F.SSE3, F.SSSE3, F.SSE41]
        [F.AVX, F.FMA3] F.SSE42 rfl hpw
        (by intro c hc; simp only [List.mem_cons, List.not_mem_nil, or_false] at hc
            rcases hc with rfl | rfl | rfl | rfl | rfl | rfl | rfl <;> simp)
        (by intro c hc; simp only [List.mem_cons, List.not_mem_nil, or_false] at hc
            rcases hc with rfl | rfl | rfl | rfl <;> simp)

/-- Witness of C33: the Intel example machine (SSE3, SSSE3 and AVX reported)
with `xcr0 = 0x03` (XMM state without YMM state): AVX is cleared, SSE3 and
SSSE3 stay; with `xcr0 = 0xe7` the mask is the one before the gating. -/
theorem gating_only_clears_witness :
    (X86.independent_flags sampleFlags ∧ 1 ≤ 13 ∧ (0x03 : Nat).testBit 1 = true ∧
      (0x03 : Nat).testBit 2 = false) ∧
    X86.normalized_features sampleFlags { sampleIntelRegs with xcr0 := 0x03 } = 0x13 ∧
    (X86.bli_cpuid_query sampleFlags { sampleIntelRegs with xcr0 := 0x03 }).features = 0x03 ∧
    (X86.bli_cpuid_query sampleFlags { sampleIntelRegs with xcr0 := 0xe7 }).features = 0x13 ∧
    bli_cpuid_has_features
        (X86.bli_cpuid_query sampleFlags { sampleIntelRegs with xcr0 := 0x03 }).features
        sampleFlags.SSE3
      = bli_cpuid_has_features
        (X86.normalized_features sampleFlags { sampleIntelRegs with xcr0 := 0x03 })
        sampleFlags.SSE3 :=
  ⟨⟨by unfold X86.independent_flags X86.feature_flag_list; decide, by decide, by decide,
      by decide⟩,
    by decide, by decide,
    ((gating_only_clears sampleFlags { sampleIntelRegs with xcr0 := 0xe7 }).2.1
      (by decide) (by decide) (by decide) (by decide) (by decide) (by decide)).trans (by decide),
    ((gating_only_clears sampleFlags { sampleIntelRegs with xcr0 := 0x03 }).2.2
      (by unfold X86.independent_flags X86.feature_flag_list; decide)
      (by decide) (by decide) (by decide)).1⟩

/-- C34: for every leaf-1 EAX value the decoded model is at most 0xff and the
decoded family at most 0x10e; on decoder outputs `bli_cpuid_is_zen` holds iff
the features contain AVX|FMA3|AVX2 and the family is 0x17, its model-range
test being vacuous; and with no override and all sub-configurations enabled
an AMD CPU with decoded family 0x17 and those three flags is classified ZEN2
when its model is at least 0x30 and ZEN otherwise. -/
theorem decoder_bounds_and_zen (F : FeatureFlags) (eax features : Nat) :
    (X86.model_family eax).1 ≤ 0xff ∧ (X86.model_family eax).2 ≤ 0x10e ∧
    X86.bli_cpuid_is_zen F (X86.model_family eax).2 (X86.model_family eax).1 features
      = (bli_cpuid_has_features features (F.AVX ||| F.FMA3 ||| F.AVX2) &&
          ((X86.model_family eax).2 == 0x17)) ∧
    (∀ (b : Build) (A : ArchIds) (arch_string : Nat → String) (nvpu : Int),
      x86_all_enabled b → (X86.model_family eax).2 = 0x17 →
      bli_cpuid_has_features features (F.AVX ||| F.FMA3 ||| F.AVX2) = true →
      X86.bli_cpuid_query_id_with b A F (bli_env_check b A arch_string none) VENDOR_AMD
          (X86.model_family eax).2 (X86.model_family eax).1 features nvpu
        = if 0x30 ≤ (X86.model_family eax).1 then A.ZEN2 else A.ZEN) := by
  obtain ⟨hm, hfam⟩ := X86.model_family_bounds eax
  have hle : decide ((X86.model_family eax).1 ≤ 0xff) = true := decide_eq_true hm
  refine ⟨hm, hfam, ?_, ?_⟩
  · rw [X86.is_zen_eq]
    simp only [Nat.zero_le, decide_True, hle, Bool.and_true]
  · intro b A arch_string nvpu hb hf hfeat
    obtain ⟨-, -, -, -, -, h6, h7, -⟩ := hb
    rw [X86.unset_match, X86.match_amd]
    simp only [spec_first_match, spec_amd_table, h6, h7, Bool.true_and, X86.is_zen2_eq,
      X86.is_zen_eq, hfeat, hf, beq_self_eq_true, hle, Bool.and_true, Nat.zero_le, decide_True,
      decide_eq_true_eq, if_true]

/-- Witness of C34: the leaf-1 EAX values 0x00870f10 (family 0x17, model 0x71)
and 0x00800f11 (family 0x17, model 0x01) with AVX|FMA3|AVX2 on the example
numbering are classified ZEN2 and ZEN. -/
theorem decoder_bounds_and_zen_witness :
    (x86_all_enabled sampleBuild ∧ X86.model_family 0x00870f10 = (0x71, 0x17) ∧
      X86.model_family 0x00800f11 = (0x01, 0x17) ∧
      bli_cpuid_has_features 0x70 (sampleFlags.AVX ||| sampleFlags.FMA3 ||| sampleFlags.AVX2)
        = true) ∧
    X86.bli_cpuid_query_id_with sampleBuild sampleArch sampleFlags
        (bli_env_check sampleBuild sampleArch sampleNames none) VENDOR_AMD
        (X86.model_family 0x00870f10).2 (X86.model_family 0x00870f10).1 0x70 (-1)
      = sampleArch.ZEN2 ∧
    X86.bli_cpuid_query_id_with sampleBuild sampleArch sampleFlags
        (bli_env_check sampleBuild sampleArch sampleNames none) VENDOR_AMD
        (X86.model_family 0x00800f11).2 (X86.model_family 0x00800f11).1 0x70 (-1)
      = sampleArch.ZEN :=
  ⟨⟨by unfold x86_all_enabled; decide, by decide, by decide, by decide⟩,
    ((decoder_bounds_and_zen sampleFlags 0x00870f10 0x70).2.2.2 sampleBuild sampleArch
      sampleNames (-1) (by unfold x86_all_enabled; decide) (by decide) (by decide)).trans
      (by decide),
    ((decoder_bounds_and_zen sampleFlags 0x00800f11 0x70).2.2.2 sampleBuild sampleArch
      sampleNames (-1) (by unfold x86_all_enabled; decide) (by decide) (by decide)).trans
      (by decide)⟩

/-- C35: the four AMD family-0x15 signatures are pairwise disjoint and
disjoint from the two family-0x17 signatures: for every (family, model,
features) no two of `bli_cpuid_is_excavator`, `bli_cpuid_is_steamroller`,
`bli_cpuid_is_piledriver`, `bli_cpuid_is_bulldozer` hold together, and none of
them holds together with `bli_cpuid_is_zen` or `bli_cpuid_is_zen2`;
`bli_cpuid_is_zen2` implies `bli_cpuid_is_zen`; and the AMD result depends on
the table order only for the ZEN2/ZEN pair: every reordering of the six tests
of the source that keeps ZEN2 before ZEN gives the result of the source, for
every build configuration. -/
theorem amd_signatures_disjoint (F : FeatureFlags) (family model features : Nat) :
    ((X86.bli_cpuid_is_excavator F family model features &&
        X86.bli_cpuid_is_steamroller F family model features) = false ∧
      (X86.bli_cpuid_is_excavator F family model features &&
        X86.bli_cpuid_is_piledriver F family model features) = false ∧
      (X86.bli_cpuid_is_excavator F family model features &&
        X86.bli_cpuid_is_bulldozer F family model features) = false ∧
      (X86.bli_cpuid_is_steamroller F family model features &&
        X86.bli_cpuid_is_piledriver F family model features) = false ∧
      (X86.bli_cpuid_is_steamroller F family model features &&
        X86.bli_cpuid_is_bulldozer F family model features) = false ∧
      (X86.bli_cpuid_is_piledriver F family model features &&
        X86.bli_cpuid_is_bulldozer F family model features) = false) ∧
    ((X86.bli_cpuid_is_zen F family model features &&
        X86.bli_cpuid_is_excavator F family model features) = false ∧
      (X86.bli_cpuid_is_zen F family model features &&
        X86.bli_cpuid_is_steamroller F family model features) = false ∧
      (X86.bli_cpuid_is_zen F family model features &&
        X86.bli_cpuid_is_piledriver F family model features) = false ∧
      (X86.bli_cpuid_is_zen F family model features &&
        X86.bli_cpuid_is_bulldozer F family model features) = false ∧
      (X86.bli_cpuid_is_zen2 F family model features &&
        X86.bli_cpuid_is_excavator F family model features) = false ∧
      (X86.bli_cpuid_is_zen2 F family model features &&
        X86.bli_cpuid_is_steamroller F family model features) = false ∧
      (X86.bli_cpuid_is_zen2 F family model features &&
        X86.bli_cpuid_is_piledriver F family model features) = false ∧
      (X86.bli_cpuid_is_zen2 F family model features &&
        X86.bli_cpuid_is_bulldozer F family model features) = false) ∧
    (X86.bli_cpuid_is_zen2 F family model features = true →
      X86.bli_cpuid_is_zen F family model features = true) ∧
    (∀ (b : Build) (A : ArchIds) (nvpu : Int) (z2 z : Signature)
        (others a c d : List Signature),
      spec_amd_table b A F = z2 :: z :: others → (a ++ c ++ d).Perm others →
      spec_first_match A.GENERIC family model features nvpu (a ++ z2 :: (c ++ z :: d))
        = X86.bli_cpuid_query_id_match b A F VENDOR_AMD family model features nvpu) := by
  have h15 := X86.family_15_disjoint F family model features
  have h17 := X86.family_17_disjoint F family model features
  refine ⟨h15, h17, X86.zen2_is_zen F family model features, ?_⟩
  obtain ⟨d1, d2, d3, d4, d5, d6⟩ := h15
  obtain ⟨z1, z3, z4, z5, y1, y3, y4, y5⟩ := h17
  intro b A nvpu z2 z others a c d htab hperm
  rw [X86.match_amd, htab]
  simp only [spec_amd_table, List.cons.injEq] at htab
  obtain ⟨rfl, rfl, rfl⟩ := htab
  generalize hE : X86.bli_cpuid_is_excavator F family model features = pe at *
  generalize hS : X86.bli_cpuid_is_steamroller F family model features = ps at *
  generalize hP : X86.bli_cpuid_is_piledriver F family model features = pp at *
  generalize hB : X86.bli_cpuid_is_bulldozer F family model features = pb at *
  generalize hZ : X86.bli_cpuid_is_zen F family model features = pz at *
  generalize hZ2 : X86.bli_cpuid_is_zen2 F family model features = pz2 at *
  apply spec_first_match_order A.GENERIC family model features nvpu _ _ _ a c d hperm
  · intro hf e he
    simp only [List.mem_cons, List.mem_singleton, List.not_mem_nil, or_false] at he
    simp only [hZ2] at hf
    rcases he with rfl | rfl | rfl | rfl <;> simp only [hE, hS, hP, hB] <;>
      revert hf d1 d2 d3 d4 d5 d6 z1 z3 z4 z5 y1 y3 y4 y5 <;>
      cases pe <;> cases ps <;> cases pp <;> cases pb <;> cases pz <;> cases pz2 <;> simp
  · intro hf e he
    simp only [List.mem_cons, List.mem_singleton, List.not_mem_nil, or_false] at he
    simp only [hZ] at hf
    rcases he with rfl | rfl | rfl | rfl <;> simp only [hE, hS, hP, hB] <;>
      revert hf d1 d2 d3 d4 d5 d6 z1 z3 z4 z5 y1 y3 y4 y5 <;>
      cases pe <;> cases ps <;> cases pp <;> cases pb <;> cases pz <;> cases pz2 <;> simp
  · intro e1 he1 e2 he2 hf1 hf2
    simp only [List.mem_cons, List.mem_singleton, List.not_mem_nil, or_false] at he1 he2
    rcases he1 with rfl | rfl | rfl | rfl <;> rcases he2 with rfl | rfl | rfl | rfl <;>
      first
      | rfl
      | (exfalso
         simp only [hE, hS, hP, hB] at hf1 hf2
         revert hf1 hf2 d1 d2 d3 d4 d5 d6
         cases pe <;> cases ps <;> cases pp <;> cases pb <;> simp)

/-- Witness of C35: the six tests in the order BULLDOZER, ZEN2, PILEDRIVER,
STEAMROLLER, ZEN, EXCAVATOR give, for a Piledriver part on the example
numbering, the result of the source, PILEDRIVER. -/
theorem amd_signatures_disjoint_witness :
    X86.bli_cpuid_query_id_match sampleBuild sampleArch sampleFlags VENDOR_AMD 0x15 0x02 0xd0
      (-1) = sampleArch.PILEDRIVER ∧
    spec_first_match sampleArch.GENERIC 0x15 0x02 0xd0 (-1)
        [ ⟨sampleBuild.CONFIG_BULLDOZER,
            fun fam m ft _ => X86.bli_cpuid_is_bulldozer sampleFlags fam m ft,
            sampleArch.BULLDOZER⟩,
          ⟨sampleBuild.CONFIG_ZEN2, fun fam m ft _ => X86.bli_cpuid_is_zen2 sampleFlags fam m ft,
            sampleArch.ZEN2⟩,
          ⟨sampleBuild.CONFIG_PILEDRIVER,
            fun fam m ft _ => X86.bli_cpuid_is_piledriver sampleFlags fam m ft,
            sampleArch.PILEDRIVER⟩,
          ⟨sampleBuild.CONFIG_STEAMROLLER,
            fun fam m ft _ => X86.bli_cpuid_is_steamroller sampleFlags fam m ft,
            sampleArch.STEAMROLLER⟩,
          ⟨sampleBuild.CONFIG_ZEN, fun fam m ft _ => X86.bli_cpuid_is_zen sampleFlags fam m ft,
            sampleArch.ZEN⟩,
          ⟨sampleBuild.CONFIG_EXCAVATOR,
            fun fam m ft _ => X86.bli_cpuid_is_excavator sampleFlags fam m ft,
            sampleArch.EXCAVATOR⟩ ]
      = X86.bli_cpuid_query_id_match sampleBuild sampleArch sampleFlags VENDOR_AMD 0x15 0x02
        0xd0 (-1) :=
  ⟨by decide,
    (amd_signatures_disjoint sampleFlags 0x15 0x02 0xd0).2.2.2 sampleBuild sampleArch (-1)
      ⟨sampleBuild.CONFIG_ZEN2, fun fam m ft _ => X86.bli_cpuid_is_zen2 sampleFlags fam m ft,
        sampleArch.ZEN2⟩
      ⟨sampleBuild.CONFIG_ZEN, fun fam m ft _ => X86.bli_cpuid_is_zen sampleFlags fam m ft,
        sampleArch.ZEN⟩
      [ ⟨sampleBuild.CONFIG_EXCAVATOR,
          fun fam m ft _ => X86.bli_cpuid_is_excavator sampleFlags fam m ft,
          sampleArch.EXCAVATOR⟩,
        ⟨sampleBuild.CONFIG_STEAMROLLER,
          fun fam m ft _ => X86.bli_cpuid_is_steamroller sampleFlags fam m ft,
          sampleArch.STEAMROLLER⟩,
        ⟨sampleBuild.CONFIG_PILEDRIVER,
          fun fam m ft _ => X86.bli_cpuid_is_piledriver sampleFlags fam m ft,
          sampleArch.PILEDRIVER⟩,
        ⟨sampleBuild.CONFIG_BULLDOZER,
          fun fam m ft _ => X86.bli_cpuid_is_bulldozer sampleFlags fam m ft,
          sampleArch.BULLDOZER⟩ ]
      [ ⟨sampleBuild.CONFIG_BULLDOZER,
          fun fam m ft _ => X86.bli_cpuid_is_bulldozer sampleFlags fam m ft,
          sampleArch.BULLDOZER⟩ ]
      [ ⟨sampleBuild.CONFIG_PILEDRIVER,
          fun fam m ft _ => X86.bli_cpuid_is_piledriver sampleFlags fam m ft,
          sampleArch.PILEDRIVER⟩,
        ⟨sampleBuild.CONFIG_STEAMROLLER,
          fun fam m ft _ => X86.bli_cpuid_is_steamroller sampleFlags fam m ft,
          sampleArch.STEAMROLLER⟩ ]
      [ ⟨sampleBuild.CONFIG_EXCAVATOR,
          fun fam m ft _ => X86.bli_cpuid_is_excavator sampleFlags fam m ft,
          sampleArch.EXCAVATOR⟩ ]
      rfl (List.reverse_perm _).symm⟩

/-- C36: on the textual-scan ARM path with no override, when the first
`Processor` line yields `MODEL_ARMV8` (it contains `AArch64` or `ARMv8` and
not `ARMv7`), the matcher compares the parsed part number with the `arch_t`
enumerators: the result is the first of A64FX, THUNDERX2, CORTEXA57,
CORTEXA53 that is enabled and numerically equal to the part number, and
GENERIC when there is none; so the result is GENERIC or is the part number
itself, and it is GENERIC whenever the part number (0xd07 for a Cortex-A57,
0xd03 for a Cortex-A53) differs from the four enumerators.  The scans
terminate for a cpuinfo text file with lines shorter than 198 characters. -/
theorem armv8_part_compared_with_ids (b : Build) (A : ArchIds) (NEON : Nat)
    (arch_string : Nat → String) (fuel : Nat) (cpuinfo lp lq lf : List Nat)
    (hnul : ∀ c ∈ cpuinfo, c ≠ 0)
    (hlen : ∀ l ∈ file_lines cpuinfo, (line_text l).length < 198)
    (hp : first_line_with (ascii "Processor") cpuinfo = some lp)
    (hq : first_line_with (ascii "CPU part") cpuinfo = some lq)
    (hf : first_line_with (ascii "Features") cpuinfo = some lf)
    (hfuel : cpuinfo.length < fuel)
    (h7 : ¬ occurs_in (ascii "ARMv7") lp)
    (h8 : occurs_in (ascii "AArch64") lp ∨ occurs_in (ascii "ARMv8") lp) :
    ∃ q id, Arm32.bli_cpuid_query NEON fuel cpuinfo = some q ∧
      Arm32.bli_cpuid_query_id b A NEON arch_string none fuel cpuinfo = some id ∧
      q.vendor = VENDOR_ARM ∧ q.model = MODEL_ARMV8 ∧
      (∀ r, strstr lq (ascii "0x") = some r → hex_value 0 (r.drop 2) ≤ 0x7fffffff →
        q.part = hex_value 0 (r.drop 2)) ∧
      id = (if b.CONFIG_A64FX = true ∧ q.part = A.A64FX then A.A64FX
        else if b.CONFIG_THUNDERX2 = true ∧ q.part = A.THUNDERX2 then A.THUNDERX2
        else if b.CONFIG_CORTEXA57 = true ∧ q.part = A.CORTEXA57 then A.CORTEXA57
        else if b.CONFIG_CORTEXA53 = true ∧ q.part = A.CORTEXA53 then A.CORTEXA53
        else A.GENERIC) ∧
      (id = A.GENERIC ∨ id = q.part) ∧
      (q.part ≠ A.A64FX → q.part ≠ A.THUNDERX2 → q.part ≠ A.CORTEXA57 →
        q.part ≠ A.CORTEXA53 → id = A.GENERIC) := by
  have hquery := Arm32.query_of_lines NEON fuel cpuinfo lp lq lf hnul hlen hp hq hf hfuel
  have hn7 : (strstr lp (ascii "ARMv7")).isSome = false := by
    rw [Bool.eq_false_iff]
    exact fun h => h7 ((strstr_isSome_iff lp _).1 h)
  have hy8 : (strstr lp (ascii "AArch64")).isSome = true ∨
      (strstr lp (ascii "ARMv8")).isSome = true := by
    rcases h8 with h | h
    · exact Or.inl ((strstr_isSome_iff lp _).2 h)
    · exact Or.inr ((strstr_isSome_iff lp _).2 h)
  simp only [hn7, Bool.false_eq_true, if_false, hy8, if_true] at hquery
  have hq' : ∃ p ft, Arm32.bli_cpuid_query NEON fuel cpuinfo
        = some ⟨VENDOR_ARM, MODEL_ARMV8, p, ft⟩ ∧
      (∀ r, strstr lq (ascii "0x") = some r → hex_value 0 (r.drop 2) ≤ 0x7fffffff →
        p = hex_value 0 (r.drop 2)) := by
    refine ⟨_, _, hquery, ?_⟩
    intro r hr hv
    obtain ⟨u, hu⟩ := strstr_some_starts _ _ _ hr
    have h0x : ascii "0x" = [48, 120] := by decide
    rw [h0x] at hu
    subst hu
    simp only [List.cons_append, List.nil_append, List.drop_succ_cons, List.drop_zero] at hv hr ⊢
    simp only [hr]
    exact strtol16_part u hv
  obtain ⟨p, ft, hquery2, hpart⟩ := hq'
  have hid : Arm.bli_cpuid_query_id_match b A NEON VENDOR_ARM MODEL_ARMV8 p ft
      = (if b.CONFIG_A64FX = true ∧ p = A.A64FX then A.A64FX
        else if b.CONFIG_THUNDERX2 = true ∧ p = A.THUNDERX2 then A.THUNDERX2
        else if b.CONFIG_CORTEXA57 = true ∧ p = A.CORTEXA57 then A.CORTEXA57
        else if b.CONFIG_CORTEXA53 = true ∧ p = A.CORTEXA53 then A.CORTEXA53
        else A.GENERIC) := by
    simp only [Arm.bli_cpuid_query_id_match, Arm.bli_cpuid_is_a64fx, Arm.bli_cpuid_is_thunderx2,
      Arm.bli_cpuid_is_cortexa57, Arm.bli_cpuid_is_cortexa53, if_true, Bool.and_eq_true,
      beq_iff_eq]
  refine ⟨⟨VENDOR_ARM, MODEL_ARMV8, p, ft⟩, _, hquery2, ?_, rfl, rfl, hpart, rfl, ?_, ?_⟩
  · simp only [Arm32.bli_cpuid_query_id, bli_env_check_none, Arm.arm_override_minus_one,
      hquery2]
    rw [hid]
  · dsimp only
    split_ifs with c1 c2 c3 c4
    · exact Or.inr c1.2.symm
    · exact Or.inr c2.2.symm
    · exact Or.inr c3.2.symm
    · exact Or.inr c4.2.symm
    · exact Or.inl rfl
  · intro n1 n2 n3 n4
    dsimp only at n1 n2 n3 n4 ⊢
    simp only [n1, n2, n3, n4, and_false, if_false]

/-- Witness of C36: the fixture of the spec reports ARMv8 with CPU part 0xd07,
and a second file reports ARMv8 with CPU part 0xd03; on the example numbering
(CORTEXA57 = 13, CORTEXA53 = 14) both are classified GENERIC. -/
theorem armv8_part_compared_with_ids_witness :
    Arm32.bli_cpuid_query_id sampleBuild sampleArch 1 sampleNames none 100 sampleCpuinfo
      = some sampleArch.GENERIC ∧
    Arm32.bli_cpuid_query_id sampleBuild sampleArch 1 sampleNames none 100
        (ascii "Processor : ARMv8\nCPU part : 0xd03\nFeatures : asimd\n")
      = some sampleArch.GENERIC ∧
    (∃ q id, Arm32.bli_cpuid_query 1 100 sampleCpuinfo = some q ∧
      Arm32.bli_cpuid_query_id sampleBuild sampleArch 1 sampleNames none 100 sampleCpuinfo
        = some id ∧ q.vendor = VENDOR_ARM ∧ q.model = MODEL_ARMV8) :=
  ⟨by decide, by decide,
    (armv8_part_compared_with_ids sampleBuild sampleArch 1 sampleNames 100 sampleCpuinfo
      (ascii "Processor : ARMv8\n") (ascii "CPU part : 0xd07\n")
      (ascii "Features : neon asimd\n") (by decide) (by decide) (by decide) (by decide)
      (by decide) (by decide) ((strstr_eq_none_iff _ _).1 (by decide))
      (Or.inr ((strstr_isSome_iff _ _).1 (by decide)))).imp
      (fun q h => h.imp (fun id h2 => ⟨h2.1, h2.2.1, h2.2.2.1, h2.2.2.2.1⟩))⟩

end Blis
